import Mathlib

/-!
# DECaxp: Alpha 21264 Ibox core

Shallow embedding of the tournament branch predictor
(`src/src/AXP_21264_Predictions.c`), of the register renamer
(`AXP_RenameRegisters` in `src/src/cpu/AXP_21264_Ibox.c`, repeated verbatim in
`src/src/cpu/AXP_21264_Ibox_InstructionDecoding.c`), of the retirement sweep
(`AXP_21264_Ibox_Retire`), of the VPC list, the PAL entry points and the event
intake, of the decoder (`AXP_Decode_Rename`, `AXP_DecodeOperType`), of the queue
selection and the queue-entry pools, and of the start of `AXP_21264_Ibox_Init`
(all in `src/src/cpu/AXP_21264_Ibox.c`).

C arrays are total maps `Nat → α`; an index is in range when it is below the
table size, which the theorems state explicitly where it matters.  Unsigned
C values are natural numbers.
-/

set_option autoImplicit false

namespace DECaxp

/-! ## Constants and tables -/

/-- Number of entries of the local history table and of the local predictor. -/
def ONE_K : Nat := 1024

/-- Number of entries of the global and of the choice predictor. -/
def FOUR_K : Nat := 4096

/-- Register number meaning "not mapped" (R31/F31). -/
def AXP_UNMAPPED_REG : Nat := 31

/-- The C statement `tbl[i] = v`. -/
def setAt {α : Type} (tbl : Nat → α) (i : Nat) (v : α) : Nat → α :=
  fun j => if j = i then v else tbl j

/-- One entry of a register map: `cpu->prMap[r]` / `cpu->pfMap[r]`. -/
structure AXP_REG_MAP where
  pr : Nat
  prevPr : Nat
deriving DecidableEq, Repr

/-- Modelled from the spec: the physical register states of the absent CPU
header, "Pending (newly mapped, not yet written), Valid (executed and
written), WaitingRetirement (executed but mapping not yet retired)". -/
inductive AXP_REG_STATE where
  | Pending
  | Valid
  | WaitingRetirement
deriving DecidableEq, Repr

/-- Modelled from the spec: the states of a ROB entry, an enumeration of an
absent header; "Retired → (allocated) Queued → Executing → WaitingRetirement →
Retired". -/
inductive AXP_INS_STATE where
  | Retired
  | Queued
  | Executing
  | WaitingRetirement
deriving DecidableEq, Repr

/-- Modelled from the spec: the exception-register mask of a ROB entry, a type
of an absent header.  The code and the spec only compare it with
`NoException` ("If `excRegMask != NoException`"). -/
inductive AXP_EXCEPTIONS where
  | NoException
  | Exception (mask : Nat)
deriving DecidableEq, Repr

/-- The instruction formats that `AXP_Decode_Rename` tells apart
(`AXP_21264_Ibox.c`, lines 264-322), by their names in the source; the
enumeration is declared in an absent header. -/
inductive AXP_INS_TYPE where
  | Bra
  | FPBra
  | FP
  | Mem
  | Mbr
  | Mfc
  | Opr
  | Pcd
  | PAL
  | Res
deriving DecidableEq, Repr

/-- The operation types `AXP_OPER_TYPE` that the source names
(`AXP_21264_Ibox.c`, lines 523-584 and 2623); the enumeration is declared in an
absent header. -/
inductive AXP_OPER_TYPE where
  | Load
  | Store
  | Arith
  | Logic
  | Oper
  | Branch
  | Other
deriving DecidableEq, Repr

/-- The fields of the decoded instruction `AXP_INSTRUCTION` that the decoder,
the renamer and the retirement sweep read and write. -/
structure AXP_INSTRUCTION where
  /-- The 16-bit `decodedReg.raw`. -/
  decodedReg_raw : Nat
  aSrc1 : Nat
  aSrc2 : Nat
  aDest : Nat
  src1 : Nat
  src2 : Nat
  dest : Nat
  opcode : Nat
  type_hint_index : Nat
  /-- The 64-bit result `destv`. -/
  destv : Nat
  /-- The 64-bit value `src1v` of the first source operand. -/
  src1v : Nat
  state : AXP_INS_STATE
  excRegMask : AXP_EXCEPTIONS
  format : AXP_INS_TYPE
  function : Nat
  displacement : Nat
  len_stall : Nat
  scbdMask : Nat
  type : AXP_OPER_TYPE
  /-- The pipeline class `pipeline`, by the code of the enumeration value. -/
  pipeline : Nat
  /-- The VPC `pc` of the instruction, an `AXP_PC`. -/
  pc : Nat
deriving DecidableEq, Repr

/-- The fields of the IPR `EXC_SUM` (`cpu->excSum`), by the names
`AXP_21264_Ibox_Init` clears them with (`AXP_21264_Ibox.c`, lines 2354-2372).
The bit widths are declared in an absent header: a field holds the value that
was assigned to it. -/
structure EXC_SUM where
  swc : Nat
  inv : Nat
  dze : Nat
  ovf : Nat
  unf : Nat
  ine : Nat
  iov : Nat
  _int : Nat
  reg : Nat
  bad_iva : Nat
  res : Nat
  pc_ovfl : Nat
  set_inv : Nat
  set_dze : Nat
  set_ovf : Nat
  set_unf : Nat
  set_ine : Nat
  set_iov : Nat
  sext_set_iov : Nat
deriving DecidableEq, Repr

/-- The fields of the IPR `MM_STAT` (`cpu->mmStat`) that
`AXP_21264_Ibox_Event` assigns (`AXP_21264_Ibox.c`, lines 1464-1493).  The bit
widths are declared in an absent header: a field holds the value that was
assigned to it. -/
structure MM_STAT where
  wr : Nat
  acv : Nat
  _for : Nat
  fow : Nat
  opcodes : Nat
deriving DecidableEq, Repr

/-- The fields of `AXP_21264_CPU` that the predictor, the renamer, the
retirement sweep, the VPC list and the event intake use. -/
structure AXP_21264_CPU where
  /-- The table `cpu->localHistoryTable.lcl_history[ONE_K]`. -/
  lcl_history : Nat → Nat
  /-- The table `cpu->localPredictor.lcl_pred[ONE_K]`. -/
  lcl_pred : Nat → Nat
  /-- The table `cpu->globalPredictor.gbl_pred[FOUR_K]`. -/
  gbl_pred : Nat → Nat
  /-- The table `cpu->choicePredictor.choice_pred[FOUR_K]`. -/
  choice_pred : Nat → Nat
  globalPathHistory : Nat
  prMap : Nat → AXP_REG_MAP
  pfMap : Nat → AXP_REG_MAP
  prFreeList : Nat → Nat
  pfFreeList : Nat → Nat
  prFlStart : Nat
  prFlEnd : Nat
  pfFlStart : Nat
  pfFlEnd : Nat
  prState : Nat → AXP_REG_STATE
  pfState : Nat → AXP_REG_STATE
  /-- The integer physical register file `cpu->pr[]`. -/
  pr : Nat → Nat
  /-- The floating-point physical register file `cpu->pf[]`. -/
  pf : Nat → Nat
  /-- The reorder buffer `cpu->rob[AXP_INFLIGHT_MAX]`. -/
  rob : Nat → AXP_INSTRUCTION
  robStart : Nat
  robEnd : Nat
  excPend : Bool
  /-- The VPC list `cpu->vpc[AXP_INFLIGHT_MAX]`; an `AXP_PC` is its raw 64-bit
  word. -/
  vpc : Nat → Nat
  vpcStart : Nat
  vpcEnd : Nat
  /-- The IPR field `cpu->excAddr.exc_pc`, an `AXP_PC`. -/
  excAddr_exc_pc : Nat
  /-- The IPR `cpu->va`. -/
  va : Nat
  excSum : EXC_SUM
  mmStat : MM_STAT
  /-- The IPR field `cpu->iSum.ei`. -/
  iSum_ei : Nat
  irqH : Nat
  /-- The exception PC `cpu->excPC`, an `AXP_PC`. -/
  excPC : Nat
  /-- The IPR field `cpu->palBase.pal_base_pc`. -/
  palBase_pal_base_pc : Nat
  majorType : Nat
  /-- The IPR field `cpu->iCtl.call_pal_r23`. -/
  iCtl_call_pal_r23 : Nat
  /-- The free-list `cpu->iqEFreelist[AXP_IQ_LEN]` of indices of IQ entries. -/
  iqEFreelist : Nat → Nat
  iqEFlStart : Nat
  iqEFlEnd : Nat
  /-- The free-list `cpu->fqEFreelist[AXP_FQ_LEN]` of indices of FQ entries. -/
  fqEFreelist : Nat → Nat
  fqEFlStart : Nat
  fqEFlEnd : Nat

/-! ## Predictor macros (header `AXP_21264_Predictions.h` is not in the tree) -/

/-- Modelled from the spec: `LPTIndex`, the union of the absent header that
overlays the VPC with its index field; "Local history: 1024 × 10-bit shift
register indexed by VPC bits [11:2]".  The VPC is the raw 64-bit word. -/
def LPTIndex_index (vpc : Nat) : Nat := (vpc / 4) % 1024

/-- Modelled from the spec: macro `AXP_3BIT_TAKE` of the absent header;
"3-bit counter, taken iff ≥ 4". -/
def AXP_3BIT_TAKE (cntr : Nat) : Bool := decide (4 ≤ cntr)

/-- Modelled from the spec: macro `AXP_2BIT_TAKE` of the absent header;
"2-bit, taken iff ≥ 2". -/
def AXP_2BIT_TAKE (cntr : Nat) : Bool := decide (2 ≤ cntr)

/-- Modelled from the spec: macro `AXP_3BIT_INCR` of the absent header;
"3-bit saturating counter", counters stay within `[0, 7]`. -/
def AXP_3BIT_INCR (cntr : Nat) : Nat := if cntr < 7 then cntr + 1 else cntr

/-- Modelled from the spec: macro `AXP_3BIT_DECR` of the absent header;
saturating decrement, never below 0. -/
def AXP_3BIT_DECR (cntr : Nat) : Nat := if 0 < cntr then cntr - 1 else cntr

/-- Modelled from the spec: macro `AXP_2BIT_INCR` of the absent header;
"2-bit saturating counter", counters stay within `[0, 3]`. -/
def AXP_2BIT_INCR (cntr : Nat) : Nat := if cntr < 3 then cntr + 1 else cntr

/-- Modelled from the spec: macro `AXP_2BIT_DECR` of the absent header;
saturating decrement, never below 0. -/
def AXP_2BIT_DECR (cntr : Nat) : Nat := if 0 < cntr then cntr - 1 else cntr

/-- Modelled from the spec: macro `AXP_LOCAL_PATH_TAKEN` of the absent header;
"Shift actualTaken into local_history[vpc.index], dropping the high bit" of the
10-bit register. -/
def AXP_LOCAL_PATH_TAKEN (lpte : Nat) : Nat := ((lpte <<< 1) ||| 1) % 1024

/-- Modelled from the spec: macro `AXP_LOCAL_PATH_NOT_TAKEN` of the absent
header; shifts a 0 into the 10-bit local history. -/
def AXP_LOCAL_PATH_NOT_TAKEN (lpte : Nat) : Nat := (lpte <<< 1) % 1024

/-- Modelled from the spec: macro `AXP_GLOBAL_PATH_TAKEN` of the absent header;
shifts a 1 into the 12-bit global path history, dropping the high bit. -/
def AXP_GLOBAL_PATH_TAKEN (gph : Nat) : Nat := ((gph <<< 1) ||| 1) % 4096

/-- Modelled from the spec: macro `AXP_GLOBAL_PATH_NOT_TAKEN` of the absent
header; shifts a 0 into the 12-bit global path history. -/
def AXP_GLOBAL_PATH_NOT_TAKEN (gph : Nat) : Nat := (gph <<< 1) % 4096

/-! ## `AXP_21264_Predictions.c` -/

/-- The return value and the three output parameters of
`AXP_Branch_Prediction`. -/
structure AXP_PREDICTION where
  retVal : Bool
  localTaken : Bool
  globalTaken : Bool
  choice : Bool
deriving DecidableEq, Repr

/-- Function `AXP_Branch_Prediction` (`AXP_21264_Predictions.c`, lines 82-116). -/
def AXP_Branch_Prediction (cpu : AXP_21264_CPU) (vpc : Nat) : AXP_PREDICTION :=
  let lcl_history_idx := LPTIndex_index vpc
  let lcl_predictor_idx := cpu.lcl_history lcl_history_idx
  let localTaken := AXP_3BIT_TAKE (cpu.lcl_pred lcl_predictor_idx)
  let globalTaken := AXP_2BIT_TAKE (cpu.gbl_pred cpu.globalPathHistory)
  let choice := AXP_2BIT_TAKE (cpu.choice_pred cpu.globalPathHistory)
  let retVal :=
    if localTaken != globalTaken then
      (if choice == true then globalTaken else localTaken)
    else
      localTaken
  { retVal := retVal, localTaken := localTaken, globalTaken := globalTaken,
    choice := choice }

/-- Function `AXP_Branch_Direction` (`AXP_21264_Predictions.c`, lines 141-210). -/
def AXP_Branch_Direction (cpu : AXP_21264_CPU) (vpc : Nat)
    (taken localTaken globalTaken : Bool) : AXP_21264_CPU :=
  let lcl_history_idx := LPTIndex_index vpc
  let lcl_predictor_idx := cpu.lcl_history lcl_history_idx
  let cpu1 : AXP_21264_CPU :=
    if (taken == localTaken) && (taken != globalTaken) then
      { cpu with
        choice_pred := setAt cpu.choice_pred cpu.globalPathHistory
          (AXP_2BIT_DECR (cpu.choice_pred cpu.globalPathHistory)) }
    else if (taken != localTaken) && (taken == globalTaken) then
      { cpu with
        choice_pred := setAt cpu.choice_pred cpu.globalPathHistory
          (AXP_2BIT_INCR (cpu.choice_pred cpu.globalPathHistory)) }
    else
      cpu
  if taken == true then
    let cpu2 : AXP_21264_CPU :=
      { cpu1 with
        lcl_pred := setAt cpu1.lcl_pred lcl_predictor_idx
          (AXP_3BIT_INCR (cpu1.lcl_pred lcl_predictor_idx)) }
    let cpu3 : AXP_21264_CPU :=
      { cpu2 with
        gbl_pred := setAt cpu2.gbl_pred cpu2.globalPathHistory
          (AXP_2BIT_INCR (cpu2.gbl_pred cpu2.globalPathHistory)) }
    let cpu4 : AXP_21264_CPU :=
      { cpu3 with
        lcl_history := setAt cpu3.lcl_history lcl_history_idx
          (AXP_LOCAL_PATH_TAKEN (cpu3.lcl_history lcl_history_idx)) }
    { cpu4 with
        globalPathHistory := AXP_GLOBAL_PATH_TAKEN cpu4.globalPathHistory }
  else
    let cpu2 : AXP_21264_CPU :=
      { cpu1 with
        lcl_pred := setAt cpu1.lcl_pred lcl_predictor_idx
          (AXP_3BIT_DECR (cpu1.lcl_pred lcl_predictor_idx)) }
    let cpu3 : AXP_21264_CPU :=
      { cpu2 with
        gbl_pred := setAt cpu2.gbl_pred cpu2.globalPathHistory
          (AXP_2BIT_DECR (cpu2.gbl_pred cpu2.globalPathHistory)) }
    let cpu4 : AXP_21264_CPU :=
      { cpu3 with
        lcl_history := setAt cpu3.lcl_history lcl_history_idx
          (AXP_LOCAL_PATH_NOT_TAKEN (cpu3.lcl_history lcl_history_idx)) }
    { cpu4 with
        globalPathHistory := AXP_GLOBAL_PATH_NOT_TAKEN cpu4.globalPathHistory }

/-- One pass of the body of the trace loop of the unit test `main`
(`AXP_21264_Predictions.c`, lines 295 and 342): predict, then train with the
local and global predictions just made. -/
def predictTrain (vpc : Nat) (taken : Bool) (cpu : AXP_21264_CPU) : AXP_21264_CPU :=
  let p := AXP_Branch_Prediction cpu vpc
  AXP_Branch_Direction cpu vpc taken p.localTaken p.globalTaken

/-- State after `n` consecutive predict-then-train rounds of one branch. -/
def predictTrainRounds (vpc : Nat) (taken : Bool) : Nat → AXP_21264_CPU → AXP_21264_CPU
  | 0, cpu => cpu
  | n + 1, cpu => predictTrainRounds vpc taken n (predictTrain vpc taken cpu)

/-- The predictions returned in `n` consecutive predict-then-train rounds of
one branch, first round first. -/
def roundPredictions (vpc : Nat) (taken : Bool) : Nat → AXP_21264_CPU → List Bool
  | 0, _ => []
  | n + 1, cpu =>
    (AXP_Branch_Prediction cpu vpc).retVal ::
      roundPredictions vpc taken n (predictTrain vpc taken cpu)

/-- Every predictor counter and history is within the range of its field. -/
def PredictorInRange (cpu : AXP_21264_CPU) : Prop :=
  (∀ i, i < ONE_K → cpu.lcl_pred i ≤ 7) ∧
  (∀ i, i < FOUR_K → cpu.gbl_pred i ≤ 3) ∧
  (∀ i, i < FOUR_K → cpu.choice_pred i ≤ 3) ∧
  (∀ i, i < ONE_K → cpu.lcl_history i < 1024) ∧
  cpu.globalPathHistory < 4096

/-- A ROB slot as `AXP_21264_Ibox_Init` leaves it (`AXP_21264_Ibox.c`, line
2486): state `Retired`; the other fields are cleared. -/
def robSlotRetired : AXP_INSTRUCTION :=
  { decodedReg_raw := 0, aSrc1 := 0, aSrc2 := 0, aDest := 0,
    src1 := 0, src2 := 0, dest := 0, opcode := 0, type_hint_index := 0,
    destv := 0, src1v := 0, state := AXP_INS_STATE.Retired,
    excRegMask := AXP_EXCEPTIONS.NoException,
    format := AXP_INS_TYPE.Res, function := 0, displacement := 0,
    len_stall := 0, scbdMask := 0, type := AXP_OPER_TYPE.Other, pipeline := 0,
    pc := 0 }

/-- The IPR `EXC_SUM` with every field 0: what `*((u64 *) &cpu->excSum) = 0`
leaves, and what `AXP_21264_Ibox_Init` sets (lines 2354-2372). -/
def excSumCleared : EXC_SUM :=
  { swc := 0, inv := 0, dze := 0, ovf := 0, unf := 0, ine := 0, iov := 0,
    _int := 0, reg := 0, bad_iva := 0, res := 0, pc_ovfl := 0, set_inv := 0,
    set_dze := 0, set_ovf := 0, set_unf := 0, set_ine := 0, set_iov := 0,
    sext_set_iov := 0 }

/-- The IPR `MM_STAT` with every field 0: what `*((u64 *) &cpu->mmStat) = 0`
leaves. -/
def mmStatCleared : MM_STAT :=
  { wr := 0, acv := 0, _for := 0, fow := 0, opcodes := 0 }

/-- The CPU state with every predictor table and history cleared, as the unit
test leaves it between traces (`AXP_21264_Predictions.c`, lines 363-371).  The
register maps are the identity with no previous mapping; each free-list ring
holds, in slots 0 to 38, the physical registers above the architectural ones
(integer 40 to 78, floating-point 32 to 70).  The ROB is empty with every slot
`Retired` (`AXP_21264_Ibox.c`, lines 2482-2487), no exception is pending and
the register files hold zeros.  The VPC list is empty (lines 2420-2421), the
IPRs `EXC_SUM`, `EXC_ADDR`, `ISUM` and `PAL_BASE` are 0 (lines 2317-2373) and
so is `I_CTL.call_pal_r23` (line 2388).  Each queue-entry free-list holds the
index i in slot i, with both cursors 0; the remaining fields are 0. -/
def cpuCleared : AXP_21264_CPU :=
  { lcl_history := fun _ => 0
    lcl_pred := fun _ => 0
    gbl_pred := fun _ => 0
    choice_pred := fun _ => 0
    globalPathHistory := 0
    prMap := fun r => { pr := r, prevPr := AXP_UNMAPPED_REG }
    pfMap := fun r => { pr := r, prevPr := AXP_UNMAPPED_REG }
    prFreeList := fun i => 40 + i
    pfFreeList := fun i => 32 + i
    prFlStart := 0
    prFlEnd := 39
    pfFlStart := 0
    pfFlEnd := 39
    prState := fun _ => AXP_REG_STATE.Valid
    pfState := fun _ => AXP_REG_STATE.Valid
    pr := fun _ => 0
    pf := fun _ => 0
    rob := fun _ => robSlotRetired
    robStart := 0
    robEnd := 0
    excPend := false
    vpc := fun _ => 0
    vpcStart := 0
    vpcEnd := 0
    excAddr_exc_pc := 0
    va := 0
    excSum := excSumCleared
    mmStat := mmStatCleared
    iSum_ei := 0
    irqH := 0
    excPC := 0
    palBase_pal_base_pc := 0
    majorType := 0
    iCtl_call_pal_r23 := 0
    iqEFreelist := fun i => i
    iqEFlStart := 0
    iqEFlEnd := 0
    fqEFreelist := fun i => i
    fqEFlStart := 0
    fqEFlEnd := 0 }

/-- State of a branch whose histories are all ones, with the two counters
they select at least `min k 7` and `min k 3`. -/
def TakenSaturating (vpc k : Nat) (cpu : AXP_21264_CPU) : Prop :=
  cpu.lcl_history (LPTIndex_index vpc) = 1023 ∧ cpu.globalPathHistory = 4095 ∧
  cpu.lcl_pred 1023 ≤ 7 ∧ cpu.gbl_pred 4095 ≤ 3 ∧
  min k 7 ≤ cpu.lcl_pred 1023 ∧ min k 3 ≤ cpu.gbl_pred 4095

/-! ## `AXP_RenameRegisters` (`AXP_21264_Ibox.c`, lines 842-953) -/

/-- Function `AXP_RenameRegisters`; the copy in
`AXP_21264_Ibox_InstructionDecoding.c` (lines 693-803) is the same text.  The
free-list sizes `AXP_I_FREELIST_SIZE` and `AXP_F_FREELIST_SIZE` are constants of
a header that is not in the tree and are parameters here.  Returns the CPU and
the decoded instruction as the call leaves them. -/
def AXP_RenameRegisters (AXP_I_FREELIST_SIZE AXP_F_FREELIST_SIZE : Nat)
    (cpu : AXP_21264_CPU) (decodedInstr : AXP_INSTRUCTION) :
    AXP_21264_CPU × AXP_INSTRUCTION :=
  let src1Float : Bool := (decodedInstr.decodedReg_raw &&& 0x0008) == 0x0008
  let src2Float : Bool := (decodedInstr.decodedReg_raw &&& 0x0080) == 0x0080
  let destFloat : Bool := (decodedInstr.decodedReg_raw &&& 0x0800) == 0x0800
  let ins1 : AXP_INSTRUCTION :=
    { decodedInstr with
        src1 := if src1Float then (cpu.pfMap decodedInstr.aSrc1).pr
                else (cpu.prMap decodedInstr.aSrc1).pr }
  let ins2 : AXP_INSTRUCTION :=
    { ins1 with
        src2 := if src2Float then (cpu.pfMap ins1.aSrc2).pr
                else (cpu.prMap ins1.aSrc2).pr }
  if ins2.aDest != AXP_UNMAPPED_REG then
    if destFloat then
      -- decodedInstr->dest = cpu->pfFreeList[cpu->pfFlStart];
      let ins3 : AXP_INSTRUCTION := { ins2 with dest := cpu.pfFreeList cpu.pfFlStart }
      let cpu1 : AXP_21264_CPU :=
        if (cpu.pfMap ins3.aDest).prevPr != AXP_UNMAPPED_REG then
          { cpu with
              pfFreeList := setAt cpu.pfFreeList cpu.pfFlEnd (cpu.pfMap ins3.aDest).prevPr
              pfFlEnd := (cpu.pfFlEnd + 1) % AXP_F_FREELIST_SIZE }
        else cpu
      -- cpu->pfMap[aDest].prevPr = cpu->pfMap[aDest].pr;
      let cpu2 : AXP_21264_CPU :=
        { cpu1 with
            pfMap := setAt cpu1.pfMap ins3.aDest
              { pr := (cpu1.pfMap ins3.aDest).pr, prevPr := (cpu1.pfMap ins3.aDest).pr } }
      -- cpu->pfMap[aDest].pr = decodedInstr->dest;
      let cpu3 : AXP_21264_CPU :=
        { cpu2 with
            pfMap := setAt cpu2.pfMap ins3.aDest
              { pr := ins3.dest, prevPr := (cpu2.pfMap ins3.aDest).prevPr } }
      let cpu4 : AXP_21264_CPU :=
        { cpu3 with
            pfState := setAt cpu3.pfState ins3.aDest AXP_REG_STATE.Pending }
      let cpu5 : AXP_21264_CPU :=
        { cpu4 with
            pfFlStart := (cpu4.pfFlStart + 1) % AXP_F_FREELIST_SIZE }
      (cpu5, ins3)
    else
      -- decodedInstr->dest = cpu->prFreeList[cpu->prFlStart++];
      let ins3 : AXP_INSTRUCTION := { ins2 with dest := cpu.prFreeList cpu.prFlStart }
      let cpu0 : AXP_21264_CPU := { cpu with prFlStart := cpu.prFlStart + 1 }
      let cpu1 : AXP_21264_CPU :=
        if (cpu0.prMap ins3.aDest).prevPr != AXP_UNMAPPED_REG then
          { cpu0 with
              prFreeList := setAt cpu0.prFreeList cpu0.prFlEnd (cpu0.prMap ins3.aDest).prevPr
              prFlEnd := (cpu0.prFlEnd + 1) % AXP_I_FREELIST_SIZE }
        else cpu0
      -- cpu->prMap[aDest].prevPr = cpu->pfMap[aDest].pr;
      let cpu2 : AXP_21264_CPU :=
        { cpu1 with
            prMap := setAt cpu1.prMap ins3.aDest
              { pr := (cpu1.prMap ins3.aDest).pr, prevPr := (cpu1.pfMap ins3.aDest).pr } }
      -- cpu->prMap[aDest].pr = decodedInstr->dest;
      let cpu3 : AXP_21264_CPU :=
        { cpu2 with
            prMap := setAt cpu2.prMap ins3.aDest
              { pr := ins3.dest, prevPr := (cpu2.prMap ins3.aDest).prevPr } }
      let cpu4 : AXP_21264_CPU :=
        { cpu3 with
            prState := setAt cpu3.prState ins3.aDest AXP_REG_STATE.Pending }
      -- cpu->prFlStart = (cpu->prFlStart + 1) % AXP_I_FREELIST_SIZE;
      let cpu5 : AXP_21264_CPU :=
        { cpu4 with
            prFlStart := (cpu4.prFlStart + 1) % AXP_I_FREELIST_SIZE }
      (cpu5, ins3)
  else
    (cpu,
     { ins2 with
         dest := if src2Float then (cpu.pfMap ins2.aDest).pr
                 else (cpu.prMap ins2.aDest).pr })

/-- Decoded `ADDQ R1, R2, R3`: integer sources R1 and R2, integer destination
R3.  Of `decodedReg.raw` the renamer reads only the float flags 0x0008, 0x0080
and 0x0800, all clear here. -/
def ADDQ_R1_R2_R3 : AXP_INSTRUCTION :=
  { decodedReg_raw := 0x0321, aSrc1 := 1, aSrc2 := 2, aDest := 3,
    src1 := 0, src2 := 0, dest := 0, opcode := 0x10, type_hint_index := 0,
    destv := 0, src1v := 0, state := AXP_INS_STATE.Retired,
    excRegMask := AXP_EXCEPTIONS.NoException,
    format := AXP_INS_TYPE.Opr, function := 0x20, displacement := 0,
    len_stall := 0, scbdMask := 0, type := AXP_OPER_TYPE.Arith, pipeline := 0,
    pc := 0 }

/-- Decoded `ADDT F1, F2, F3`: floating-point sources F1 and F2,
floating-point destination F3; the three float flags of `decodedReg.raw` are
set. -/
def ADDT_F1_F2_F3 : AXP_INSTRUCTION :=
  { decodedReg_raw := 0x0ba9, aSrc1 := 1, aSrc2 := 2, aDest := 3,
    src1 := 0, src2 := 0, dest := 0, opcode := 0x16, type_hint_index := 0,
    destv := 0, src1v := 0, state := AXP_INS_STATE.Retired,
    excRegMask := AXP_EXCEPTIONS.NoException,
    format := AXP_INS_TYPE.FP, function := 0x0A0, displacement := 0,
    len_stall := 0, scbdMask := 0, type := AXP_OPER_TYPE.Arith, pipeline := 0,
    pc := 0 }

/-- The CPU after `ADDT F1, F2, F3` has been renamed in the cleared state, with
free-lists of 40 slots each. -/
def cpuAfterADDT : AXP_21264_CPU :=
  (AXP_RenameRegisters 40 40 cpuCleared ADDT_F1_F2_F3).1

/-! ## `AXP_21264_Ibox_Retire` (`AXP_21264_Ibox.c`, lines 2098-2251) -/

/-- Modelled from the spec: the bit-field `decodedReg.bits.dest` of an absent
header, the 4-bit destination field of the register-decoding mask.  In
`decodedReg.raw` the renamer tests the float flags 0x0008, 0x0080 and 0x0800 of
source 1, source 2 and destination, so the destination field is the third
nibble. -/
def decodedReg_bits_dest (raw : Nat) : Nat := (raw >>> 8) &&& 0xF

/-- Modelled from the spec: the mask `AXP_DEST_FLOAT` of an absent header, the
float flag within the destination field; "if destination is a floating-point
register, commit `destv` into physical FP file". -/
def AXP_DEST_FLOAT : Nat := 0x8

/-- The CPU together with the local variables `ii`, `end`, `split` and `done`
of `AXP_21264_Ibox_Retire`. -/
structure RETIRE_LOOP where
  cpu : AXP_21264_CPU
  ii : Nat
  end_ : Nat
  split : Bool
  done : Bool

/-- The constants and macros of absent headers that the retirement of an
`HW_MTPR` uses: the opcode, the indices of the IPRs `PAL_BASE` and `I_CTL`, and
the macros `AXP_IBOX_WRITE_PAL_BASE(src, cpu)` and `AXP_IBOX_WRITE_I_CTL(src,
cpu)`, each by the value it leaves in the field of the IPR that
`AXP_21264_CPU` holds here (`cpu->palBase.pal_base_pc`,
`cpu->iCtl.call_pal_r23`). -/
structure AXP_MTPR_CODES where
  HW_MTPR : Nat
  AXP_IPR_PAL_BASE : Nat
  AXP_IPR_I_CTL : Nat
  AXP_IBOX_WRITE_PAL_BASE : Nat → AXP_21264_CPU → Nat
  AXP_IBOX_WRITE_I_CTL : Nat → AXP_21264_CPU → Nat

/-- The handler of `HW_MTPR` at retirement (`AXP_21264_Ibox.c`, lines
1795-2077; the source names it `AXP_21264_Ibox_Retire_HW_MFPR` a second time,
its header comment `AXP_21264_Ibox_Retire_HW_MTPR`): the `switch` on
`instr->type_hint_index` writes the IPR of that index from `instr->src1v`.  Of
the IPRs it has a `case` for, `PAL_BASE` (line 1892) and `I_CTL` (line 1896)
have a field in `AXP_21264_CPU` here; the other cases write IPRs of the Ibox,
the Mbox and the Cbox and the ITB, or are empty.  The labels of a `switch` are
distinct, so the order of the two tests is immaterial. -/
def AXP_21264_Ibox_Retire_HW_MTPR (W : AXP_MTPR_CODES) (cpu : AXP_21264_CPU)
    (instr : AXP_INSTRUCTION) : AXP_21264_CPU :=
  if instr.type_hint_index == W.AXP_IPR_PAL_BASE then
    -- AXP_IBOX_WRITE_PAL_BASE(instr->src1v.r.uq, cpu);
    { cpu with
        palBase_pal_base_pc := W.AXP_IBOX_WRITE_PAL_BASE instr.src1v cpu }
  else if instr.type_hint_index == W.AXP_IPR_I_CTL then
    -- AXP_IBOX_WRITE_I_CTL(instr->src1v.r.uq,cpu);
    { cpu with
        iCtl_call_pal_r23 := W.AXP_IBOX_WRITE_I_CTL instr.src1v cpu }
  else cpu

/-- The result commit of one entry without exception in
`AXP_21264_Ibox_Retire` (lines 2156-2181, `rob = &cpu->rob[ii]`).  The opcode
`HW_MFPR` is a constant of an absent header and is a parameter.  The first
`AXP_21264_Ibox_Retire_HW_MFPR` (lines 1567-1776) assigns `instr->destv` from
an IPR and nothing else of the instruction; `Retire_HW_MFPR` gives the value
`destv` holds after it. -/
def retireResult (HW_MFPR : Nat)
    (Retire_HW_MFPR : AXP_21264_CPU → AXP_INSTRUCTION → Nat)
    (cpu : AXP_21264_CPU) (ii : Nat) : AXP_21264_CPU :=
  let rob : AXP_INSTRUCTION := cpu.rob ii
  -- if (rob->opcode == HW_MFPR) AXP_21264_Ibox_Retire_HW_MFPR(cpu, rob);
  let cpuA : AXP_21264_CPU :=
    if rob.opcode == HW_MFPR then
      { cpu with
          rob := setAt cpu.rob ii { rob with destv := Retire_HW_MFPR cpu rob } }
    else cpu
  let robA : AXP_INSTRUCTION := cpuA.rob ii
  if (decodedReg_bits_dest robA.decodedReg_raw &&& AXP_DEST_FLOAT) == AXP_DEST_FLOAT then
    -- cpu->pf[rob->dest] = rob->destv;
    { cpuA with
        pf := setAt cpuA.pf robA.dest robA.destv }
  else if decodedReg_bits_dest robA.decodedReg_raw != 0 then
    -- cpu->pr[rob->dest] = rob->destv;
    { cpuA with
        pr := setAt cpuA.pr robA.dest robA.destv }
  else cpuA

/-- The commit of one entry without exception in `AXP_21264_Ibox_Retire` (lines
2156-2209): the result commit, then the `switch` on the opcode (lines
2186-2209).  Its case `HW_MTPR` runs the IPR write
`AXP_21264_Ibox_Retire_HW_MTPR`; the store opcodes call
`AXP_21264_Mbox_RetireWrite(cpu, rob->slot)`, which commits the store-queue
slot to the Dcache: the store queue and the Dcache are not fields of
`AXP_21264_CPU` here. -/
def retireCommit (HW_MFPR : Nat)
    (Retire_HW_MFPR : AXP_21264_CPU → AXP_INSTRUCTION → Nat) (W : AXP_MTPR_CODES)
    (cpu : AXP_21264_CPU) (ii : Nat) : AXP_21264_CPU :=
  let cpuB : AXP_21264_CPU := retireResult HW_MFPR Retire_HW_MFPR cpu ii
  -- switch (rob->opcode) ... case HW_MTPR:
  if (cpuB.rob ii).opcode == W.HW_MTPR then
    AXP_21264_Ibox_Retire_HW_MTPR W cpuB (cpuB.rob ii)
  else cpuB

/-- The retirement of the entry in slot `ii`, found `WaitingRetirement`, in
`AXP_21264_Ibox_Retire` (lines 2144-2217).  `AXP_INFLIGHT_MAX` is a constant of
an absent header and is a parameter.  The block for
`rob->excRegMask != NoException` is empty in the source (lines 2151-2153). -/
def retireSlot (AXP_INFLIGHT_MAX HW_MFPR : Nat)
    (Retire_HW_MFPR : AXP_21264_CPU → AXP_INSTRUCTION → Nat) (W : AXP_MTPR_CODES)
    (cpu : AXP_21264_CPU) (ii : Nat) : AXP_21264_CPU :=
  let cpu1 : AXP_21264_CPU :=
    if (cpu.rob ii).excRegMask != AXP_EXCEPTIONS.NoException then cpu
    else retireCommit HW_MFPR Retire_HW_MFPR W cpu ii
  -- cpu->rob[ii].state = Retired;
  let cpu2 : AXP_21264_CPU :=
    { cpu1 with
        rob := setAt cpu1.rob ii { cpu1.rob ii with state := AXP_INS_STATE.Retired } }
  -- cpu->robStart = (cpu->robStart + 1) % AXP_INFLIGHT_MAX;
  { cpu2 with
      robStart := (cpu2.robStart + 1) % AXP_INFLIGHT_MAX }

/-- One pass through the body of the `while` loop of `AXP_21264_Ibox_Retire`
(lines 2134-2238). -/
def retireIteration (AXP_INFLIGHT_MAX HW_MFPR : Nat)
    (Retire_HW_MFPR : AXP_21264_CPU → AXP_INSTRUCTION → Nat) (W : AXP_MTPR_CODES)
    (s : RETIRE_LOOP) : RETIRE_LOOP :=
  let s1 : RETIRE_LOOP :=
    if (s.cpu.rob s.ii).state == AXP_INS_STATE.WaitingRetirement then
      { s with cpu := retireSlot AXP_INFLIGHT_MAX HW_MFPR Retire_HW_MFPR W s.cpu s.ii }
    else
      { s with done := true }
  -- ii++;
  let s2 : RETIRE_LOOP := { s1 with ii := s1.ii + 1 }
  if (s2.ii == s2.end_) && (s2.split == true) then
    { s2 with ii := 0, end_ := s2.cpu.robEnd, split := false }
  else s2

/-- The `while ((ii < end) && (done == false))` loop of `AXP_21264_Ibox_Retire`,
run for at most `fuel` passes. -/
def retireLoop (AXP_INFLIGHT_MAX HW_MFPR : Nat)
    (Retire_HW_MFPR : AXP_21264_CPU → AXP_INSTRUCTION → Nat) (W : AXP_MTPR_CODES) :
    Nat → RETIRE_LOOP → RETIRE_LOOP
  | 0, s => s
  | fuel + 1, s =>
    if (decide (s.ii < s.end_)) && (s.done == false) then
      retireLoop AXP_INFLIGHT_MAX HW_MFPR Retire_HW_MFPR W fuel
        (retireIteration AXP_INFLIGHT_MAX HW_MFPR Retire_HW_MFPR W s)
    else s

/-- The locals of `AXP_21264_Ibox_Retire` when the loop is entered (lines
2116-2131): `split = cpu->robEnd < cpu->robStart`, `start = cpu->robStart`,
`end = (split ? end = cpu->robEnd : AXP_INFLIGHT_MAX)`, `ii = start`. -/
def retireEntry (AXP_INFLIGHT_MAX : Nat) (cpu : AXP_21264_CPU) : RETIRE_LOOP :=
  let split : Bool := decide (cpu.robEnd < cpu.robStart)
  let start : Nat := cpu.robStart
  let end_ : Nat := if split then cpu.robEnd else AXP_INFLIGHT_MAX
  { cpu := cpu, ii := start, end_ := end_, split := split, done := false }

/-- Number of passes that is enough for the loop to end by its own test:
each pass moves `ii` one step toward `end`, except for the single reset of
`ii` to 0 with `end = cpu->robEnd` when `split` is set. -/
def retireMeasure (s : RETIRE_LOOP) : Nat :=
  (s.end_ - s.ii) + (if s.split then s.cpu.robEnd + 1 else 0)

/-- The locals of `AXP_21264_Ibox_Retire` when the loop is left. -/
def retireExit (AXP_INFLIGHT_MAX HW_MFPR : Nat)
    (Retire_HW_MFPR : AXP_21264_CPU → AXP_INSTRUCTION → Nat) (W : AXP_MTPR_CODES)
    (cpu : AXP_21264_CPU) : RETIRE_LOOP :=
  retireLoop AXP_INFLIGHT_MAX HW_MFPR Retire_HW_MFPR W
    (retireMeasure (retireEntry AXP_INFLIGHT_MAX cpu))
    (retireEntry AXP_INFLIGHT_MAX cpu)

/-- Function `AXP_21264_Ibox_Retire`: the CPU as the call leaves it. -/
def AXP_21264_Ibox_Retire (AXP_INFLIGHT_MAX HW_MFPR : Nat)
    (Retire_HW_MFPR : AXP_21264_CPU → AXP_INSTRUCTION → Nat) (W : AXP_MTPR_CODES)
    (cpu : AXP_21264_CPU) : AXP_21264_CPU :=
  (retireExit AXP_INFLIGHT_MAX HW_MFPR Retire_HW_MFPR W cpu).cpu

/-- Number of consecutive `WaitingRetirement` entries among the `n` ROB slots
that start at slot `i`. -/
def waitingRun (rob : Nat → AXP_INSTRUCTION) (i : Nat) : Nat → Nat
  | 0 => 0
  | n + 1 =>
    if (rob i).state = AXP_INS_STATE.WaitingRetirement then
      waitingRun rob (i + 1) n + 1
    else 0

/-- The retirement of the `k` consecutive slots that start at slot `i`, oldest
first: what the loop of `AXP_21264_Ibox_Retire` does to a run of `k`
`WaitingRetirement` entries. -/
def retireSlots (AXP_INFLIGHT_MAX HW_MFPR : Nat)
    (Retire_HW_MFPR : AXP_21264_CPU → AXP_INSTRUCTION → Nat) (W : AXP_MTPR_CODES) :
    Nat → Nat → AXP_21264_CPU → AXP_21264_CPU
  | _, 0, cpu => cpu
  | i, k + 1, cpu =>
    retireSlots AXP_INFLIGHT_MAX HW_MFPR Retire_HW_MFPR W (i + 1) k
      (retireSlot AXP_INFLIGHT_MAX HW_MFPR Retire_HW_MFPR W cpu i)

/-- The CPU `b` differs from `a` at most in the ROB, the two physical register
files, `robStart` and the IPR fields of `PAL_BASE` and `I_CTL`. -/
def RetireFrame (a b : AXP_21264_CPU) : Prop :=
  b = { a with rob := b.rob, pr := b.pr, pf := b.pf, robStart := b.robStart,
               palBase_pal_base_pc := b.palBase_pal_base_pc,
               iCtl_call_pal_r23 := b.iCtl_call_pal_r23 }

/-- ROB allocation in the driver (`AXP_21264_IboxMain`, lines 2618-2621)
followed by the call of `AXP_RenameRegisters` that ends `AXP_Decode_Rename`
(line 493), for a slot whose decoding (lines 253-485, which write fields of the
slot and `cpu->instrCounter` only) gave `decoded`; the entry is left in `state`
(lines 2814 and 2817). -/
def dispatchRenamed (AXP_INFLIGHT_MAX AXP_I_FREELIST_SIZE AXP_F_FREELIST_SIZE : Nat)
    (cpu : AXP_21264_CPU) (decoded : AXP_INSTRUCTION) (state : AXP_INS_STATE) :
    AXP_21264_CPU :=
  -- decodedInstr = &cpu->rob[cpu->robEnd];
  let slot : Nat := cpu.robEnd
  let cpu1 : AXP_21264_CPU :=
    { cpu with
        robEnd := (cpu.robEnd + 1) % AXP_INFLIGHT_MAX }
  let cpu2 : AXP_21264_CPU :=
    if cpu1.robEnd == cpu1.robStart then
      { cpu1 with
          robStart := (cpu1.robStart + 1) % AXP_INFLIGHT_MAX }
    else cpu1
  let renamed := AXP_RenameRegisters AXP_I_FREELIST_SIZE AXP_F_FREELIST_SIZE cpu2 decoded
  { renamed.1 with
      rob := setAt renamed.1.rob slot { renamed.2 with state := state } }

/-- Number of entries on a free-list ring of `size` slots between its start
and end cursors. -/
def freeListEntries (flStart flEnd size : Nat) : Nat :=
  (flEnd + size - flStart) % size

/-- Number of architectural registers below `n` whose map entry has
`prevPr != AXP_UNMAPPED_REG`. -/
def prevMappedCount (map : Nat → AXP_REG_MAP) (n : Nat) : Nat :=
  ((List.range n).filter (fun r => (map r).prevPr != AXP_UNMAPPED_REG)).length

/-- The cleared CPU with both free-lists empty: start cursor equal to end
cursor. -/
def cpuEmptyFreeLists : AXP_21264_CPU :=
  { cpuCleared with
      prFlEnd := 0
      pfFlEnd := 0 }

/-- Decoded `ADDQ R1, R2, R31`: the destination is the unmapped register. -/
def ADDQ_R1_R2_R31 : AXP_INSTRUCTION :=
  { ADDQ_R1_R2_R3 with aDest := 31 }

/-- A non-wrapped ROB of 8 slots with live range [0, 3): slot 0 holds a
completed `ADDQ` (physical destination 40, result 7), slot 1 an `ADDQ` still
queued, slot 2 a completed `ADDT` (physical destination 32, result 9). -/
def cpuRobMixed : AXP_21264_CPU :=
  { cpuCleared with
      rob := setAt (setAt (setAt cpuCleared.rob
        0 { ADDQ_R1_R2_R3 with
              dest := 40, destv := 7, state := AXP_INS_STATE.WaitingRetirement })
        1 { ADDQ_R1_R2_R3 with
              dest := 41, state := AXP_INS_STATE.Queued })
        2 { ADDT_F1_F2_F3 with
              dest := 32, destv := 9, state := AXP_INS_STATE.WaitingRetirement }
      robEnd := 3 }

/-- A wrapped ROB of 8 slots, robStart = 6 and robEnd = 2: the live entries 6,
7, 0 and 1 are all completed `ADDQ`s without exception. -/
def cpuRobWrapped : AXP_21264_CPU :=
  { cpuCleared with
      rob := fun j =>
        if j = 6 ∨ j = 7 ∨ j = 0 ∨ j = 1 then
          { ADDQ_R1_R2_R3 with
              dest := 40 + j, destv := 7, state := AXP_INS_STATE.WaitingRetirement }
        else robSlotRetired
      robStart := 6
      robEnd := 2 }

/-- A ROB of 8 slots with live range [0, 2): slot 0 holds an `ADDQ` that
completed with an exception, slot 1 a younger `ADDQ` that completed without
one (physical destination 41, result 7). -/
def cpuRobFaulting : AXP_21264_CPU :=
  { cpuCleared with
      rob := setAt (setAt cpuCleared.rob
        0 { ADDQ_R1_R2_R3 with
              dest := 40, destv := 5, state := AXP_INS_STATE.WaitingRetirement,
              excRegMask := AXP_EXCEPTIONS.Exception 1 })
        1 { ADDQ_R1_R2_R3 with
              dest := 41, destv := 7, state := AXP_INS_STATE.WaitingRetirement }
      robEnd := 2 }

/-- The opcode of `HW_MTPR` (0x1d), the IPR indices of `PAL_BASE` (0x10) and
`I_CTL` (0x11) of the 21264, and write macros that store the source value as
the field. -/
def sampleMtprCodes : AXP_MTPR_CODES :=
  { HW_MTPR := 0x1d, AXP_IPR_PAL_BASE := 0x10, AXP_IPR_I_CTL := 0x11,
    AXP_IBOX_WRITE_PAL_BASE := fun src _ => src,
    AXP_IBOX_WRITE_I_CTL := fun src _ => src }

/-- A ROB of 8 slots with live range [0, 1): slot 0 holds a completed
`HW_MTPR` of the value 0x20000 to the IPR `PAL_BASE` (index 0x10), without
destination register; `PAL_BASE` holds 0x10000. -/
def cpuRobMtpr : AXP_21264_CPU :=
  { cpuCleared with
      rob := setAt cpuCleared.rob
        0 { robSlotRetired with
              opcode := 0x1d, type_hint_index := 0x10, src1v := 0x20000,
              format := AXP_INS_TYPE.PAL, state := AXP_INS_STATE.WaitingRetirement }
      robEnd := 1
      palBase_pal_base_pc := 0x10000 }

/-- Modelled from the spec: the flag `pal` of an `AXP_PC`, a type of an absent
header; "A 64-bit value split into: program counter bits [63:2], reserved bits
[1], and a one-bit `pal` flag".  An `AXP_PC` is its raw 64-bit word. -/
def AXP_PC_pal (vpc : Nat) : Nat := vpc % 2

/-- Modelled from the spec: the field `res` of an `AXP_PC`, "reserved bits
[1]". -/
def AXP_PC_res (vpc : Nat) : Nat := (vpc / 2) % 2

/-- Modelled from the spec: the field `pc` of an `AXP_PC`, "program counter
bits [63:2]". -/
def AXP_PC_pc (vpc : Nat) : Nat := (vpc / 4) % 2 ^ 62

/-- Modelled from the spec: the assignment `vpc.pal = v` to the one-bit field
in bit 0 of an `AXP_PC`; the other bits stay. -/
def AXP_PC_set_pal (vpc v : Nat) : Nat := (vpc / 2) * 2 + v % 2

/-- Modelled from the spec: the assignment `vpc.res = v` to the one-bit field
in bit 1 of an `AXP_PC`; the other bits stay. -/
def AXP_PC_set_res (vpc v : Nat) : Nat := (vpc / 4) * 4 + 2 * (v % 2) + vpc % 2

/-- Modelled from the spec: the assignment `vpc.pc = v` to the 62-bit field in
bits 63..2 of an `AXP_PC`; the value is cut to the width of the field and the
two low bits stay. -/
def AXP_PC_set_pc (vpc v : Nat) : Nat := 4 * (v % 2 ^ 62) + vpc % 4

/-- Modelled from the spec: `AXP_PAL_MODE`, a constant of an absent header;
"form a 64-bit PC with `palMode=1`". -/
def AXP_PAL_MODE : Nat := 1

/-- Function `AXP_21264_AddVPC` (`AXP_21264_Ibox.c`, lines 1119-1130).
`AXP_INFLIGHT_MAX` is a constant of an absent header and is a parameter. -/
def AXP_21264_AddVPC (AXP_INFLIGHT_MAX : Nat) (cpu : AXP_21264_CPU) (vpc : Nat) :
    AXP_21264_CPU :=
  -- cpu->vpc[cpu->vpcEnd] = vpc;
  let cpu1 : AXP_21264_CPU :=
    { cpu with
        vpc := setAt cpu.vpc cpu.vpcEnd vpc }
  -- cpu->vpcEnd = (cpu->vpcEnd + 1) % AXP_INFLIGHT_MAX;
  let cpu2 : AXP_21264_CPU :=
    { cpu1 with
        vpcEnd := (cpu1.vpcEnd + 1) % AXP_INFLIGHT_MAX }
  if cpu2.vpcEnd == cpu2.vpcStart then
    { cpu2 with
        vpcStart := (cpu2.vpcStart + 1) % AXP_INFLIGHT_MAX }
  else cpu2

/-- Function `AXP_21264_GetNextVPC` (lines 1284-1300); `AXP_INFLIGHT_MAX` is
positive, so the subtraction of 1 does not go below 0. -/
def AXP_21264_GetNextVPC (AXP_INFLIGHT_MAX : Nat) (cpu : AXP_21264_CPU) : Nat :=
  let prevVPC : Nat := (if cpu.vpcEnd != 0 then cpu.vpcEnd else AXP_INFLIGHT_MAX) - 1
  cpu.vpc prevVPC

/-- Function `AXP_21264_IncrementVPC` (lines 1317-1335): `vpc.pc++` on the
62-bit field. -/
def AXP_21264_IncrementVPC (AXP_INFLIGHT_MAX : Nat) (cpu : AXP_21264_CPU) : Nat :=
  let vpc : Nat := AXP_21264_GetNextVPC AXP_INFLIGHT_MAX cpu
  AXP_PC_set_pc vpc (AXP_PC_pc vpc + 1)

/-- Function `AXP_21264_DisplaceVPC` (lines 1354-1372).  The displacement is an
`i64`; the sum `vpc.pc + 1 + displacement` is taken in 64-bit unsigned
arithmetic and cut to the 62-bit field by the assignment. -/
def AXP_21264_DisplaceVPC (AXP_INFLIGHT_MAX : Nat) (cpu : AXP_21264_CPU)
    (displacement : Int) : Nat :=
  let vpc : Nat := AXP_21264_GetNextVPC AXP_INFLIGHT_MAX cpu
  AXP_PC_set_pc vpc ((((AXP_PC_pc vpc : Nat) : Int) + 1 + displacement) % 2 ^ 64).toNat

/-- Function `AXP_21264_GetVPC` (lines 1250-1266): the 64-bit `pc` is laid over
an `AXP_PC`, then `res` is cleared and `pal` set to `pal & AXP_PAL_MODE`.  The
argument `cpu` is not used by the function. -/
def AXP_21264_GetVPC (pc pal : Nat) : Nat :=
  AXP_PC_set_pal (AXP_PC_set_res (pc % 2 ^ 64) 0) (pal &&& AXP_PAL_MODE)

/-- Function `AXP_21264_GetPALBaseVPC` (lines 1217-1228); the sum is a `u64`. -/
def AXP_21264_GetPALBaseVPC (cpu : AXP_21264_CPU) (offset : Nat) : Nat :=
  let pc : Nat := (cpu.palBase_pal_base_pc + offset) % 2 ^ 64
  AXP_21264_GetVPC pc AXP_PAL_MODE

/-! ## The PAL entry point of a function code

The bit-field structures of `AXP_21264_Ibox.c`, lines 109-170, with the fields
laid out from bit 0 upward in the order of declaration. -/

/-- Field `highPC` of `struct palBaseBits21264` (`res : 15; highPC : 49`). -/
def palBaseBits21264_highPC (palBaseAddr : Nat) : Nat := (palBaseAddr / 2 ^ 15) % 2 ^ 49

/-- Field `highPC` of `struct palBaseBits21164` (`res : 14; highPC : 50`). -/
def palBaseBits21164_highPC (palBaseAddr : Nat) : Nat := (palBaseAddr / 2 ^ 14) % 2 ^ 50

/-- Field `func_5_0` of `struct palFuncBits`
(`func_5_0 : 6; res_1 : 1; func_7 : 1; res_2 : 24`). -/
def palFuncBits_func_5_0 (func : Nat) : Nat := func % 2 ^ 6

/-- Field `func_7` of `struct palFuncBits`. -/
def palFuncBits_func_7 (func : Nat) : Nat := (func / 2 ^ 7) % 2

/-- The 64-bit word of a `struct palPCBits21264` with the given fields
(`palMode : 1; mbz_1 : 5; func_5_0 : 6; func_7 : 1; mbo : 1; mbz_2 : 1;
highPC : 49`); each value is cut to the width of its field. -/
def palPCBits21264 (palMode mbz_1 func_5_0 func_7 mbo mbz_2 highPC : Nat) : Nat :=
  palMode % 2 + (mbz_1 % 2 ^ 5) * 2 + (func_5_0 % 2 ^ 6) * 2 ^ 6 +
    (func_7 % 2) * 2 ^ 12 + (mbo % 2) * 2 ^ 13 + (mbz_2 % 2) * 2 ^ 14 +
    (highPC % 2 ^ 49) * 2 ^ 15

/-- The 64-bit word of a `struct palPCBits21164` with the given fields
(`palMode : 1; mbz : 5; func_5_0 : 6; func_7 : 1; mbo : 1; highPC : 50`). -/
def palPCBits21164 (palMode mbz func_5_0 func_7 mbo highPC : Nat) : Nat :=
  palMode % 2 + (mbz % 2 ^ 5) * 2 + (func_5_0 % 2 ^ 6) * 2 ^ 6 +
    (func_7 % 2) * 2 ^ 12 + (mbo % 2) * 2 ^ 13 + (highPC % 2 ^ 50) * 2 ^ 14

/-- Field `highPC` of `struct palPCBits21264`, bits 63..15 of the word. -/
def palPCBits21264_highPC (pc : Nat) : Nat := (pc / 2 ^ 15) % 2 ^ 49

/-- Field `highPC` of `struct palPCBits21164`, bits 63..14 of the word. -/
def palPCBits21164_highPC (pc : Nat) : Nat := (pc / 2 ^ 14) % 2 ^ 50

/-- Field `func_7` of both `palPCBits` structures, bit 12 of the word. -/
def palPCBits_func_7 (pc : Nat) : Nat := (pc / 2 ^ 12) % 2

/-- Field `func_5_0` of both `palPCBits` structures, bits 11..6 of the word. -/
def palPCBits_func_5_0 (pc : Nat) : Nat := (pc / 2 ^ 6) % 2 ^ 6

/-- Function `AXP_21264_GetPALFuncVPC` (lines 1151-1196).  `EV6` is a constant
of an absent header and is a parameter; `func` is a `u32`.  Every field of the
local `pc` is assigned, so the word returned does not depend on what the local
held. -/
def AXP_21264_GetPALFuncVPC (EV6 : Nat) (cpu : AXP_21264_CPU) (func : Nat) : Nat :=
  -- palBase.palBaseAddr = cpu->palBase.pal_base_pc;
  let palBaseAddr : Nat := cpu.palBase_pal_base_pc % 2 ^ 64
  -- palFunc.func = func;
  let palFunc : Nat := func % 2 ^ 32
  if EV6 ≤ cpu.majorType then
    palPCBits21264 AXP_PAL_MODE 0 (palFuncBits_func_5_0 palFunc)
      (palFuncBits_func_7 palFunc) 1 0 (palBaseBits21264_highPC palBaseAddr)
  else
    palPCBits21164 AXP_PAL_MODE 0 (palFuncBits_func_5_0 palFunc)
      (palFuncBits_func_7 palFunc) 1 (palBaseBits21164_highPC palBaseAddr)

/-! ## Event intake -/

/-- The fault codes that `AXP_21264_Ibox_Event` switches on: constants of an
absent header, taken as parameters. -/
structure AXP_FAULT_CODES where
  AXP_DTBM_DOUBLE_3 : Nat
  AXP_DTBM_DOUBLE_4 : Nat
  AXP_ITB_MISS : Nat
  AXP_DTBM_SINGLE : Nat
  AXP_DFAULT : Nat
  AXP_UNALIGNED : Nat
  AXP_IACV : Nat
  AXP_ARITH : Nat
  AXP_FEN : Nat
  AXP_MT_FPCR_TRAP : Nat
  AXP_OPCDEC : Nat
  AXP_INTERRUPT : Nat
  AXP_MCHK : Nat
  AXP_RESET_WAKEUP : Nat
deriving DecidableEq, Repr

/-- Opcode `HW_LD`; the value is given in `AXP_21264_Ibox.c`, line 1441
("HW_LD (0x1b = 27 -> 3)"). -/
def HW_LD : Nat := 0x1b

/-- Opcode `HW_ST`; the value is given in `AXP_21264_Ibox.c`, line 1441
("HW_ST (0x1f = 31 -> 7)"). -/
def HW_ST : Nat := 0x1f

/-- The `switch (fault)` of `AXP_21264_Ibox_Event` (lines 1458-1504); a fault
that matches no label leaves the CPU as it is. -/
def Ibox_Event_switch (K : AXP_FAULT_CODES) (cpu : AXP_21264_CPU)
    (fault va mmStatOpcode reg : Nat) (write : Bool) : AXP_21264_CPU :=
  if fault == K.AXP_DTBM_DOUBLE_3 || fault == K.AXP_DTBM_DOUBLE_4 ||
      fault == K.AXP_ITB_MISS || fault == K.AXP_DTBM_SINGLE then
    { cpu with
        mmStat := { cpu.mmStat with opcodes := mmStatOpcode, wr := if write then 1 else 0 }
        va := va
        excSum := { cpu.excSum with reg := reg } }
  else if fault == K.AXP_DFAULT || fault == K.AXP_UNALIGNED then
    { cpu with
        excSum := { cpu.excSum with reg := reg }
        mmStat :=
          { cpu.mmStat with
              opcodes := mmStatOpcode
              wr := if write then 1 else 0
              fow := if write then 1 else 0
              _for := if write then 0 else 1
              acv := 1 }
        va := va }
  else if fault == K.AXP_IACV then
    { cpu with
        excSum := { cpu.excSum with bad_iva := 0 }
        va := va }
  else if fault == K.AXP_ARITH || fault == K.AXP_FEN ||
      fault == K.AXP_MT_FPCR_TRAP then
    { cpu with
        excSum := { cpu.excSum with reg := reg } }
  else if fault == K.AXP_OPCDEC then
    { cpu with
        mmStat := { cpu.mmStat with opcodes := mmStatOpcode } }
  else if fault == K.AXP_INTERRUPT then
    { cpu with
        iSum_ei := cpu.irqH
        irqH := 0 }
  else cpu

/-- Function `AXP_21264_Ibox_Event` (lines 1410-1546).  The mutexes and the
condition variable are not part of the state; `opcode` and `reg` are `u8`, and
`mmStatOpcode -= 0x18` is taken modulo 256. -/
def AXP_21264_Ibox_Event (K : AXP_FAULT_CODES) (EV6 : Nat) (cpu : AXP_21264_CPU)
    (fault pc va opcode reg : Nat) (write _self : Bool) : AXP_21264_CPU :=
  -- u8 mmStatOpcode = opcode;
  let mmStatOpcode0 : Nat := opcode
  if cpu.excPend == false then
    let mmStatOpcode : Nat :=
      if opcode == HW_LD || opcode == HW_ST then (mmStatOpcode0 + 256 - 0x18) % 256
      else mmStatOpcode0
    -- cpu->excAddr.exc_pc = pc; cpu->va = 0; excSum and mmStat cleared
    let cpu1 : AXP_21264_CPU :=
      { cpu with
          excAddr_exc_pc := pc
          va := 0
          excSum := excSumCleared
          mmStat := mmStatCleared }
    let cpu2 : AXP_21264_CPU := Ibox_Event_switch K cpu1 fault va mmStatOpcode reg write
    -- if (cpu->excSum.set_iov == 1) cpu->excSum.sext_set_iov = 0xffff;
    let cpu3 : AXP_21264_CPU :=
      if cpu2.excSum.set_iov == 1 then
        { cpu2 with
            excSum := { cpu2.excSum with sext_set_iov := 0xffff } }
      else cpu2
    -- cpu->excPC = AXP_21264_GetPALFuncVPC(cpu, fault);
    let cpu4 : AXP_21264_CPU :=
      { cpu3 with
          excPC := AXP_21264_GetPALFuncVPC EV6 cpu3 fault }
    -- cpu->excPend = true;
    { cpu4 with
        excPend := true }
  else cpu

/-! ## ROB allocation in the driver -/

/-- ROB allocation in `AXP_21264_IboxMain` (lines 2618-2621): the slot handed
out (`decodedInstr = &cpu->rob[cpu->robEnd]`) and the CPU after the two cursor
updates. -/
def robAllocate (AXP_INFLIGHT_MAX : Nat) (cpu : AXP_21264_CPU) : Nat × AXP_21264_CPU :=
  -- decodedInstr = &cpu->rob[cpu->robEnd];
  let slot : Nat := cpu.robEnd
  let cpu1 : AXP_21264_CPU :=
    { cpu with
        robEnd := (cpu.robEnd + 1) % AXP_INFLIGHT_MAX }
  if cpu1.robEnd == cpu1.robStart then
    (slot, { cpu1 with
               robStart := (cpu1.robStart + 1) % AXP_INFLIGHT_MAX })
  else (slot, cpu1)

/-! ## Concrete inputs for the VPC list, the event intake and the ROB -/

/-- A sample assignment of distinct values to the fault codes. -/
def sampleFaultCodes : AXP_FAULT_CODES :=
  { AXP_DTBM_DOUBLE_3 := 0x100, AXP_DTBM_DOUBLE_4 := 0x180, AXP_FEN := 0x200,
    AXP_UNALIGNED := 0x280, AXP_DTBM_SINGLE := 0x300, AXP_DFAULT := 0x380,
    AXP_OPCDEC := 0x400, AXP_IACV := 0x480, AXP_MCHK := 0x500,
    AXP_ITB_MISS := 0x580, AXP_ARITH := 0x600, AXP_INTERRUPT := 0x680,
    AXP_MT_FPCR_TRAP := 0x700, AXP_RESET_WAKEUP := 0x780 }

/-- The cleared CPU with `PAL_BASE` = 0x10000 and `majorType` = 6; no exception
is pending. -/
def cpuPalBase : AXP_21264_CPU :=
  { cpuCleared with
      palBase_pal_base_pc := 0x10000
      majorType := 6 }

/-- The CPU `cpuPalBase` with an exception already pending. -/
def cpuExcPending : AXP_21264_CPU :=
  { cpuPalBase with
      excPend := true }

/-- The cleared CPU with the end cursor of the VPC list on the last of 8
slots. -/
def cpuVpcLast : AXP_21264_CPU :=
  { cpuCleared with
      vpcEnd := 7 }

/-- The cleared CPU of 8 ROB slots after the dispatch of `ADDQ R1, R2, R31`
into slot 0, whose `destv` holds 7; the driver leaves such an instruction
`WaitingRetirement` (`AXP_21264_Ibox.c`, lines 2703-2710 and 2817). -/
def cpuR31Dispatched : AXP_21264_CPU :=
  dispatchRenamed 8 40 40 cpuCleared { ADDQ_R1_R2_R31 with destv := 7 }
    AXP_INS_STATE.WaitingRetirement

/-- A ROB of 8 slots with live range [0, 7): the seven entries are `ADDQ`s
still queued. -/
def cpuRobSevenQueued : AXP_21264_CPU :=
  { cpuCleared with
      rob := fun j =>
        if j < 7 then { ADDQ_R1_R2_R3 with dest := 40 + j, state := AXP_INS_STATE.Queued }
        else robSlotRetired
      robEnd := 7 }

/-- The dispatch of `n` instructions `ADDQ R1, R2, R31`, one after the other;
the driver leaves each `WaitingRetirement` without exception. -/
def dispatchNoops (AXP_INFLIGHT_MAX : Nat) : Nat → AXP_21264_CPU → AXP_21264_CPU
  | 0, cpu => cpu
  | n + 1, cpu =>
    dispatchNoops AXP_INFLIGHT_MAX n
      (dispatchRenamed AXP_INFLIGHT_MAX 40 40 cpu ADDQ_R1_R2_R31
        AXP_INS_STATE.WaitingRetirement)

/-! ## Operation type (`AXP_DecodeOperType`, `AXP_21264_Ibox.c`, lines 521-591) -/

/-- Opcode `INTA`; the value is given at its `case` ("OpCode == 0x10"). -/
def INTA : Nat := 0x10

/-- Opcode `INTL`; the value is given at its `case` ("OpCode == 0x11"). -/
def INTL : Nat := 0x11

/-- Opcode `FLTV`; the value is given at its `case` ("OpCode == 0x15"). -/
def FLTV : Nat := 0x15

/-- Opcode `FLTI`; the value is given at its `case` ("OpCode == 0x16"). -/
def FLTI : Nat := 0x16

/-- Opcode `FLTL`; the value is given at its `case` ("OpCode == 0x17"). -/
def FLTL : Nat := 0x17

/-- Opcode `MISC`; the value is given at its `case` ("OpCode == 0x18"). -/
def MISC : Nat := 0x18

/-- The function codes that `AXP_DecodeOperType` compares with: constants of an
absent header, taken as parameters. -/
structure AXP_FUNC_CODES where
  AXP_FUNC_CMPBGE : Nat
  AXP_FUNC_AMASK : Nat
  AXP_FUNC_IMPLVER : Nat
  AXP_FUNC_CMPGEQ : Nat
  AXP_FUNC_CMPGLT : Nat
  AXP_FUNC_CMPGLE : Nat
  AXP_FUNC_CMPGEQ_S : Nat
  AXP_FUNC_CMPGLT_S : Nat
  AXP_FUNC_CMPGLE_S : Nat
  AXP_FUNC_CMPTUN : Nat
  AXP_FUNC_CMPTEQ : Nat
  AXP_FUNC_CMPTLT : Nat
  AXP_FUNC_CMPTLE : Nat
  AXP_FUNC_CMPTUN_SU : Nat
  AXP_FUNC_CMPTEQ_SU : Nat
  AXP_FUNC_CMPTLT_SU : Nat
  AXP_FUNC_CMPTLE_SU : Nat
  AXP_FUNC_MT_FPCR : Nat
  AXP_FUNC_MF_FPCR : Nat
  AXP_FUNC_RPCC : Nat
  AXP_FUNC_RC : Nat
  AXP_FUNC_RS : Nat
deriving DecidableEq, Repr

/-- Function `AXP_DecodeOperType` (lines 521-591). -/
def AXP_DecodeOperType (F : AXP_FUNC_CODES) (opCode funcCode : Nat) : AXP_OPER_TYPE :=
  if opCode == INTA then
    if funcCode == F.AXP_FUNC_CMPBGE then AXP_OPER_TYPE.Logic else AXP_OPER_TYPE.Arith
  else if opCode == INTL then
    if funcCode == F.AXP_FUNC_AMASK || funcCode == F.AXP_FUNC_IMPLVER then AXP_OPER_TYPE.Oper
    else AXP_OPER_TYPE.Logic
  else if opCode == FLTV then
    if funcCode == F.AXP_FUNC_CMPGEQ || funcCode == F.AXP_FUNC_CMPGLT ||
        funcCode == F.AXP_FUNC_CMPGLE || funcCode == F.AXP_FUNC_CMPGEQ_S ||
        funcCode == F.AXP_FUNC_CMPGLT_S || funcCode == F.AXP_FUNC_CMPGLE_S then
      AXP_OPER_TYPE.Logic
    else AXP_OPER_TYPE.Arith
  else if opCode == FLTI then
    if funcCode == F.AXP_FUNC_CMPTUN || funcCode == F.AXP_FUNC_CMPTEQ ||
        funcCode == F.AXP_FUNC_CMPTLT || funcCode == F.AXP_FUNC_CMPTLE ||
        funcCode == F.AXP_FUNC_CMPTUN_SU || funcCode == F.AXP_FUNC_CMPTEQ_SU ||
        funcCode == F.AXP_FUNC_CMPTLT_SU || funcCode == F.AXP_FUNC_CMPTLE_SU then
      AXP_OPER_TYPE.Logic
    else AXP_OPER_TYPE.Arith
  else if opCode == FLTL then
    if funcCode == F.AXP_FUNC_MT_FPCR then AXP_OPER_TYPE.Load
    else if funcCode == F.AXP_FUNC_MF_FPCR then AXP_OPER_TYPE.Store
    else AXP_OPER_TYPE.Arith
  else if opCode == MISC then
    if funcCode == F.AXP_FUNC_RPCC || funcCode == F.AXP_FUNC_RC ||
        funcCode == F.AXP_FUNC_RS then AXP_OPER_TYPE.Load
    else AXP_OPER_TYPE.Store
  else AXP_OPER_TYPE.Other

/-! ## Instruction decoding (`AXP_Decode_Rename`, `AXP_21264_Ibox.c`, lines 237-499)

The same text is in `AXP_21264_Ibox_InstructionDecoding.c`, lines 88-350. -/

/-- The fields of an instruction word that the decoder reads.  The views of the
union `AXP_INS_FMT` (`pal`, `br`, `fp`, `mem.mem`, `oper1`, `hw_ld`, `hw_ret`,
`hw_mxpr`) are declared in an absent header: the instruction is given by the
values of these fields. -/
structure AXP_INS_FMT where
  pal_opcode : Nat
  pal_palcode_func : Nat
  br_branch_disp : Nat
  fp_func : Nat
  fp_fa : Nat
  fp_fb : Nat
  fp_fc : Nat
  mem_mem_disp : Nat
  mem_mem_func : Nat
  oper1_func : Nat
  oper1_ra : Nat
  oper1_rb : Nat
  oper1_rc : Nat
  hw_ld_disp : Nat
  hw_ld_type : Nat
  hw_ld_len : Nat
  hw_ret_disp : Nat
  hw_ret_hint : Nat
  hw_ret_stall : Nat
  hw_mxpr_index : Nat
  hw_mxpr_scbd_mask : Nat
deriving DecidableEq, Repr

/-- The macros and constants of absent headers that the decoder uses, taken as
parameters: the three table look-ups by opcode, four opcodes, the six values of
a register selector and the masks that the sub-decoders combine. -/
structure AXP_DECODE_TABLES where
  AXP_OperationType : Nat → AXP_OPER_TYPE
  AXP_RegisterDecoding : Nat → Nat
  AXP_InstructionPipeline : Nat → Nat → Nat
  PAL00 : Nat
  HW_RET : Nat
  HW_MFPR : Nat
  HW_MTPR : Nat
  AXP_REG_RA : Nat
  AXP_REG_RB : Nat
  AXP_REG_RC : Nat
  AXP_REG_FA : Nat
  AXP_REG_FB : Nat
  AXP_REG_FC : Nat
  AXP_DEST_RA : Nat
  AXP_DEST_RC : Nat
  AXP_DEST_FA : Nat
  AXP_DEST_FC : Nat
  AXP_SRC1_RA : Nat
  AXP_SRC1_RB : Nat
  AXP_SRC1_FA : Nat
  AXP_SRC1_FB : Nat
  AXP_SRC2_RB : Nat
  AXP_SRC2_FB : Nat

/-- Modelled from the spec: the macro `AXP_REG(reg, pal)` of an absent header;
"if PAL mode, remap source/destination integer register `r` in `{8..14, 25}` to
its shadow".  The number of the shadow register of `r` is `shadow r`, a
parameter. -/
def AXP_REG (shadow : Nat → Nat) (reg : Nat) (pal : Bool) : Nat :=
  if pal && ((decide (8 ≤ reg) && decide (reg ≤ 14)) || reg == 25) then shadow reg
  else reg

/-- Modelled from the spec: the bit-field `decodedReg.bits.src1` of an absent
header; the renamer tests the float flag 0x0008 of source 1 in
`decodedReg.raw`, so the field is the first nibble. -/
def decodedReg_bits_src1 (raw : Nat) : Nat := raw &&& 0xF

/-- Modelled from the spec: the bit-field `decodedReg.bits.src2` of an absent
header; the renamer tests the float flag 0x0080 of source 2 in
`decodedReg.raw`, so the field is the second nibble. -/
def decodedReg_bits_src2 (raw : Nat) : Nat := (raw >>> 4) &&& 0xF

/-- Modelled from the spec: the bit-field `decodedReg.bits.opcodeRegDecode` of
an absent header, the nibble of the 16-bit mask that the three register fields
leave. -/
def decodedReg_bits_opcodeRegDecode (raw : Nat) : Nat := (raw >>> 12) &&& 0xF

/-- Function `AXP_RegisterDecodingOpcode11` (lines 611-630). -/
def AXP_RegisterDecodingOpcode11 (T : AXP_DECODE_TABLES) (instr : AXP_INS_FMT) : Nat :=
  if instr.oper1_func == 0x61 then T.AXP_DEST_RC ||| T.AXP_SRC1_RB
  else if instr.oper1_func == 0x6c then T.AXP_DEST_RC
  else T.AXP_DEST_RC ||| T.AXP_SRC1_RA ||| T.AXP_SRC2_RB

/-- Function `AXP_RegisterDecodingOpcode14` (lines 650-659). -/
def AXP_RegisterDecodingOpcode14 (T : AXP_DECODE_TABLES) (instr : AXP_INS_FMT) : Nat :=
  let retVal : Nat := T.AXP_DEST_FC
  if (instr.oper1_func &&& 0x00f) != 0x004 then retVal ||| T.AXP_SRC1_FB
  else retVal ||| T.AXP_SRC1_RB

/-- Function `AXP_RegisterDecodingOpcode15_16` (lines 679-688). -/
def AXP_RegisterDecodingOpcode15_16 (T : AXP_DECODE_TABLES) (instr : AXP_INS_FMT) : Nat :=
  let retVal : Nat := T.AXP_DEST_FC
  if (instr.fp_func &&& 0x008) == 0 then retVal ||| (T.AXP_SRC1_FA ||| T.AXP_SRC2_FB)
  else retVal ||| T.AXP_SRC1_FB

/-- Function `AXP_RegisterDecodingOpcode17` (lines 708-734). -/
def AXP_RegisterDecodingOpcode17 (T : AXP_DECODE_TABLES) (instr : AXP_INS_FMT) : Nat :=
  if instr.fp_func == 0x010 || instr.fp_func == 0x030 || instr.fp_func == 0x130 ||
      instr.fp_func == 0x530 then T.AXP_DEST_FC ||| T.AXP_SRC1_FB
  else if instr.fp_func == 0x024 then T.AXP_DEST_FA
  else if instr.fp_func == 0x025 then T.AXP_SRC1_FA
  else T.AXP_DEST_FC ||| T.AXP_SRC1_FA ||| T.AXP_SRC2_FB

/-- Function `AXP_RegisterDecodingOpcode18` (lines 754-768). -/
def AXP_RegisterDecodingOpcode18 (T : AXP_DECODE_TABLES) (instr : AXP_INS_FMT) : Nat :=
  if (instr.mem_mem_func &&& 0x8000) != 0 then
    if instr.mem_mem_func == 0xc000 || instr.mem_mem_func == 0xe000 ||
        instr.mem_mem_func == 0xf000 then T.AXP_DEST_RA
    else T.AXP_SRC1_RB
  else 0

/-- Function `AXP_RegisterDecodingOpcode1c` (lines 788-817). -/
def AXP_RegisterDecodingOpcode1c (T : AXP_DECODE_TABLES) (instr : AXP_INS_FMT) : Nat :=
  let retVal : Nat := T.AXP_DEST_RC
  if instr.oper1_func == 0x31 || instr.oper1_func == 0x37 || instr.oper1_func == 0x38 ||
      instr.oper1_func == 0x39 || instr.oper1_func == 0x3a || instr.oper1_func == 0x3b ||
      instr.oper1_func == 0x3c || instr.oper1_func == 0x3d || instr.oper1_func == 0x3e ||
      instr.oper1_func == 0x3f then retVal ||| (T.AXP_SRC1_RA ||| T.AXP_SRC2_RB)
  else if instr.oper1_func == 0x70 || instr.oper1_func == 0x78 then retVal ||| T.AXP_SRC1_FA
  else retVal ||| T.AXP_SRC1_RB

/-- The table `decodeFuncs` (lines 203-213).  Entry 0 is `NULL` and an index
above 7 is outside the table: there is no function to call. -/
def decodeFuncs (T : AXP_DECODE_TABLES) : Nat → Option (AXP_INS_FMT → Nat)
  | 1 => some (AXP_RegisterDecodingOpcode11 T)
  | 2 => some (AXP_RegisterDecodingOpcode14 T)
  | 3 => some (AXP_RegisterDecodingOpcode15_16 T)
  | 4 => some (AXP_RegisterDecodingOpcode15_16 T)
  | 5 => some (AXP_RegisterDecodingOpcode17 T)
  | 6 => some (AXP_RegisterDecodingOpcode18 T)
  | 7 => some (AXP_RegisterDecodingOpcode1c T)
  | _ => none

/-- The register-decoding mask of `AXP_Decode_Rename` (lines 328-332): the
table entry of the opcode, replaced by the result of a sub-decoder when the
entry names one.  The result is `none` when the entry names an index outside
`decodeFuncs`. -/
def registerMask (T : AXP_DECODE_TABLES) (instr : AXP_INS_FMT) (opcode : Nat) :
    Option Nat :=
  let raw : Nat := T.AXP_RegisterDecoding opcode
  if decodedReg_bits_opcodeRegDecode raw != 0 then
    match decodeFuncs T (decodedReg_bits_opcodeRegDecode raw) with
    | some f => some (f instr)
    | none => none
  else some raw

/-- The first part of `AXP_Decode_Rename` (lines 256-322): the fields taken from
the instruction by its format, written into the ROB slot `decodedInstr`, and
the flag `callingPAL`.  `uniqueID` (from `cpu->instrCounter`) and `fault` are
not fields of `AXP_INSTRUCTION` here. -/
def decodeFormat (T : AXP_DECODE_TABLES) (instr : AXP_INS_FMT) (instrType : AXP_INS_TYPE)
    (decodedInstr : AXP_INSTRUCTION) : AXP_INSTRUCTION × Bool :=
  -- decodedInstr->excRegMask = NoException;
  let d0 : AXP_INSTRUCTION :=
    { decodedInstr with
        excRegMask := AXP_EXCEPTIONS.NoException }
  -- decodedInstr->format = ...; decodedInstr->opcode = ...pal.opcode;
  let d1 : AXP_INSTRUCTION :=
    { d0 with
        format := instrType
        opcode := instr.pal_opcode }
  -- switch (decodedInstr->format)
  match instrType with
  | AXP_INS_TYPE.Bra | AXP_INS_TYPE.FPBra =>
    ({ d1 with displacement := instr.br_branch_disp }, false)
  | AXP_INS_TYPE.FP =>
    ({ d1 with function := instr.fp_func }, false)
  | AXP_INS_TYPE.Mem | AXP_INS_TYPE.Mbr =>
    ({ d1 with displacement := instr.mem_mem_disp }, false)
  | AXP_INS_TYPE.Mfc =>
    ({ d1 with function := instr.mem_mem_func }, false)
  | AXP_INS_TYPE.Opr =>
    ({ d1 with function := instr.oper1_func }, false)
  | AXP_INS_TYPE.Pcd =>
    ({ d1 with function := instr.pal_palcode_func }, true)
  | AXP_INS_TYPE.PAL =>
    if d1.opcode == HW_LD || d1.opcode == HW_ST then
      ({ d1 with
           displacement := instr.hw_ld_disp
           type_hint_index := instr.hw_ld_type
           len_stall := instr.hw_ld_len }, false)
    else if d1.opcode == T.HW_RET then
      ({ d1 with
           displacement := instr.hw_ret_disp
           type_hint_index := instr.hw_ret_hint
           len_stall := instr.hw_ret_stall }, false)
    else if d1.opcode == T.HW_MFPR || d1.opcode == T.HW_MTPR then
      ({ d1 with
           type_hint_index := instr.hw_mxpr_index
           scbdMask := instr.hw_mxpr_scbd_mask }, false)
    else (d1, false)
  | AXP_INS_TYPE.Res => (d1, false)

/-- The operation type of `AXP_Decode_Rename` (lines 323-327). -/
def decodeType (T : AXP_DECODE_TABLES) (F : AXP_FUNC_CODES)
    (d : AXP_INSTRUCTION) : AXP_INSTRUCTION :=
  let d1 : AXP_INSTRUCTION :=
    { d with
        type := T.AXP_OperationType d.opcode }
  if d1.type == AXP_OPER_TYPE.Other && d1.format != AXP_INS_TYPE.Res then
    { d1 with
        type := AXP_DecodeOperType F d1.opcode d1.function }
  else d1

/-- The pipeline class of `AXP_Decode_Rename` (lines 333-339); the test of line
333 names `HW_MFPR` twice. -/
def decodePipeline (T : AXP_DECODE_TABLES) (d : AXP_INSTRUCTION) : AXP_INSTRUCTION :=
  let function : Nat :=
    if d.opcode == T.HW_MFPR || d.opcode == T.HW_MFPR then d.type_hint_index
    else d.function
  { d with
      pipeline := T.AXP_InstructionPipeline d.opcode function }

/-- The destination `switch` of `AXP_Decode_Rename` (lines 344-393): the
architectural destination and the flag `destFloat`. -/
def decodeDest (T : AXP_DECODE_TABLES) (cpu : AXP_21264_CPU) (instr : AXP_INS_FMT)
    (d : AXP_INSTRUCTION) : Nat × Bool :=
  let sel : Nat := decodedReg_bits_dest d.decodedReg_raw
  if sel == T.AXP_REG_RA then (instr.oper1_ra, false)
  else if sel == T.AXP_REG_RB then (instr.oper1_rb, false)
  else if sel == T.AXP_REG_RC then (instr.oper1_rc, false)
  else if sel == T.AXP_REG_FA then (instr.fp_fa, true)
  else if sel == T.AXP_REG_FB then (instr.fp_fb, true)
  else if sel == T.AXP_REG_FC then (instr.fp_fc, true)
  else if d.opcode == T.PAL00 then
    if cpu.iCtl_call_pal_r23 == 1 then (23, false) else (27, false)
  else (AXP_UNMAPPED_REG, false)

/-- A source `switch` of `AXP_Decode_Rename` (lines 398-430 for source 1 and
435-467 for source 2, which differ in the selector only): the architectural
source and the flag `src1Float` or `src2Float`. -/
def decodeSrc (T : AXP_DECODE_TABLES) (instr : AXP_INS_FMT) (sel : Nat) : Nat × Bool :=
  if sel == T.AXP_REG_RA then (instr.oper1_ra, false)
  else if sel == T.AXP_REG_RB then (instr.oper1_rb, false)
  else if sel == T.AXP_REG_RC then (instr.oper1_rc, false)
  else if sel == T.AXP_REG_FA then (instr.fp_fa, true)
  else if sel == T.AXP_REG_FB then (instr.fp_fb, true)
  else if sel == T.AXP_REG_FC then (instr.fp_fc, true)
  else (AXP_UNMAPPED_REG, false)

/-- The register part of `AXP_Decode_Rename` (lines 341-485) for an entry
whose `decodedReg` is set: the three architectural registers, the VPC and the
PAL-shadow substitution. -/
def decodeRegisters (T : AXP_DECODE_TABLES) (shadow : Nat → Nat) (cpu : AXP_21264_CPU)
    (instr : AXP_INS_FMT) (instrPC : Nat) (callingPAL0 : Bool) (d : AXP_INSTRUCTION) :
    AXP_INSTRUCTION :=
  let dest := decodeDest T cpu instr d
  let src1 := decodeSrc T instr (decodedReg_bits_src1 d.decodedReg_raw)
  let src2 := decodeSrc T instr (decodedReg_bits_src2 d.decodedReg_raw)
  let d1 : AXP_INSTRUCTION :=
    { d with
        aDest := dest.1
        aSrc1 := src1.1
        aSrc2 := src2.1 }
  -- decodedInstr->pc = next->instrPC[nextInstr];
  let d2 : AXP_INSTRUCTION :=
    { d1 with
        pc := instrPC }
  -- callingPAL |= (decodedInstr->pc.pal == AXP_PAL_MODE);
  let callingPAL : Bool := callingPAL0 || (AXP_PC_pal d2.pc == AXP_PAL_MODE)
  let d3 : AXP_INSTRUCTION :=
    if src1.2 == false then
      { d2 with aSrc1 := AXP_REG shadow d2.aSrc1 callingPAL }
    else d2
  let d4 : AXP_INSTRUCTION :=
    if src2.2 == false then
      { d3 with aSrc2 := AXP_REG shadow d3.aSrc2 callingPAL }
    else d3
  if dest.2 == false then
    { d4 with aDest := AXP_REG shadow d4.aDest callingPAL }
  else d4

/-- Function `AXP_Decode_Rename` (`AXP_21264_Ibox.c`, lines 237-499):
`decodedInstr` is the ROB slot as the call finds it, `instr`, `instrType` and
`instrPC` are the entries `nextInstr` of the instruction line `next`.  The
result is `none` when the register-decoding table names a sub-decoder outside
`decodeFuncs`.  `AXP_I_FREELIST_SIZE` and `AXP_F_FREELIST_SIZE` are constants
of an absent header and are parameters. -/
def AXP_Decode_Rename (T : AXP_DECODE_TABLES) (F : AXP_FUNC_CODES) (shadow : Nat → Nat)
    (AXP_I_FREELIST_SIZE AXP_F_FREELIST_SIZE : Nat) (cpu : AXP_21264_CPU)
    (instr : AXP_INS_FMT) (instrType : AXP_INS_TYPE) (instrPC : Nat)
    (decodedInstr : AXP_INSTRUCTION) : Option (AXP_21264_CPU × AXP_INSTRUCTION) :=
  let fmt := decodeFormat T instr instrType decodedInstr
  let d1 : AXP_INSTRUCTION := decodeType T F fmt.1
  -- decodedInstr->decodedReg = AXP_RegisterDecoding(decodedInstr->opcode); ...
  match registerMask T instr d1.opcode with
  | none => none
  | some raw =>
    let d2 : AXP_INSTRUCTION :=
      { d1 with
          decodedReg_raw := raw }
    let d3 : AXP_INSTRUCTION := decodePipeline T d2
    let d4 : AXP_INSTRUCTION := decodeRegisters T shadow cpu instr instrPC fmt.2 d3
    -- AXP_RenameRegisters(cpu, decodedInstr);
    some (AXP_RenameRegisters AXP_I_FREELIST_SIZE AXP_F_FREELIST_SIZE cpu d4)

/-! ## Queue selection and queue entries -/

/-- The queue classes that the driver tells apart (`AXP_21264_Ibox.c`, lines
2764-2785), by their names in the source; the constants are declared in an
absent header. -/
inductive AXP_QUEUE_SEL where
  | AXP_IQ
  | AXP_FQ
  | AXP_COND
deriving DecidableEq, Repr

/-- The macro `AXP_InstructionQueue`, the opcode `ITFP` and the function codes
that the queue selection compares with: all of absent headers, taken as
parameters. -/
structure AXP_QUEUE_CODES where
  AXP_InstructionQueue : Nat → AXP_QUEUE_SEL
  ITFP : Nat
  AXP_FUNC_ITOFS : Nat
  AXP_FUNC_ITOFF : Nat
  AXP_FUNC_ITOFT : Nat
  AXP_FUNC_FTOIT : Nat
  AXP_FUNC_FTOIS : Nat

/-- The queue selection of `AXP_21264_IboxMain` (lines 2764-2784): the value
of `whichQueue` that line 2785 tests; the instruction goes to the IQ when it is
`AXP_IQ` and to the FQ otherwise. -/
def whichQueue (Q : AXP_QUEUE_CODES) (opcode function : Nat) : AXP_QUEUE_SEL :=
  let whichQueue0 : AXP_QUEUE_SEL := Q.AXP_InstructionQueue opcode
  if whichQueue0 == AXP_QUEUE_SEL.AXP_COND then
    if opcode == Q.ITFP then
      if function == Q.AXP_FUNC_ITOFS || function == Q.AXP_FUNC_ITOFF ||
          function == Q.AXP_FUNC_ITOFT then AXP_QUEUE_SEL.AXP_IQ
      else AXP_QUEUE_SEL.AXP_FQ
    else
      if function == Q.AXP_FUNC_FTOIT || function == Q.AXP_FUNC_FTOIS then
        AXP_QUEUE_SEL.AXP_FQ
      else AXP_QUEUE_SEL.AXP_IQ
  else whichQueue0

/-- Function `AXP_GetNextIQEntry` (lines 975-986).  The pointer returned,
`&cpu->iqEntries[k]`, is given by the index k of the pool entry.
`AXP_IQ_LEN` is a constant of an absent header and is a parameter. -/
def AXP_GetNextIQEntry (AXP_IQ_LEN : Nat) (cpu : AXP_21264_CPU) : Nat × AXP_21264_CPU :=
  -- retVal = &cpu->iqEntries[cpu->iqEFlStart];
  let retVal : Nat := cpu.iqEFlStart
  (retVal, { cpu with
               iqEFlStart := (cpu.iqEFlStart + 1) % AXP_IQ_LEN })

/-- Function `AXP_ReturnIQEntry` (lines 1006-1024); `entry_index` is
`entry->index`, the index of the pool entry that is returned. -/
def AXP_ReturnIQEntry (AXP_IQ_LEN : Nat) (cpu : AXP_21264_CPU) (entry_index : Nat) :
    AXP_21264_CPU :=
  let cpu1 : AXP_21264_CPU :=
    { cpu with
        iqEFreelist := setAt cpu.iqEFreelist cpu.iqEFlEnd entry_index }
  { cpu1 with
      iqEFlEnd := (cpu1.iqEFlEnd + 1) % AXP_IQ_LEN }

/-- Function `AXP_GetNextFQEntry` (lines 1046-1057), as `AXP_GetNextIQEntry`. -/
def AXP_GetNextFQEntry (AXP_FQ_LEN : Nat) (cpu : AXP_21264_CPU) : Nat × AXP_21264_CPU :=
  -- retVal = &cpu->fqEntries[cpu->fqEFlStart];
  let retVal : Nat := cpu.fqEFlStart
  (retVal, { cpu with
               fqEFlStart := (cpu.fqEFlStart + 1) % AXP_FQ_LEN })

/-- Function `AXP_ReturnFQEntry` (lines 1077-1095), as `AXP_ReturnIQEntry`. -/
def AXP_ReturnFQEntry (AXP_FQ_LEN : Nat) (cpu : AXP_21264_CPU) (entry_index : Nat) :
    AXP_21264_CPU :=
  let cpu1 : AXP_21264_CPU :=
    { cpu with
        fqEFreelist := setAt cpu.fqEFreelist cpu.fqEFlEnd entry_index }
  { cpu1 with
      fqEFlEnd := (cpu1.fqEFlEnd + 1) % AXP_FQ_LEN }

/-! ## Initialisation of the predictor (`AXP_21264_Ibox_Init`, lines 2278-2291) -/

/-- The first `n` passes of the loop `for (ii = 0; ii < ONE_K; ii++)` of
`AXP_21264_Ibox_Init` (lines 2283-2288). -/
def initLoopOneK : Nat → AXP_21264_CPU → AXP_21264_CPU
  | 0, cpu => cpu
  | ii + 1, cpu =>
    let c : AXP_21264_CPU := initLoopOneK ii cpu
    { c with
        lcl_history := setAt c.lcl_history ii 0
        lcl_pred := setAt c.lcl_pred ii 0
        choice_pred := setAt c.choice_pred ii 0 }

/-- The first `n` passes of the loop `for (ii = 0; ii < FOUR_K; ii++)` of
`AXP_21264_Ibox_Init` (lines 2289-2290). -/
def initLoopFourK : Nat → AXP_21264_CPU → AXP_21264_CPU
  | 0, cpu => cpu
  | ii + 1, cpu =>
    let c : AXP_21264_CPU := initLoopFourK ii cpu
    { c with
        gbl_pred := setAt c.gbl_pred ii 0 }

/-- The start of `AXP_21264_Ibox_Init` (lines 2278-2291): no exception pending
and the predictor tables; the rest of the function (lines 2293-2490) does not
write a predictor field. -/
def Ibox_Init_predictor (cpu : AXP_21264_CPU) : AXP_21264_CPU :=
  let c0 : AXP_21264_CPU :=
    { cpu with
        excPend := false }
  let c1 : AXP_21264_CPU := initLoopOneK ONE_K c0
  let c2 : AXP_21264_CPU := initLoopFourK FOUR_K c1
  { c2 with
      globalPathHistory := 0 }

/-- The driver's step to the next instruction (`AXP_21264_IboxMain`, line
2818, `nextPC = AXP_21264_IncrementVPC(cpu);`): the value of the local `nextPC`
and the CPU after the call, which writes no field of it. -/
def driverNextPC (AXP_INFLIGHT_MAX : Nat) (cpu : AXP_21264_CPU) : Nat × AXP_21264_CPU :=
  (AXP_21264_IncrementVPC AXP_INFLIGHT_MAX cpu, cpu)

/-! ## Concrete inputs for the decoder, the queues and the initialisation -/

/-- A sample assignment of values to the function codes. -/
def sampleFuncCodes : AXP_FUNC_CODES :=
  { AXP_FUNC_CMPBGE := 0x0f, AXP_FUNC_AMASK := 0x61, AXP_FUNC_IMPLVER := 0x6c,
    AXP_FUNC_CMPGEQ := 0x0a5, AXP_FUNC_CMPGLT := 0x0a6, AXP_FUNC_CMPGLE := 0x0a7,
    AXP_FUNC_CMPGEQ_S := 0x4a5, AXP_FUNC_CMPGLT_S := 0x4a6, AXP_FUNC_CMPGLE_S := 0x4a7,
    AXP_FUNC_CMPTUN := 0x0a4, AXP_FUNC_CMPTEQ := 0x0a5, AXP_FUNC_CMPTLT := 0x0a6,
    AXP_FUNC_CMPTLE := 0x0a7, AXP_FUNC_CMPTUN_SU := 0x5a4, AXP_FUNC_CMPTEQ_SU := 0x5a5,
    AXP_FUNC_CMPTLT_SU := 0x5a6, AXP_FUNC_CMPTLE_SU := 0x5a7, AXP_FUNC_MT_FPCR := 0x024,
    AXP_FUNC_MF_FPCR := 0x025, AXP_FUNC_RPCC := 0xc000, AXP_FUNC_RC := 0xe000,
    AXP_FUNC_RS := 0xf000 }

/-- A sample queue table: opcodes 0x14 (`ITFP`) and 0x1c are conditional, the
floating-point operates go to the FQ and every other opcode to the IQ; sample
values for the function codes. -/
def sampleQueueCodes : AXP_QUEUE_CODES :=
  { AXP_InstructionQueue := fun op =>
      if op = 0x14 ∨ op = 0x1c then AXP_QUEUE_SEL.AXP_COND
      else if op = 0x15 ∨ op = 0x16 ∨ op = 0x17 then AXP_QUEUE_SEL.AXP_FQ
      else AXP_QUEUE_SEL.AXP_IQ
    ITFP := 0x14
    AXP_FUNC_ITOFS := 0x004, AXP_FUNC_ITOFF := 0x014, AXP_FUNC_ITOFT := 0x024,
    AXP_FUNC_FTOIT := 0x70, AXP_FUNC_FTOIS := 0x78 }

/-- Sample decoder tables.  A register selector is 1, 2, 3 for Ra, Rb, Rc and
9, 10, 11 for Fa, Fb, Fc, and a mask holds the selectors of source 1, source 2
and destination in its first three nibbles.  Opcode 0x10 has the mask of
`ADDQ` (0x0321), opcode 0x16 names the sub-decoder 3, opcode 0x30 has
destination Ra, opcode 0x1d (`HW_MTPR`) source Rb, every other opcode no
register.  The pipeline class of `HW_MFPR` (0x19) and `HW_MTPR` depends on the
second argument of the macro and is 0 for every other opcode. -/
def sampleDecodeTables : AXP_DECODE_TABLES :=
  { AXP_OperationType := fun op =>
      if 0x30 ≤ op then AXP_OPER_TYPE.Branch else AXP_OPER_TYPE.Other
    AXP_RegisterDecoding := fun op =>
      if op = 0x10 then 0x0321 else if op = 0x16 then 0x3000 else if op = 0x30 then 0x0100
      else if op = 0x1d then 0x0002 else 0
    AXP_InstructionPipeline := fun op f => if op = 0x19 ∨ op = 0x1d then 1 + f % 2 else 0
    PAL00 := 0x00, HW_RET := 0x1e, HW_MFPR := 0x19, HW_MTPR := 0x1d,
    AXP_REG_RA := 1, AXP_REG_RB := 2, AXP_REG_RC := 3,
    AXP_REG_FA := 9, AXP_REG_FB := 10, AXP_REG_FC := 11,
    AXP_DEST_RA := 0x0100, AXP_DEST_RC := 0x0300, AXP_DEST_FA := 0x0900,
    AXP_DEST_FC := 0x0b00, AXP_SRC1_RA := 0x0001, AXP_SRC1_RB := 0x0002,
    AXP_SRC1_FA := 0x0009, AXP_SRC1_FB := 0x000a, AXP_SRC2_RB := 0x0020,
    AXP_SRC2_FB := 0x00a0 }

/-- A sample numbering of the eight PAL-shadow registers: 32 to 38 for R8 to
R14 and 39 for R25. -/
def samplePALshadow (r : Nat) : Nat := if r = 25 then 39 else r + 24

/-- The instruction whose fields are all 0. -/
def insZero : AXP_INS_FMT :=
  { pal_opcode := 0, pal_palcode_func := 0, br_branch_disp := 0, fp_func := 0, fp_fa := 0,
    fp_fb := 0, fp_fc := 0, mem_mem_disp := 0, mem_mem_func := 0, oper1_func := 0,
    oper1_ra := 0, oper1_rb := 0, oper1_rc := 0, hw_ld_disp := 0, hw_ld_type := 0,
    hw_ld_len := 0, hw_ret_disp := 0, hw_ret_hint := 0, hw_ret_stall := 0,
    hw_mxpr_index := 0, hw_mxpr_scbd_mask := 0 }

/-- The instruction `ADDQ R8, R9, R10` (opcode 0x10, function 0x20); the
register fields read the same through the operate and the floating-point
view. -/
def insADDQ_R8_R9_R10 : AXP_INS_FMT :=
  { insZero with
      pal_opcode := 0x10, oper1_func := 0x20, oper1_ra := 8, oper1_rb := 9, oper1_rc := 10,
      fp_fa := 8, fp_fb := 9, fp_fc := 10 }

/-- The instruction `ADDT F8, F9, F10` (opcode 0x16, function 0x0a0). -/
def insADDT_F8_F9_F10 : AXP_INS_FMT :=
  { insZero with
      pal_opcode := 0x16, fp_func := 0x0a0, oper1_ra := 8, oper1_rb := 9, oper1_rc := 10,
      fp_fa := 8, fp_fb := 9, fp_fc := 10 }

/-- A `CALL_PAL` instruction (opcode 0x00) with function code 0x83. -/
def insCALL_PAL : AXP_INS_FMT :=
  { insZero with
      pal_opcode := 0x00, pal_palcode_func := 0x83 }

/-- A branch `BR R31, +0x10` (opcode 0x30). -/
def insBR : AXP_INS_FMT :=
  { insZero with
      pal_opcode := 0x30, br_branch_disp := 0x10, oper1_ra := 31, fp_fa := 31 }

/-- An `HW_MTPR R4` (opcode 0x1d) to the IPR of index 0x10. -/
def insHW_MTPR : AXP_INS_FMT :=
  { insZero with
      pal_opcode := 0x1d, hw_mxpr_index := 0x10, hw_mxpr_scbd_mask := 0x01, oper1_rb := 4,
      fp_fb := 4 }

/-- A retired ROB slot that still holds the function code 5 and the hint 3 of
the instruction it held before. -/
def robSlotStale : AXP_INSTRUCTION :=
  { robSlotRetired with
      function := 5, type_hint_index := 3 }

/-- The cleared CPU with `I_CTL.call_pal_r23` set. -/
def cpuCallPalR23 : AXP_21264_CPU :=
  { cpuCleared with
      iCtl_call_pal_r23 := 1 }

/-- Decoded `ADDQ R3, R4, R5`. -/
def ADDQ_R3_R4_R5 : AXP_INSTRUCTION :=
  { ADDQ_R1_R2_R3 with aSrc1 := 3, aSrc2 := 4, aDest := 5 }

/-- Decoded `ADDQ R5, R6, R7`. -/
def ADDQ_R5_R6_R7 : AXP_INSTRUCTION :=
  { ADDQ_R1_R2_R3 with aSrc1 := 5, aSrc2 := 6, aDest := 7 }

/-- The cleared CPU after the VPC 0x2001 (pc field 0x800, PAL mode) has been
put on a VPC list of 8 slots. -/
def cpuVpcOne : AXP_21264_CPU := AXP_21264_AddVPC 8 cpuCleared 0x2001

/-- The cleared CPU with every counter of the choice predictor at 3. -/
def cpuChoiceThree : AXP_21264_CPU :=
  { cpuCleared with
      choice_pred := fun _ => 3 }

/-- A ROB of 8 slots with live range [0, 1): slot 0 holds a completed `ADDQ`
(physical destination 40, result 7); slot 1, outside the live range, holds an
entry that is `WaitingRetirement` (physical destination 41, result 9). -/
def cpuRobStale : AXP_21264_CPU :=
  { cpuCleared with
      rob := setAt (setAt cpuCleared.rob
        0 { ADDQ_R1_R2_R3 with
              dest := 40, destv := 7, state := AXP_INS_STATE.WaitingRetirement })
        1 { ADDQ_R1_R2_R3 with
              dest := 41, destv := 9, state := AXP_INS_STATE.WaitingRetirement }
      robEnd := 1 }

/-- The cleared CPU after four calls of `AXP_GetNextIQEntry` and four of
`AXP_GetNextFQEntry`, with pools of 4 entries: every entry is handed out. -/
def cpuQueuesAllOut : AXP_21264_CPU :=
  (AXP_GetNextFQEntry 4 (AXP_GetNextFQEntry 4 (AXP_GetNextFQEntry 4 (AXP_GetNextFQEntry 4
    (AXP_GetNextIQEntry 4 (AXP_GetNextIQEntry 4 (AXP_GetNextIQEntry 4
      (AXP_GetNextIQEntry 4 cpuCleared).2).2).2).2).2).2).2).2

/-- The CPU `cpuQueuesAllOut` after entry 2 of each pool has been returned. -/
def cpuQueuesOneBack : AXP_21264_CPU :=
  AXP_ReturnFQEntry 4 (AXP_ReturnIQEntry 4 cpuQueuesAllOut 2) 2

/-! ## Facts about the tables and the macros -/

@[simp] theorem setAt_same {α : Type} (tbl : Nat → α) (i : Nat) (v : α) :
    setAt tbl i v i = v := by
  simp [setAt]

@[simp] theorem setAt_other {α : Type} (tbl : Nat → α) (i j : Nat) (v : α)
    (h : j ≠ i) : setAt tbl i v j = tbl j := by
  simp [setAt, h]

theorem shiftLeft_one_or_one (x : Nat) : (x <<< 1) ||| 1 = 2 * x + 1 := by
  have h := Nat.mul_add_lt_is_or (show 1 < 2 ^ 1 by decide) x
  rw [Nat.shiftLeft_eq, Nat.mul_comm x (2 ^ 1), ← h]

theorem local_path_taken_eq (x : Nat) : AXP_LOCAL_PATH_TAKEN x = (2 * x + 1) % 1024 := by
  simp [AXP_LOCAL_PATH_TAKEN, shiftLeft_one_or_one]

theorem global_path_taken_eq (x : Nat) : AXP_GLOBAL_PATH_TAKEN x = (2 * x + 1) % 4096 := by
  simp [AXP_GLOBAL_PATH_TAKEN, shiftLeft_one_or_one]

theorem incr3_le (c : Nat) (h : c ≤ 7) : AXP_3BIT_INCR c ≤ 7 := by
  unfold AXP_3BIT_INCR; split <;> omega

theorem decr3_le (c : Nat) (h : c ≤ 7) : AXP_3BIT_DECR c ≤ 7 := by
  unfold AXP_3BIT_DECR; split <;> omega

theorem incr2_le (c : Nat) (h : c ≤ 3) : AXP_2BIT_INCR c ≤ 3 := by
  unfold AXP_2BIT_INCR; split <;> omega

theorem decr2_le (c : Nat) (h : c ≤ 3) : AXP_2BIT_DECR c ≤ 3 := by
  unfold AXP_2BIT_DECR; split <;> omega

theorem decr3_eq (c : Nat) : AXP_3BIT_DECR c = c - 1 := by
  unfold AXP_3BIT_DECR; split <;> omega

theorem decr2_eq (c : Nat) : AXP_2BIT_DECR c = c - 1 := by
  unfold AXP_2BIT_DECR; split <;> omega

/-! ## Field-by-field effect of `AXP_Branch_Direction` -/

theorem direction_choice_pred (cpu : AXP_21264_CPU) (vpc : Nat)
    (taken localTaken globalTaken : Bool) :
    (AXP_Branch_Direction cpu vpc taken localTaken globalTaken).choice_pred =
      if (taken == localTaken) && (taken != globalTaken) then
        setAt cpu.choice_pred cpu.globalPathHistory
          (AXP_2BIT_DECR (cpu.choice_pred cpu.globalPathHistory))
      else if (taken != localTaken) && (taken == globalTaken) then
        setAt cpu.choice_pred cpu.globalPathHistory
          (AXP_2BIT_INCR (cpu.choice_pred cpu.globalPathHistory))
      else cpu.choice_pred := by
  cases taken <;> cases localTaken <;> cases globalTaken <;> rfl

theorem direction_lcl_pred (cpu : AXP_21264_CPU) (vpc : Nat)
    (taken localTaken globalTaken : Bool) :
    (AXP_Branch_Direction cpu vpc taken localTaken globalTaken).lcl_pred =
      setAt cpu.lcl_pred (cpu.lcl_history (LPTIndex_index vpc))
        (if taken then AXP_3BIT_INCR (cpu.lcl_pred (cpu.lcl_history (LPTIndex_index vpc)))
         else AXP_3BIT_DECR (cpu.lcl_pred (cpu.lcl_history (LPTIndex_index vpc)))) := by
  cases taken <;> cases localTaken <;> cases globalTaken <;> rfl

theorem direction_gbl_pred (cpu : AXP_21264_CPU) (vpc : Nat)
    (taken localTaken globalTaken : Bool) :
    (AXP_Branch_Direction cpu vpc taken localTaken globalTaken).gbl_pred =
      setAt cpu.gbl_pred cpu.globalPathHistory
        (if taken then AXP_2BIT_INCR (cpu.gbl_pred cpu.globalPathHistory)
         else AXP_2BIT_DECR (cpu.gbl_pred cpu.globalPathHistory)) := by
  cases taken <;> cases localTaken <;> cases globalTaken <;> rfl

theorem direction_lcl_history (cpu : AXP_21264_CPU) (vpc : Nat)
    (taken localTaken globalTaken : Bool) :
    (AXP_Branch_Direction cpu vpc taken localTaken globalTaken).lcl_history =
      setAt cpu.lcl_history (LPTIndex_index vpc)
        (if taken then AXP_LOCAL_PATH_TAKEN (cpu.lcl_history (LPTIndex_index vpc))
         else AXP_LOCAL_PATH_NOT_TAKEN (cpu.lcl_history (LPTIndex_index vpc))) := by
  cases taken <;> cases localTaken <;> cases globalTaken <;> rfl

theorem direction_globalPathHistory (cpu : AXP_21264_CPU) (vpc : Nat)
    (taken localTaken globalTaken : Bool) :
    (AXP_Branch_Direction cpu vpc taken localTaken globalTaken).globalPathHistory =
      if taken then AXP_GLOBAL_PATH_TAKEN cpu.globalPathHistory
      else AXP_GLOBAL_PATH_NOT_TAKEN cpu.globalPathHistory := by
  cases taken <;> cases localTaken <;> cases globalTaken <;> rfl

theorem LPTIndex_index_lt (vpc : Nat) : LPTIndex_index vpc < ONE_K := by
  unfold LPTIndex_index ONE_K
  omega

theorem direction_inRange (cpu : AXP_21264_CPU) (vpc : Nat)
    (taken localTaken globalTaken : Bool) (h : PredictorInRange cpu) :
    PredictorInRange (AXP_Branch_Direction cpu vpc taken localTaken globalTaken) := by
  obtain ⟨hl, hg, hc, hh, hp⟩ := h
  have hidx := LPTIndex_index_lt vpc
  have hpg : cpu.globalPathHistory < FOUR_K := hp
  refine ⟨?_, ?_, ?_, ?_, ?_⟩
  · intro i hi
    rw [direction_lcl_pred]
    by_cases e : i = cpu.lcl_history (LPTIndex_index vpc)
    · subst e
      rw [setAt_same]
      cases taken
      · exact decr3_le _ (hl _ hi)
      · exact incr3_le _ (hl _ hi)
    · rw [setAt_other _ _ _ _ e]
      exact hl i hi
  · intro i hi
    rw [direction_gbl_pred]
    by_cases e : i = cpu.globalPathHistory
    · subst e
      rw [setAt_same]
      cases taken
      · exact decr2_le _ (hg _ hi)
      · exact incr2_le _ (hg _ hi)
    · rw [setAt_other _ _ _ _ e]
      exact hg i hi
  · intro i hi
    rw [direction_choice_pred]
    by_cases e : i = cpu.globalPathHistory
    · subst e
      split
      · rw [setAt_same]; exact decr2_le _ (hc _ hi)
      · split
        · rw [setAt_same]; exact incr2_le _ (hc _ hi)
        · exact hc _ hi
    · split
      · rw [setAt_other _ _ _ _ e]; exact hc i hi
      · split
        · rw [setAt_other _ _ _ _ e]; exact hc i hi
        · exact hc i hi
  · intro i hi
    rw [direction_lcl_history]
    by_cases e : i = LPTIndex_index vpc
    · subst e
      rw [setAt_same]
      cases taken
      · exact Nat.mod_lt _ (by decide)
      · exact Nat.mod_lt _ (by decide)
    · rw [setAt_other _ _ _ _ e]
      exact hh i hi
  · rw [direction_globalPathHistory]
    cases taken
    · exact Nat.mod_lt _ (by decide)
    · exact Nat.mod_lt _ (by decide)

theorem cpuCleared_inRange : PredictorInRange cpuCleared := by
  refine ⟨?_, ?_, ?_, ?_, ?_⟩ <;> simp [cpuCleared]

/-! ## The tournament predictor: prediction and training -/

/-- C1: for every predictor state and VPC, `AXP_Branch_Prediction` reports
localTaken = (local_pred[local_history[VPC bits 11:2]] ≥ 4),
globalTaken = (global_pred[global_history] ≥ 2),
choice = (choice_pred[global_history] ≥ 2), and returns localTaken when the two
predictors agree, otherwise globalTaken if choice is true and localTaken if it
is false. -/
theorem prediction_tournament (cpu : AXP_21264_CPU) (vpc : Nat) :
    (AXP_Branch_Prediction cpu vpc).localTaken =
        decide (4 ≤ cpu.lcl_pred (cpu.lcl_history ((vpc / 2 ^ 2) % 2 ^ 10))) ∧
    (AXP_Branch_Prediction cpu vpc).globalTaken =
        decide (2 ≤ cpu.gbl_pred cpu.globalPathHistory) ∧
    (AXP_Branch_Prediction cpu vpc).choice =
        decide (2 ≤ cpu.choice_pred cpu.globalPathHistory) ∧
    (AXP_Branch_Prediction cpu vpc).retVal =
        (if (AXP_Branch_Prediction cpu vpc).localTaken =
              (AXP_Branch_Prediction cpu vpc).globalTaken then
            (AXP_Branch_Prediction cpu vpc).localTaken
         else if (AXP_Branch_Prediction cpu vpc).choice = true then
            (AXP_Branch_Prediction cpu vpc).globalTaken
         else (AXP_Branch_Prediction cpu vpc).localTaken) := by
  refine ⟨rfl, rfl, rfl, ?_⟩
  simp only [AXP_Branch_Prediction]
  cases AXP_3BIT_TAKE (cpu.lcl_pred (cpu.lcl_history (LPTIndex_index vpc))) <;>
    cases AXP_2BIT_TAKE (cpu.gbl_pred cpu.globalPathHistory) <;>
    cases AXP_2BIT_TAKE (cpu.choice_pred cpu.globalPathHistory) <;> rfl

/-- C2: `AXP_Branch_Direction` changes the choice counter at index g (the
global path history before the call): one down, not below 0, when the local
predictor was right and the global one wrong; one up, not above 3, when the
global predictor was right and the local one wrong; unchanged when both were
right or both wrong.  Every other choice-predictor entry is unchanged. -/
theorem direction_choice_counter (cpu : AXP_21264_CPU) (vpc : Nat)
    (taken localTaken globalTaken : Bool) :
    (AXP_Branch_Direction cpu vpc taken localTaken globalTaken).choice_pred
        cpu.globalPathHistory =
      (if taken = localTaken ∧ taken ≠ globalTaken then
          cpu.choice_pred cpu.globalPathHistory - 1
       else if taken ≠ localTaken ∧ taken = globalTaken then
          (if cpu.choice_pred cpu.globalPathHistory < 3 then
              cpu.choice_pred cpu.globalPathHistory + 1
           else cpu.choice_pred cpu.globalPathHistory)
       else cpu.choice_pred cpu.globalPathHistory) ∧
    ∀ i, i ≠ cpu.globalPathHistory →
      (AXP_Branch_Direction cpu vpc taken localTaken globalTaken).choice_pred i =
        cpu.choice_pred i := by
  rw [direction_choice_pred]
  constructor
  · cases taken <;> cases localTaken <;> cases globalTaken <;>
      simp [decr2_eq, AXP_2BIT_INCR]
  · intro i hi
    cases taken <;> cases localTaken <;> cases globalTaken <;>
      simp [setAt_other _ _ _ _ hi]

/-- C3: `AXP_Branch_Direction` moves local_pred[h] (h the VPC's local history
before the call) and global_pred[g] (g the global path history before the
call) one step toward the outcome: +1 when taken, not above 7 for the local and
3 for the global counter; -1 when not taken, not below 0.  All other local and
global predictor entries are unchanged. -/
theorem direction_predictor_counters (cpu : AXP_21264_CPU) (vpc : Nat)
    (taken localTaken globalTaken : Bool) :
    (AXP_Branch_Direction cpu vpc taken localTaken globalTaken).lcl_pred
        (cpu.lcl_history (LPTIndex_index vpc)) =
      (if taken = true then
          (if cpu.lcl_pred (cpu.lcl_history (LPTIndex_index vpc)) < 7 then
              cpu.lcl_pred (cpu.lcl_history (LPTIndex_index vpc)) + 1
           else cpu.lcl_pred (cpu.lcl_history (LPTIndex_index vpc)))
       else cpu.lcl_pred (cpu.lcl_history (LPTIndex_index vpc)) - 1) ∧
    (AXP_Branch_Direction cpu vpc taken localTaken globalTaken).gbl_pred
        cpu.globalPathHistory =
      (if taken = true then
          (if cpu.gbl_pred cpu.globalPathHistory < 3 then
              cpu.gbl_pred cpu.globalPathHistory + 1
           else cpu.gbl_pred cpu.globalPathHistory)
       else cpu.gbl_pred cpu.globalPathHistory - 1) ∧
    (∀ i, i ≠ cpu.lcl_history (LPTIndex_index vpc) →
      (AXP_Branch_Direction cpu vpc taken localTaken globalTaken).lcl_pred i =
        cpu.lcl_pred i) ∧
    (∀ i, i ≠ cpu.globalPathHistory →
      (AXP_Branch_Direction cpu vpc taken localTaken globalTaken).gbl_pred i =
        cpu.gbl_pred i) := by
  rw [direction_lcl_pred, direction_gbl_pred]
  refine ⟨?_, ?_, ?_, ?_⟩
  · cases taken <;> simp [decr3_eq, AXP_3BIT_INCR]
  · cases taken <;> simp [decr2_eq, AXP_2BIT_INCR]
  · intro i hi
    exact setAt_other _ _ _ _ hi
  · intro i hi
    exact setAt_other _ _ _ _ hi

/-- C4: after `AXP_Branch_Direction` the local history entry of the VPC's index
is ((old << 1) | taken) truncated to 10 bits, the global path history is
((old << 1) | taken) truncated to 12 bits, and the local-history entries of
every other index are unchanged. -/
theorem direction_histories (cpu : AXP_21264_CPU) (vpc : Nat)
    (taken localTaken globalTaken : Bool) :
    (AXP_Branch_Direction cpu vpc taken localTaken globalTaken).lcl_history
        (LPTIndex_index vpc) =
      ((cpu.lcl_history (LPTIndex_index vpc) <<< 1) ||| (if taken = true then 1 else 0))
        % 2 ^ 10 ∧
    (AXP_Branch_Direction cpu vpc taken localTaken globalTaken).globalPathHistory =
      ((cpu.globalPathHistory <<< 1) ||| (if taken = true then 1 else 0)) % 2 ^ 12 ∧
    ∀ i, i ≠ LPTIndex_index vpc →
      (AXP_Branch_Direction cpu vpc taken localTaken globalTaken).lcl_history i =
        cpu.lcl_history i := by
  rw [direction_lcl_history, direction_globalPathHistory]
  refine ⟨?_, ?_, ?_⟩
  · cases taken <;>
      simp [AXP_LOCAL_PATH_TAKEN, AXP_LOCAL_PATH_NOT_TAKEN]
  · cases taken <;>
      simp [AXP_GLOBAL_PATH_TAKEN, AXP_GLOBAL_PATH_NOT_TAKEN]
  · intro i hi
    exact setAt_other _ _ _ _ hi

/-- C5: range invariant of the predictor.  If every local counter is in
[0,7], every global and choice counter in [0,3], every local history below
1024 and the global path history below 4096, the same holds after
`AXP_Branch_Direction` with any arguments, and the three table indices that
`AXP_Branch_Prediction` uses in such a state are in range. -/
theorem predictor_range_invariant (cpu : AXP_21264_CPU) (vpc : Nat)
    (taken localTaken globalTaken : Bool) (h : PredictorInRange cpu) :
    PredictorInRange (AXP_Branch_Direction cpu vpc taken localTaken globalTaken) ∧
    LPTIndex_index vpc < ONE_K ∧
    cpu.lcl_history (LPTIndex_index vpc) < ONE_K ∧
    cpu.globalPathHistory < FOUR_K := by
  refine ⟨direction_inRange cpu vpc taken localTaken globalTaken h,
    LPTIndex_index_lt vpc, ?_, ?_⟩
  · exact h.2.2.2.1 _ (LPTIndex_index_lt vpc)
  · exact h.2.2.2.2

/-- Witness for C5: the cleared predictor is in range, so it stays in range
when trained on a taken branch at VPC 0x100. -/
theorem predictor_range_invariant_witness :
    PredictorInRange cpuCleared ∧
    (PredictorInRange (AXP_Branch_Direction cpuCleared 0x100 true false false) ∧
     LPTIndex_index 0x100 < ONE_K ∧
     cpuCleared.lcl_history (LPTIndex_index 0x100) < ONE_K ∧
     cpuCleared.globalPathHistory < FOUR_K) :=
  ⟨cpuCleared_inRange,
   predictor_range_invariant cpuCleared 0x100 true false false cpuCleared_inRange⟩

/-! ## Repeated training on a taken branch -/

theorem predictTrainRounds_succ (vpc : Nat) (taken : Bool) (n : Nat) (cpu : AXP_21264_CPU) :
    predictTrainRounds vpc taken (n + 1) cpu =
      predictTrainRounds vpc taken n (predictTrain vpc taken cpu) := rfl

theorem predictTrainRounds_add (vpc : Nat) (taken : Bool) (m n : Nat) :
    ∀ cpu : AXP_21264_CPU, predictTrainRounds vpc taken (m + n) cpu =
      predictTrainRounds vpc taken n (predictTrainRounds vpc taken m cpu) := by
  induction m with
  | zero => intro cpu; simp [predictTrainRounds]
  | succ m ih =>
    intro cpu
    rw [Nat.add_right_comm, predictTrainRounds_succ, predictTrainRounds_succ, ih]

theorem predictTrain_lcl_history (vpc : Nat) (cpu : AXP_21264_CPU) :
    (predictTrain vpc true cpu).lcl_history (LPTIndex_index vpc) =
      (2 * cpu.lcl_history (LPTIndex_index vpc) + 1) % 1024 := by
  unfold predictTrain
  simp only [direction_lcl_history, setAt_same, if_true, local_path_taken_eq]

theorem predictTrain_globalPathHistory (vpc : Nat) (cpu : AXP_21264_CPU) :
    (predictTrain vpc true cpu).globalPathHistory =
      (2 * cpu.globalPathHistory + 1) % 4096 := by
  unfold predictTrain
  simp only [direction_globalPathHistory, if_true, global_path_taken_eq]

theorem predictTrain_lcl_pred (vpc : Nat) (cpu : AXP_21264_CPU) :
    (predictTrain vpc true cpu).lcl_pred =
      setAt cpu.lcl_pred (cpu.lcl_history (LPTIndex_index vpc))
        (AXP_3BIT_INCR (cpu.lcl_pred (cpu.lcl_history (LPTIndex_index vpc)))) := by
  unfold predictTrain
  simp only [direction_lcl_pred, if_true]

theorem predictTrain_gbl_pred (vpc : Nat) (cpu : AXP_21264_CPU) :
    (predictTrain vpc true cpu).gbl_pred =
      setAt cpu.gbl_pred cpu.globalPathHistory
        (AXP_2BIT_INCR (cpu.gbl_pred cpu.globalPathHistory)) := by
  unfold predictTrain
  simp only [direction_gbl_pred, if_true]

theorem predictTrain_inRange (vpc : Nat) (taken : Bool) (cpu : AXP_21264_CPU)
    (h : PredictorInRange cpu) : PredictorInRange (predictTrain vpc taken cpu) :=
  direction_inRange cpu vpc taken _ _ h

theorem predictTrainRounds_inRange (vpc : Nat) (taken : Bool) (n : Nat) :
    ∀ cpu : AXP_21264_CPU, PredictorInRange cpu →
      PredictorInRange (predictTrainRounds vpc taken n cpu) := by
  induction n with
  | zero => intro cpu h; exact h
  | succ n ih =>
    intro cpu h
    rw [predictTrainRounds_succ]
    exact ih _ (predictTrain_inRange vpc taken cpu h)

/-- Twelve taken rounds fill the 10-bit local history of the branch with ones. -/
theorem lcl_history_after_twelve (vpc : Nat) (cpu : AXP_21264_CPU) :
    (predictTrainRounds vpc true 12 cpu).lcl_history (LPTIndex_index vpc) = 1023 := by
  show (predictTrain vpc true (predictTrain vpc true (predictTrain vpc true
    (predictTrain vpc true (predictTrain vpc true (predictTrain vpc true
    (predictTrain vpc true (predictTrain vpc true (predictTrain vpc true
    (predictTrain vpc true (predictTrain vpc true (predictTrain vpc true
      cpu)))))))))))).lcl_history (LPTIndex_index vpc) = 1023
  simp only [predictTrain_lcl_history]
  omega

/-- Twelve taken rounds fill the 12-bit global path history with ones. -/
theorem globalPathHistory_after_twelve (vpc : Nat) (cpu : AXP_21264_CPU) :
    (predictTrainRounds vpc true 12 cpu).globalPathHistory = 4095 := by
  show (predictTrain vpc true (predictTrain vpc true (predictTrain vpc true
    (predictTrain vpc true (predictTrain vpc true (predictTrain vpc true
    (predictTrain vpc true (predictTrain vpc true (predictTrain vpc true
    (predictTrain vpc true (predictTrain vpc true (predictTrain vpc true
      cpu)))))))))))).globalPathHistory = 4095
  simp only [predictTrain_globalPathHistory]
  omega

theorem takenSaturating_step (vpc k : Nat) (cpu : AXP_21264_CPU)
    (h : TakenSaturating vpc k cpu) :
    TakenSaturating vpc (k + 1) (predictTrain vpc true cpu) := by
  obtain ⟨h1, h2, h3, h4, h5, h6⟩ := h
  unfold TakenSaturating
  rw [predictTrain_lcl_history, predictTrain_globalPathHistory, predictTrain_lcl_pred,
    predictTrain_gbl_pred, h1, h2, setAt_same, setAt_same]
  unfold AXP_3BIT_INCR AXP_2BIT_INCR
  refine ⟨by omega, by omega, ?_, ?_, ?_, ?_⟩ <;> split <;> omega

theorem takenSaturating_rounds (vpc : Nat) (n : Nat) :
    ∀ (k : Nat) (cpu : AXP_21264_CPU), TakenSaturating vpc k cpu →
      TakenSaturating vpc (k + n) (predictTrainRounds vpc true n cpu) := by
  induction n with
  | zero => intro k cpu h; exact h
  | succ n ih =>
    intro k cpu h
    rw [predictTrainRounds_succ, ← Nat.add_assoc, Nat.add_right_comm]
    exact ih (k + 1) _ (takenSaturating_step vpc k cpu h)

theorem takenSaturating_after_twelve (vpc : Nat) (cpu : AXP_21264_CPU)
    (h : PredictorInRange cpu) :
    TakenSaturating vpc 0 (predictTrainRounds vpc true 12 cpu) := by
  have hr := predictTrainRounds_inRange vpc true 12 cpu h
  refine ⟨lcl_history_after_twelve vpc cpu, globalPathHistory_after_twelve vpc cpu,
    hr.1 1023 (by decide), hr.2.1 4095 (by decide), ?_, ?_⟩ <;> simp

theorem takenSaturating_thousand (vpc : Nat) (cpu : AXP_21264_CPU)
    (h : PredictorInRange cpu) :
    TakenSaturating vpc 988 (predictTrainRounds vpc true 1000 cpu) := by
  have e : predictTrainRounds vpc true 1000 cpu =
      predictTrainRounds vpc true 988 (predictTrainRounds vpc true 12 cpu) :=
    predictTrainRounds_add vpc true 12 988 cpu
  rw [e]
  have := takenSaturating_rounds vpc 988 0 _ (takenSaturating_after_twelve vpc cpu h)
  simpa using this

/-- C6: predictor saturation.  From any in-range predictor state, after 1000
consecutive predict-then-train rounds of the same VPC with taken = true, the
local counter selected by that VPC's local history is 7, the global counter
selected by the global path history is 3, and the prediction for that VPC is
taken. -/
theorem predictor_saturation (vpc : Nat) (cpu : AXP_21264_CPU)
    (h : PredictorInRange cpu) :
    (predictTrainRounds vpc true 1000 cpu).lcl_pred
        ((predictTrainRounds vpc true 1000 cpu).lcl_history (LPTIndex_index vpc)) = 7 ∧
    (predictTrainRounds vpc true 1000 cpu).gbl_pred
        (predictTrainRounds vpc true 1000 cpu).globalPathHistory = 3 ∧
    (AXP_Branch_Prediction (predictTrainRounds vpc true 1000 cpu) vpc).retVal = true := by
  obtain ⟨h1, h2, h3, h4, h5, h6⟩ := takenSaturating_thousand vpc cpu h
  have e7 : (predictTrainRounds vpc true 1000 cpu).lcl_pred 1023 = 7 := by
    simp at h5; omega
  have e3 : (predictTrainRounds vpc true 1000 cpu).gbl_pred 4095 = 3 := by
    simp at h6; omega
  refine ⟨by rw [h1, e7], by rw [h2, e3], ?_⟩
  simp [AXP_Branch_Prediction, h1, h2, e7, e3, AXP_3BIT_TAKE, AXP_2BIT_TAKE]

/-- Witness for C6: the cleared predictor trained 1000 times on the taken
branch at VPC 0x100. -/
theorem predictor_saturation_witness :
    PredictorInRange cpuCleared ∧
    ((predictTrainRounds 0x100 true 1000 cpuCleared).lcl_pred
        ((predictTrainRounds 0x100 true 1000 cpuCleared).lcl_history
          (LPTIndex_index 0x100)) = 7 ∧
     (predictTrainRounds 0x100 true 1000 cpuCleared).gbl_pred
        (predictTrainRounds 0x100 true 1000 cpuCleared).globalPathHistory = 3 ∧
     (AXP_Branch_Prediction (predictTrainRounds 0x100 true 1000 cpuCleared) 0x100).retVal
        = true) :=
  ⟨cpuCleared_inRange, predictor_saturation 0x100 cpuCleared cpuCleared_inRange⟩

/-- C7 fails as stated: from the cleared predictor, training on the taken
branch at VPC 0x100, the prediction of round 4 is false (as is every
prediction up to round 14), so it is not the case that the prediction is true
from round 4 on. -/
theorem retrain_not_by_round_four :
    ¬ (∀ k, 4 ≤ k → k ≤ 16 →
        (roundPredictions 0x100 true 16 cpuCleared).get? (k - 1) = some true) := by
  intro h
  have h4 := h 4 (by decide) (by decide)
  have e : (roundPredictions 0x100 true 16 cpuCleared).get? (4 - 1) = some false := by rfl
  rw [e] at h4
  cases h4

/-- C7 as amended: from the cleared predictor, in 16 rounds of
`AXP_Branch_Prediction` followed by `AXP_Branch_Direction` for VPC 0x100 with
taken = true, the prediction is false in rounds 1 to 14 and true in rounds 15
and 16. -/
theorem retrain_by_round_fifteen :
    roundPredictions 0x100 true 16 cpuCleared =
      List.replicate 14 false ++ [true, true] := by
  rfl

/-! ## Register renaming -/

/-- The renamed sources are read from the maps of the state before the call. -/
theorem rename_src_fields (isz fsz : Nat) (cpu : AXP_21264_CPU) (ins : AXP_INSTRUCTION) :
    (AXP_RenameRegisters isz fsz cpu ins).2.src1 =
      (if ((ins.decodedReg_raw &&& 0x0008) == 0x0008) = true then (cpu.pfMap ins.aSrc1).pr
       else (cpu.prMap ins.aSrc1).pr) ∧
    (AXP_RenameRegisters isz fsz cpu ins).2.src2 =
      (if ((ins.decodedReg_raw &&& 0x0080) == 0x0080) = true then (cpu.pfMap ins.aSrc2).pr
       else (cpu.prMap ins.aSrc2).pr) := by
  unfold AXP_RenameRegisters
  dsimp only
  split
  · split <;> exact ⟨rfl, rfl⟩
  · exact ⟨rfl, rfl⟩

/-- Floating-point destination: one register is popped from the
floating-point free-list and the integer free-list is untouched. -/
theorem rename_fp_dest (isz fsz : Nat) (cpu : AXP_21264_CPU) (ins : AXP_INSTRUCTION)
    (hd : ins.aDest ≠ AXP_UNMAPPED_REG)
    (hf : ((ins.decodedReg_raw &&& 0x0800) == 0x0800) = true) :
    (AXP_RenameRegisters isz fsz cpu ins).2.dest = cpu.pfFreeList cpu.pfFlStart ∧
    (AXP_RenameRegisters isz fsz cpu ins).1.pfFlStart = (cpu.pfFlStart + 1) % fsz ∧
    (AXP_RenameRegisters isz fsz cpu ins).1.prFreeList = cpu.prFreeList ∧
    (AXP_RenameRegisters isz fsz cpu ins).1.prFlStart = cpu.prFlStart ∧
    (AXP_RenameRegisters isz fsz cpu ins).1.prFlEnd = cpu.prFlEnd := by
  have hd1 : (ins.aDest != AXP_UNMAPPED_REG) = true := by simpa using hd
  unfold AXP_RenameRegisters
  dsimp only
  rw [if_pos hd1, if_pos hf]
  split <;> exact ⟨rfl, rfl, rfl, rfl, rfl⟩

/-- Integer destination: the register at the head of the integer free-list is
handed out, the cursor moves on by two slots, and the floating-point free-list
is untouched. -/
theorem rename_int_dest (isz fsz : Nat) (cpu : AXP_21264_CPU) (ins : AXP_INSTRUCTION)
    (hd : ins.aDest ≠ AXP_UNMAPPED_REG)
    (hf : ((ins.decodedReg_raw &&& 0x0800) == 0x0800) = false) :
    (AXP_RenameRegisters isz fsz cpu ins).2.dest = cpu.prFreeList cpu.prFlStart ∧
    (AXP_RenameRegisters isz fsz cpu ins).1.prFlStart = (cpu.prFlStart + 1 + 1) % isz ∧
    (AXP_RenameRegisters isz fsz cpu ins).1.pfFreeList = cpu.pfFreeList ∧
    (AXP_RenameRegisters isz fsz cpu ins).1.pfFlStart = cpu.pfFlStart ∧
    (AXP_RenameRegisters isz fsz cpu ins).1.pfFlEnd = cpu.pfFlEnd := by
  have hd1 : (ins.aDest != AXP_UNMAPPED_REG) = true := by simpa using hd
  have hf1 : ¬ ((ins.decodedReg_raw &&& 0x0800) == 0x0800) = true := by simp [hf]
  unfold AXP_RenameRegisters
  dsimp only
  rw [if_pos hd1, if_neg hf1]
  split <;> exact ⟨rfl, rfl, rfl, rfl, rfl⟩

/-- Floating-point destination: the map entry of aDest gets the new register
and keeps its old register as the previous one; no other entry changes. -/
theorem rename_fp_map (isz fsz : Nat) (cpu : AXP_21264_CPU) (ins : AXP_INSTRUCTION)
    (hd : ins.aDest ≠ AXP_UNMAPPED_REG)
    (hf : ((ins.decodedReg_raw &&& 0x0800) == 0x0800) = true) :
    (AXP_RenameRegisters isz fsz cpu ins).1.pfMap ins.aDest =
      { pr := (AXP_RenameRegisters isz fsz cpu ins).2.dest,
        prevPr := (cpu.pfMap ins.aDest).pr } ∧
    (∀ r, r ≠ ins.aDest → (AXP_RenameRegisters isz fsz cpu ins).1.pfMap r = cpu.pfMap r) ∧
    (AXP_RenameRegisters isz fsz cpu ins).1.prMap = cpu.prMap := by
  have hd1 : (ins.aDest != AXP_UNMAPPED_REG) = true := by simpa using hd
  unfold AXP_RenameRegisters
  dsimp only
  rw [if_pos hd1, if_pos hf]
  split
  · refine ⟨by simp, ?_, rfl⟩
    intro r hr
    simp [setAt_other _ _ _ _ hr]
  · refine ⟨by simp, ?_, rfl⟩
    intro r hr
    simp [setAt_other _ _ _ _ hr]

/-- Integer destination: the map entry of aDest gets the new register, and as
previous register the one the floating-point map holds for the same number; no
other entry changes. -/
theorem rename_int_map (isz fsz : Nat) (cpu : AXP_21264_CPU) (ins : AXP_INSTRUCTION)
    (hd : ins.aDest ≠ AXP_UNMAPPED_REG)
    (hf : ((ins.decodedReg_raw &&& 0x0800) == 0x0800) = false) :
    (AXP_RenameRegisters isz fsz cpu ins).1.prMap ins.aDest =
      { pr := (AXP_RenameRegisters isz fsz cpu ins).2.dest,
        prevPr := (cpu.pfMap ins.aDest).pr } ∧
    (∀ r, r ≠ ins.aDest → (AXP_RenameRegisters isz fsz cpu ins).1.prMap r = cpu.prMap r) ∧
    (AXP_RenameRegisters isz fsz cpu ins).1.pfMap = cpu.pfMap := by
  have hd1 : (ins.aDest != AXP_UNMAPPED_REG) = true := by simpa using hd
  have hf1 : ¬ ((ins.decodedReg_raw &&& 0x0800) == 0x0800) = true := by simp [hf]
  unfold AXP_RenameRegisters
  dsimp only
  rw [if_pos hd1, if_neg hf1]
  split
  · refine ⟨by simp, ?_, rfl⟩
    intro r hr
    simp [setAt_other _ _ _ _ hr]
  · refine ⟨by simp, ?_, rfl⟩
    intro r hr
    simp [setAt_other _ _ _ _ hr]

/-- C8, evaluated: renaming `ADDQ R1, R2, R3` in the cleared state with an
integer free-list of 40 slots hands out physical register 40 from slot 0 and
leaves prFlStart at 2, while popping one register means (0 + 1) mod 40 = 1.
Renaming `ADDT F1, F2, F3` in the same state leaves pfFlStart at 1. -/
theorem rename_integer_cursor_skips_slot :
    cpuCleared.prFlStart = 0 ∧
    (AXP_RenameRegisters 40 40 cpuCleared ADDQ_R1_R2_R3).2.dest = 40 ∧
    (AXP_RenameRegisters 40 40 cpuCleared ADDQ_R1_R2_R3).1.prFlStart = 2 ∧
    (AXP_RenameRegisters 40 40 cpuCleared ADDQ_R1_R2_R3).1.prFlStart ≠
      (cpuCleared.prFlStart + 1) % 40 ∧
    (AXP_RenameRegisters 40 40 cpuCleared ADDT_F1_F2_F3).1.pfFlStart = 1 := by
  decide

/-- C9, evaluated: after `ADDT F1, F2, F3` the integer map holds physical
register 3 for R3 and the floating-point map holds 32 for F3; renaming
`ADDQ R1, R2, R3` then leaves prMap[3] = (pr 40, prevPr 32), where the register
that entry held before the call is 3. -/
theorem rename_integer_prevPr_from_fp_map :
    (cpuAfterADDT.prMap 3).pr = 3 ∧
    (cpuAfterADDT.pfMap 3).pr = 32 ∧
    (AXP_RenameRegisters 40 40 cpuAfterADDT ADDQ_R1_R2_R3).1.prMap 3 =
      { pr := 40, prevPr := 32 } ∧
    ((AXP_RenameRegisters 40 40 cpuAfterADDT ADDQ_R1_R2_R3).1.prMap 3).prevPr ≠
      (cpuAfterADDT.prMap 3).pr := by
  decide

/-- C10: `AXP_RenameRegisters` sets src1 to pfMap[aSrc1].pr when source 1 is a
floating-point register (flag 0x0008 of decodedReg.raw) and to prMap[aSrc1].pr
otherwise, and src2 likewise from aSrc2 (flag 0x0080), both read from the maps
as they were before the call, hence before the destination is renamed. -/
theorem rename_sources_from_old_maps (isz fsz : Nat) (cpu : AXP_21264_CPU)
    (ins : AXP_INSTRUCTION) :
    (AXP_RenameRegisters isz fsz cpu ins).2.src1 =
      (if ins.decodedReg_raw &&& 0x0008 = 0x0008 then (cpu.pfMap ins.aSrc1).pr
       else (cpu.prMap ins.aSrc1).pr) ∧
    (AXP_RenameRegisters isz fsz cpu ins).2.src2 =
      (if ins.decodedReg_raw &&& 0x0080 = 0x0080 then (cpu.pfMap ins.aSrc2).pr
       else (cpu.prMap ins.aSrc2).pr) := by
  have h := rename_src_fields isz fsz cpu ins
  simpa using h


theorem retireFrame_refl (a : AXP_21264_CPU) : RetireFrame a a := rfl

theorem retireFrame_trans {a b c : AXP_21264_CPU} (h1 : RetireFrame a b)
    (h2 : RetireFrame b c) : RetireFrame a c := by
  unfold RetireFrame at *
  rw [h2, h1]

theorem retire_HW_MTPR_frame (W : AXP_MTPR_CODES) (cpu : AXP_21264_CPU)
    (instr : AXP_INSTRUCTION) :
    (AXP_21264_Ibox_Retire_HW_MTPR W cpu instr).rob = cpu.rob ∧
    (AXP_21264_Ibox_Retire_HW_MTPR W cpu instr).pr = cpu.pr ∧
    (AXP_21264_Ibox_Retire_HW_MTPR W cpu instr).pf = cpu.pf ∧
    (AXP_21264_Ibox_Retire_HW_MTPR W cpu instr).robStart = cpu.robStart ∧
    RetireFrame cpu (AXP_21264_Ibox_Retire_HW_MTPR W cpu instr) := by
  unfold AXP_21264_Ibox_Retire_HW_MTPR RetireFrame
  split_ifs <;> exact ⟨rfl, rfl, rfl, rfl, rfl⟩

theorem retireResult_spec (mfprOp : Nat)
    (mfpr : AXP_21264_CPU → AXP_INSTRUCTION → Nat) (cpu : AXP_21264_CPU) (ii : Nat) :
    (retireResult mfprOp mfpr cpu ii).rob ii =
      { cpu.rob ii with
          destv := if (cpu.rob ii).opcode = mfprOp then mfpr cpu (cpu.rob ii)
                   else (cpu.rob ii).destv } ∧
    (∀ j, j ≠ ii → (retireResult mfprOp mfpr cpu ii).rob j = cpu.rob j) ∧
    (retireResult mfprOp mfpr cpu ii).robStart = cpu.robStart ∧
    RetireFrame cpu (retireResult mfprOp mfpr cpu ii) := by
  unfold retireResult RetireFrame
  dsimp only
  split_ifs <;> refine ⟨?_, ?_, ?_, ?_⟩ <;> simp_all [setAt]

theorem retireCommit_fields (mfprOp : Nat)
    (mfpr : AXP_21264_CPU → AXP_INSTRUCTION → Nat) (W : AXP_MTPR_CODES)
    (cpu : AXP_21264_CPU) (ii : Nat) :
    (retireCommit mfprOp mfpr W cpu ii).rob = (retireResult mfprOp mfpr cpu ii).rob ∧
    (retireCommit mfprOp mfpr W cpu ii).pr = (retireResult mfprOp mfpr cpu ii).pr ∧
    (retireCommit mfprOp mfpr W cpu ii).pf = (retireResult mfprOp mfpr cpu ii).pf ∧
    (retireCommit mfprOp mfpr W cpu ii).robStart =
      (retireResult mfprOp mfpr cpu ii).robStart ∧
    RetireFrame (retireResult mfprOp mfpr cpu ii) (retireCommit mfprOp mfpr W cpu ii) := by
  unfold retireCommit
  dsimp only
  split
  · exact retire_HW_MTPR_frame W _ _
  · exact ⟨rfl, rfl, rfl, rfl, rfl⟩

theorem retireCommit_spec (mfprOp : Nat)
    (mfpr : AXP_21264_CPU → AXP_INSTRUCTION → Nat) (W : AXP_MTPR_CODES)
    (cpu : AXP_21264_CPU) (ii : Nat) :
    (retireCommit mfprOp mfpr W cpu ii).rob ii =
      { cpu.rob ii with
          destv := if (cpu.rob ii).opcode = mfprOp then mfpr cpu (cpu.rob ii)
                   else (cpu.rob ii).destv } ∧
    (∀ j, j ≠ ii → (retireCommit mfprOp mfpr W cpu ii).rob j = cpu.rob j) ∧
    (retireCommit mfprOp mfpr W cpu ii).robStart = cpu.robStart ∧
    RetireFrame cpu (retireCommit mfprOp mfpr W cpu ii) := by
  obtain ⟨r1, r2, r3, r4⟩ := retireResult_spec mfprOp mfpr cpu ii
  obtain ⟨c1, _, _, c4, c5⟩ := retireCommit_fields mfprOp mfpr W cpu ii
  rw [c1, c4]
  exact ⟨r1, r2, r3, retireFrame_trans r4 c5⟩

theorem retireSlot_spec (imax mfprOp : Nat)
    (mfpr : AXP_21264_CPU → AXP_INSTRUCTION → Nat) (W : AXP_MTPR_CODES) (cpu : AXP_21264_CPU) (ii : Nat) :
    ((retireSlot imax mfprOp mfpr W cpu ii).rob ii).state = AXP_INS_STATE.Retired ∧
    (∀ j, j ≠ ii → (retireSlot imax mfprOp mfpr W cpu ii).rob j = cpu.rob j) ∧
    (retireSlot imax mfprOp mfpr W cpu ii).robStart = (cpu.robStart + 1) % imax ∧
    RetireFrame cpu (retireSlot imax mfprOp mfpr W cpu ii) := by
  obtain ⟨_, c2, c3, c4⟩ := retireCommit_spec mfprOp mfpr W cpu ii
  unfold retireSlot
  dsimp only
  split_ifs
  · refine ⟨by simp, fun j hj => by simp [setAt_other _ _ _ _ hj], rfl, rfl⟩
  · refine ⟨by simp, fun j hj => by simp [setAt_other _ _ _ _ hj, c2 j hj], by simp [c3], ?_⟩
    unfold RetireFrame at c4 ⊢
    conv_lhs => rw [c4]

theorem retireIteration_not_waiting (imax mfprOp : Nat)
    (mfpr : AXP_21264_CPU → AXP_INSTRUCTION → Nat) (W : AXP_MTPR_CODES) (s : RETIRE_LOOP)
    (hw : (s.cpu.rob s.ii).state ≠ AXP_INS_STATE.WaitingRetirement)
    (hs : s.split = false) :
    retireIteration imax mfprOp mfpr W s =
      { cpu := s.cpu, ii := s.ii + 1, end_ := s.end_, split := false, done := true } := by
  unfold retireIteration
  have h1 : ((s.cpu.rob s.ii).state == AXP_INS_STATE.WaitingRetirement) = false := by
    simpa using hw
  simp [h1, hs]

theorem retireIteration_waiting (imax mfprOp : Nat)
    (mfpr : AXP_21264_CPU → AXP_INSTRUCTION → Nat) (W : AXP_MTPR_CODES) (s : RETIRE_LOOP)
    (hw : (s.cpu.rob s.ii).state = AXP_INS_STATE.WaitingRetirement)
    (hs : s.split = false) :
    retireIteration imax mfprOp mfpr W s =
      { cpu := retireSlot imax mfprOp mfpr W s.cpu s.ii, ii := s.ii + 1, end_ := s.end_,
        split := false, done := s.done } := by
  unfold retireIteration
  simp [hw, hs]


theorem waitingRun_congr (rob rob2 : Nat → AXP_INSTRUCTION) (n : Nat) :
    ∀ i, (∀ j, i ≤ j → rob2 j = rob j) → waitingRun rob2 i n = waitingRun rob i n := by
  induction n with
  | zero => intro i _; rfl
  | succ n ih =>
    intro i h
    simp only [waitingRun]
    rw [h i (Nat.le_refl i), ih (i + 1) (fun j hj => h j (by omega))]

theorem waitingRun_all (rob : Nat → AXP_INSTRUCTION) (n : Nat) :
    ∀ i j, i ≤ j → j < i + waitingRun rob i n →
      (rob j).state = AXP_INS_STATE.WaitingRetirement := by
  induction n with
  | zero => intro i j h1 h2; simp [waitingRun] at h2; omega
  | succ n ih =>
    intro i j h1 h2
    simp only [waitingRun] at h2
    split at h2
    · rename_i hw
      by_cases e : j = i
      · subst e; exact hw
      · exact ih (i + 1) j (by omega) (by omega)
    · omega

theorem waitingRun_stop (rob : Nat → AXP_INSTRUCTION) (n : Nat) :
    ∀ i, waitingRun rob i n < n →
      (rob (i + waitingRun rob i n)).state ≠ AXP_INS_STATE.WaitingRetirement := by
  induction n with
  | zero => intro i h; omega
  | succ n ih =>
    intro i h
    simp only [waitingRun] at h ⊢
    split
    · rename_i hw
      rw [if_pos hw] at h
      have := ih (i + 1) (by omega)
      rw [show i + (waitingRun rob (i + 1) n + 1) = i + 1 + waitingRun rob (i + 1) n by omega]
      exact this
    · rename_i hw
      simpa using hw

theorem retireLoop_done (imax mfprOp : Nat)
    (mfpr : AXP_21264_CPU → AXP_INSTRUCTION → Nat) (W : AXP_MTPR_CODES) (fuel : Nat) (s : RETIRE_LOOP)
    (h : ¬ (s.ii < s.end_ ∧ s.done = false)) :
    retireLoop imax mfprOp mfpr W fuel s = s := by
  cases fuel with
  | zero => rfl
  | succ f =>
    simp only [retireLoop]
    split
    · rename_i hc
      simp at hc
      exact absurd hc h
    · rfl

theorem retireLoop_nosplit (imax mfprOp : Nat)
    (mfpr : AXP_21264_CPU → AXP_INSTRUCTION → Nat) (W : AXP_MTPR_CODES) (n : Nat) :
    ∀ (fuel : Nat) (s : RETIRE_LOOP), s.split = false → s.done = false →
      s.ii + n = s.end_ → n ≤ fuel →
      (retireLoop imax mfprOp mfpr W fuel s).cpu =
        retireSlots imax mfprOp mfpr W s.ii (waitingRun s.cpu.rob s.ii n) s.cpu ∧
      ¬ ((retireLoop imax mfprOp mfpr W fuel s).ii < (retireLoop imax mfprOp mfpr W fuel s).end_ ∧
         (retireLoop imax mfprOp mfpr W fuel s).done = false) := by
  induction n with
  | zero =>
    intro fuel s _ _ he _
    have hx : ¬ (s.ii < s.end_ ∧ s.done = false) := by omega
    rw [retireLoop_done imax mfprOp mfpr W fuel s hx]
    exact ⟨rfl, hx⟩
  | succ n ih =>
    intro fuel s hs hd he hf
    obtain ⟨f, rfl⟩ : ∃ f, fuel = f + 1 := ⟨fuel - 1, by omega⟩
    have hc : ((decide (s.ii < s.end_)) && (s.done == false)) = true := by
      simp [hd]; omega
    simp only [retireLoop, hc, if_true]
    by_cases hw : (s.cpu.rob s.ii).state = AXP_INS_STATE.WaitingRetirement
    · rw [retireIteration_waiting imax mfprOp mfpr W s hw hs]
      have := ih f
        { cpu := retireSlot imax mfprOp mfpr W s.cpu s.ii, ii := s.ii + 1, end_ := s.end_,
          split := false, done := s.done } rfl hd (by simp; omega) (by omega)
      simp only at this
      have hk : waitingRun (retireSlot imax mfprOp mfpr W s.cpu s.ii).rob (s.ii + 1) n =
          waitingRun s.cpu.rob (s.ii + 1) n :=
        waitingRun_congr _ _ n (s.ii + 1)
          (fun j hj => (retireSlot_spec imax mfprOp mfpr W s.cpu s.ii).2.1 j (by omega))
      rw [hk] at this
      simp only [waitingRun, hw, if_true, retireSlots]
      exact this
    · rw [retireIteration_not_waiting imax mfprOp mfpr W s hw hs]
      rw [retireLoop_done]
      · simp [waitingRun, hw, retireSlots]
      · simp

theorem retireSlots_spec (imax mfprOp : Nat)
    (mfpr : AXP_21264_CPU → AXP_INSTRUCTION → Nat) (W : AXP_MTPR_CODES) (k : Nat) :
    ∀ (i : Nat) (cpu : AXP_21264_CPU),
      (∀ j, i ≤ j → j < i + k →
        ((retireSlots imax mfprOp mfpr W i k cpu).rob j).state = AXP_INS_STATE.Retired) ∧
      (∀ j, (j < i ∨ i + k ≤ j) → (retireSlots imax mfprOp mfpr W i k cpu).rob j = cpu.rob j) ∧
      (retireSlots imax mfprOp mfpr W i k cpu).robStart =
        (if k = 0 then cpu.robStart else (cpu.robStart + k) % imax) ∧
      RetireFrame cpu (retireSlots imax mfprOp mfpr W i k cpu) := by
  induction k with
  | zero =>
    intro i cpu
    refine ⟨fun j h1 h2 => by omega, fun j _ => rfl, rfl, rfl⟩
  | succ k ih =>
    intro i cpu
    obtain ⟨s1, s2, s3, s4⟩ := retireSlot_spec imax mfprOp mfpr W cpu i
    obtain ⟨r1, r2, r3, r4⟩ := ih (i + 1) (retireSlot imax mfprOp mfpr W cpu i)
    simp only [retireSlots]
    refine ⟨?_, ?_, ?_, retireFrame_trans s4 r4⟩
    · intro j h1 h2
      by_cases e : j = i
      · subst e
        rw [r2 j (by omega)]
        exact s1
      · exact r1 j (by omega) (by omega)
    · intro j hj
      rw [r2 j (by omega), s2 j (by omega)]
    · rw [r3, s3]
      by_cases hk : k = 0
      · subst hk; simp
      · simp only [hk, if_false, Nat.succ_ne_zero]
        rw [Nat.mod_add_mod]
        congr 1
        omega


/-! ## The sweep as a whole -/

theorem retire_nosplit (imax mfprOp : Nat)
    (mfpr : AXP_21264_CPU → AXP_INSTRUCTION → Nat) (W : AXP_MTPR_CODES) (cpu : AXP_21264_CPU)
    (h1 : cpu.robStart ≤ cpu.robEnd) (h2 : cpu.robStart ≤ imax) :
    AXP_21264_Ibox_Retire imax mfprOp mfpr W cpu =
      retireSlots imax mfprOp mfpr W cpu.robStart
        (waitingRun cpu.rob cpu.robStart (imax - cpu.robStart)) cpu ∧
    ¬ ((retireExit imax mfprOp mfpr W cpu).ii < (retireExit imax mfprOp mfpr W cpu).end_ ∧
       (retireExit imax mfprOp mfpr W cpu).done = false) := by
  have hsplit : decide (cpu.robEnd < cpu.robStart) = false := by simp; omega
  have he : retireEntry imax cpu =
      { cpu := cpu, ii := cpu.robStart, end_ := imax, split := false, done := false } := by
    simp [retireEntry, hsplit]
  unfold AXP_21264_Ibox_Retire retireExit
  rw [he]
  have hm : retireMeasure
      { cpu := cpu, ii := cpu.robStart, end_ := imax, split := false, done := false } =
      imax - cpu.robStart := by
    simp [retireMeasure]
  rw [hm]
  exact retireLoop_nosplit imax mfprOp mfpr W (imax - cpu.robStart) (imax - cpu.robStart)
    { cpu := cpu, ii := cpu.robStart, end_ := imax, split := false, done := false }
    rfl rfl (by simp; omega) (Nat.le_refl _)

theorem retire_no_pass (imax mfprOp : Nat)
    (mfpr : AXP_21264_CPU → AXP_INSTRUCTION → Nat) (W : AXP_MTPR_CODES) (cpu : AXP_21264_CPU)
    (h : cpu.robEnd < cpu.robStart ∨ imax ≤ cpu.robStart) :
    retireExit imax mfprOp mfpr W cpu = retireEntry imax cpu ∧
    AXP_21264_Ibox_Retire imax mfprOp mfpr W cpu = cpu := by
  have hx : ¬ ((retireEntry imax cpu).ii < (retireEntry imax cpu).end_ ∧
      (retireEntry imax cpu).done = false) := by
    unfold retireEntry
    dsimp only
    by_cases hs : cpu.robEnd < cpu.robStart
    · simp [hs]; omega
    · simp [hs]; omega
  have e : retireExit imax mfprOp mfpr W cpu = retireEntry imax cpu := by
    unfold retireExit
    exact retireLoop_done imax mfprOp mfpr W _ _ hx
  refine ⟨e, ?_⟩
  unfold AXP_21264_Ibox_Retire
  rw [e]
  rfl

theorem retire_loop_exits (imax mfprOp : Nat)
    (mfpr : AXP_21264_CPU → AXP_INSTRUCTION → Nat) (W : AXP_MTPR_CODES) (cpu : AXP_21264_CPU) :
    ¬ ((retireExit imax mfprOp mfpr W cpu).ii < (retireExit imax mfprOp mfpr W cpu).end_ ∧
       (retireExit imax mfprOp mfpr W cpu).done = false) := by
  by_cases h : cpu.robEnd < cpu.robStart ∨ imax ≤ cpu.robStart
  · rw [(retire_no_pass imax mfprOp mfpr W cpu h).1]
    unfold retireEntry
    dsimp only
    by_cases hs : cpu.robEnd < cpu.robStart
    · simp [hs]; omega
    · simp [hs]; omega
  · exact (retire_nosplit imax mfprOp mfpr W cpu (by omega) (by omega)).2

theorem retire_frame (imax mfprOp : Nat)
    (mfpr : AXP_21264_CPU → AXP_INSTRUCTION → Nat) (W : AXP_MTPR_CODES) (cpu : AXP_21264_CPU) :
    RetireFrame cpu (AXP_21264_Ibox_Retire imax mfprOp mfpr W cpu) := by
  by_cases h : cpu.robEnd < cpu.robStart ∨ imax ≤ cpu.robStart
  · rw [(retire_no_pass imax mfprOp mfpr W cpu h).2]
    exact retireFrame_refl cpu
  · rw [(retire_nosplit imax mfprOp mfpr W cpu (by omega) (by omega)).1]
    exact (retireSlots_spec imax mfprOp mfpr W _ _ cpu).2.2.2

theorem retireFrame_fields {a b : AXP_21264_CPU} (h : RetireFrame a b) :
    b.prFreeList = a.prFreeList ∧ b.pfFreeList = a.pfFreeList ∧
    b.prFlStart = a.prFlStart ∧ b.prFlEnd = a.prFlEnd ∧
    b.pfFlStart = a.pfFlStart ∧ b.pfFlEnd = a.pfFlEnd ∧
    b.prMap = a.prMap ∧ b.pfMap = a.pfMap ∧ b.robEnd = a.robEnd ∧
    b.excPend = a.excPend := by
  unfold RetireFrame at h
  refine ⟨?_, ?_, ?_, ?_, ?_, ?_, ?_, ?_, ?_, ?_⟩ <;> rw [h]

/-! ## More on `AXP_RenameRegisters` -/

/-- Floating-point destination: the previous register of the map entry, when
there is one, is written at the tail of the floating-point free-list. -/
theorem rename_fp_tail (isz fsz : Nat) (cpu : AXP_21264_CPU) (ins : AXP_INSTRUCTION)
    (hd : ins.aDest ≠ AXP_UNMAPPED_REG)
    (hf : ((ins.decodedReg_raw &&& 0x0800) == 0x0800) = true) :
    ((cpu.pfMap ins.aDest).prevPr ≠ AXP_UNMAPPED_REG →
      (AXP_RenameRegisters isz fsz cpu ins).1.pfFreeList =
        setAt cpu.pfFreeList cpu.pfFlEnd (cpu.pfMap ins.aDest).prevPr ∧
      (AXP_RenameRegisters isz fsz cpu ins).1.pfFlEnd = (cpu.pfFlEnd + 1) % fsz) ∧
    ((cpu.pfMap ins.aDest).prevPr = AXP_UNMAPPED_REG →
      (AXP_RenameRegisters isz fsz cpu ins).1.pfFreeList = cpu.pfFreeList ∧
      (AXP_RenameRegisters isz fsz cpu ins).1.pfFlEnd = cpu.pfFlEnd) := by
  have hd1 : (ins.aDest != AXP_UNMAPPED_REG) = true := by simpa using hd
  unfold AXP_RenameRegisters
  dsimp only
  rw [if_pos hd1, if_pos hf]
  split
  · rename_i hp
    have hp1 : (cpu.pfMap ins.aDest).prevPr ≠ AXP_UNMAPPED_REG := by simpa using hp
    exact ⟨fun _ => ⟨rfl, rfl⟩, fun h => absurd h hp1⟩
  · rename_i hp
    have hp1 : (cpu.pfMap ins.aDest).prevPr = AXP_UNMAPPED_REG := by simpa using hp
    exact ⟨fun h => absurd hp1 h, fun _ => ⟨rfl, rfl⟩⟩

/-- Integer destination: the previous register of the map entry, when there is
one, is written at the tail of the integer free-list. -/
theorem rename_int_tail (isz fsz : Nat) (cpu : AXP_21264_CPU) (ins : AXP_INSTRUCTION)
    (hd : ins.aDest ≠ AXP_UNMAPPED_REG)
    (hf : ((ins.decodedReg_raw &&& 0x0800) == 0x0800) = false) :
    ((cpu.prMap ins.aDest).prevPr ≠ AXP_UNMAPPED_REG →
      (AXP_RenameRegisters isz fsz cpu ins).1.prFreeList =
        setAt cpu.prFreeList cpu.prFlEnd (cpu.prMap ins.aDest).prevPr ∧
      (AXP_RenameRegisters isz fsz cpu ins).1.prFlEnd = (cpu.prFlEnd + 1) % isz) ∧
    ((cpu.prMap ins.aDest).prevPr = AXP_UNMAPPED_REG →
      (AXP_RenameRegisters isz fsz cpu ins).1.prFreeList = cpu.prFreeList ∧
      (AXP_RenameRegisters isz fsz cpu ins).1.prFlEnd = cpu.prFlEnd) := by
  have hd1 : (ins.aDest != AXP_UNMAPPED_REG) = true := by simpa using hd
  have hf1 : ¬ ((ins.decodedReg_raw &&& 0x0800) == 0x0800) = true := by simp [hf]
  unfold AXP_RenameRegisters
  dsimp only
  rw [if_pos hd1, if_neg hf1]
  split
  · rename_i hp
    have hp1 : (cpu.prMap ins.aDest).prevPr ≠ AXP_UNMAPPED_REG := by simpa using hp
    exact ⟨fun _ => ⟨rfl, rfl⟩, fun h => absurd h hp1⟩
  · rename_i hp
    have hp1 : (cpu.prMap ins.aDest).prevPr = AXP_UNMAPPED_REG := by simpa using hp
    exact ⟨fun h => absurd hp1 h, fun _ => ⟨rfl, rfl⟩⟩

/-- The renamer reads the two maps, the two free-lists and their cursors only:
on CPUs that agree on them it leaves the same free-lists and cursors. -/
theorem rename_freelists_congr (isz fsz : Nat) (cpu cpu2 : AXP_21264_CPU)
    (ins : AXP_INSTRUCTION)
    (h1 : cpu2.prMap = cpu.prMap) (h2 : cpu2.pfMap = cpu.pfMap)
    (h3 : cpu2.prFreeList = cpu.prFreeList) (h4 : cpu2.pfFreeList = cpu.pfFreeList)
    (h5 : cpu2.prFlStart = cpu.prFlStart) (h6 : cpu2.prFlEnd = cpu.prFlEnd)
    (h7 : cpu2.pfFlStart = cpu.pfFlStart) (h8 : cpu2.pfFlEnd = cpu.pfFlEnd) :
    (AXP_RenameRegisters isz fsz cpu2 ins).1.prFreeList =
      (AXP_RenameRegisters isz fsz cpu ins).1.prFreeList ∧
    (AXP_RenameRegisters isz fsz cpu2 ins).1.pfFreeList =
      (AXP_RenameRegisters isz fsz cpu ins).1.pfFreeList ∧
    (AXP_RenameRegisters isz fsz cpu2 ins).1.prFlStart =
      (AXP_RenameRegisters isz fsz cpu ins).1.prFlStart ∧
    (AXP_RenameRegisters isz fsz cpu2 ins).1.prFlEnd =
      (AXP_RenameRegisters isz fsz cpu ins).1.prFlEnd ∧
    (AXP_RenameRegisters isz fsz cpu2 ins).1.pfFlStart =
      (AXP_RenameRegisters isz fsz cpu ins).1.pfFlStart ∧
    (AXP_RenameRegisters isz fsz cpu2 ins).1.pfFlEnd =
      (AXP_RenameRegisters isz fsz cpu ins).1.pfFlEnd := by
  unfold AXP_RenameRegisters
  dsimp only
  rw [h1, h2, h3, h4, h5, h6, h7, h8]
  split_ifs <;> simp_all

/-! ## The register files at retirement -/

/-- Retiring a completed `HW_MTPR` to `PAL_BASE` writes the IPR: the sweep
leaves `PAL_BASE` = 0x20000 where it was 0x10000, and both register files as
they were. -/
theorem retire_mtpr_writes_pal_base :
    cpuRobMtpr.palBase_pal_base_pc = 0x10000 ∧
    (AXP_21264_Ibox_Retire 8 0x19 (fun _ _ => 0) sampleMtprCodes
      cpuRobMtpr).palBase_pal_base_pc = 0x20000 ∧
    ((AXP_21264_Ibox_Retire 8 0x19 (fun _ _ => 0) sampleMtprCodes cpuRobMtpr).rob 0).state =
      AXP_INS_STATE.Retired ∧
    (AXP_21264_Ibox_Retire 8 0x19 (fun _ _ => 0) sampleMtprCodes cpuRobMtpr).robStart = 1 := by
  decide

/-! ## Free-list conservation on the floating-point path -/

theorem succ_mod_ring (s size : Nat) (h : s < size) :
    (s + 1) % size = if s + 1 = size then 0 else s + 1 := by
  split
  · rename_i e; rw [e, Nat.mod_self]
  · exact Nat.mod_eq_of_lt (by omega)

theorem freeListEntries_eq (s e size : Nat) (hs : s < size) (he : e < size) :
    freeListEntries s e size = if s ≤ e then e - s else e + size - s := by
  unfold freeListEntries
  split
  · have : e + size - s = (e - s) + size := by omega
    rw [this, Nat.add_mod_right, Nat.mod_eq_of_lt (by omega)]
  · exact Nat.mod_eq_of_lt (by omega)

theorem prevMappedCount_succ (map : Nat → AXP_REG_MAP) (n : Nat) :
    prevMappedCount map (n + 1) =
      prevMappedCount map n + (if (map n).prevPr ≠ AXP_UNMAPPED_REG then 1 else 0) := by
  unfold prevMappedCount
  rw [List.range_succ, List.filter_append, List.length_append]
  by_cases h : (map n).prevPr = AXP_UNMAPPED_REG <;> simp [h]

theorem prevMappedCount_congr (map map2 : Nat → AXP_REG_MAP) (n : Nat)
    (h : ∀ r, r < n → map2 r = map r) : prevMappedCount map2 n = prevMappedCount map n := by
  induction n with
  | zero => rfl
  | succ n ih =>
    rw [prevMappedCount_succ, prevMappedCount_succ, ih (fun r hr => h r (by omega)),
      h n (by omega)]

theorem prevMappedCount_setAt (map : Nat → AXP_REG_MAP) (a : Nat) (v : AXP_REG_MAP)
    (n : Nat) (ha : a < n) :
    prevMappedCount (setAt map a v) n +
        (if (map a).prevPr ≠ AXP_UNMAPPED_REG then 1 else 0) =
      prevMappedCount map n + (if v.prevPr ≠ AXP_UNMAPPED_REG then 1 else 0) := by
  induction n with
  | zero => omega
  | succ n ih =>
    rw [prevMappedCount_succ, prevMappedCount_succ]
    by_cases e : a = n
    · subst e
      rw [setAt_same, prevMappedCount_congr map (setAt map a v) a
        (fun r hr => setAt_other _ _ _ _ (by omega))]
      omega
    · rw [setAt_other _ _ _ _ (Ne.symm e)]
      have := ih (by omega)
      omega

/-- On the floating-point path the sum (entries on the free-list between the
cursors) + (architectural registers with prevPr != 31) is the same after the
rename as before it, when the free-list is not empty and the current mapping
of the destination is not 31. -/
theorem rename_fp_conserves (isz fsz n : Nat) (cpu : AXP_21264_CPU) (ins : AXP_INSTRUCTION)
    (hd : ins.aDest ≠ AXP_UNMAPPED_REG)
    (hf : ((ins.decodedReg_raw &&& 0x0800) == 0x0800) = true)
    (ha : ins.aDest < n) (hcur : (cpu.pfMap ins.aDest).pr ≠ AXP_UNMAPPED_REG)
    (hs : cpu.pfFlStart < fsz) (he : cpu.pfFlEnd < fsz)
    (hne : cpu.pfFlStart ≠ cpu.pfFlEnd) :
    freeListEntries (AXP_RenameRegisters isz fsz cpu ins).1.pfFlStart
        (AXP_RenameRegisters isz fsz cpu ins).1.pfFlEnd fsz +
      prevMappedCount (AXP_RenameRegisters isz fsz cpu ins).1.pfMap n =
    freeListEntries cpu.pfFlStart cpu.pfFlEnd fsz + prevMappedCount cpu.pfMap n := by
  obtain ⟨-, a2, -⟩ := rename_fp_dest isz fsz cpu ins hd hf
  obtain ⟨b1, b2, -⟩ := rename_fp_map isz fsz cpu ins hd hf
  obtain ⟨t1, t2⟩ := rename_fp_tail isz fsz cpu ins hd hf
  have hmap : (AXP_RenameRegisters isz fsz cpu ins).1.pfMap =
      setAt cpu.pfMap ins.aDest
        { pr := (AXP_RenameRegisters isz fsz cpu ins).2.dest,
          prevPr := (cpu.pfMap ins.aDest).pr } := by
    funext r
    by_cases e : r = ins.aDest
    · subst e; rw [setAt_same, b1]
    · rw [setAt_other _ _ _ _ e, b2 r e]
  have hcount := prevMappedCount_setAt cpu.pfMap ins.aDest
    { pr := (AXP_RenameRegisters isz fsz cpu ins).2.dest,
      prevPr := (cpu.pfMap ins.aDest).pr } n ha
  rw [← hmap] at hcount
  simp only [hcur, ne_eq, not_false_eq_true, if_true] at hcount
  have hs1 : (cpu.pfFlStart + 1) % fsz < fsz := Nat.mod_lt _ (by omega)
  have he1 : (cpu.pfFlEnd + 1) % fsz < fsz := Nat.mod_lt _ (by omega)
  rw [a2]
  by_cases hp : (cpu.pfMap ins.aDest).prevPr = AXP_UNMAPPED_REG
  · rw [(t2 hp).2, freeListEntries_eq _ _ _ hs1 he, freeListEntries_eq _ _ _ hs he,
      succ_mod_ring _ _ hs]
    simp only [hp, ne_eq, not_true_eq_false, if_false] at hcount
    split_ifs <;> omega
  · rw [(t1 hp).2, freeListEntries_eq _ _ _ hs1 he1, freeListEntries_eq _ _ _ hs he,
      succ_mod_ring _ _ hs, succ_mod_ring _ _ he]
    simp only [hp, ne_eq, not_false_eq_true, if_true] at hcount
    split_ifs <;> omega

/-! ## Renaming: recycling, register states, conservation, underflow -/

/-- C11: retire-on-next-rename recycling.  When `AXP_RenameRegisters` renames
a destination aDest != 31 whose map entry had prevPr = p before the call, then
if p != 31 the value p is written at the tail slot (index FlEnd) of the
destination file's free-list, no other slot changes, and FlEnd advances by one
modulo the free-list size; if p = 31 the tail cursor and every free-list slot
are unchanged.  Stated for a floating-point destination (flag 0x0800 of
decodedReg.raw) and for an integer one. -/
theorem rename_recycles_previous (isz fsz : Nat) (cpu : AXP_21264_CPU)
    (ins : AXP_INSTRUCTION) (hd : ins.aDest ≠ AXP_UNMAPPED_REG) :
    (ins.decodedReg_raw &&& 0x0800 = 0x0800 →
      ((cpu.pfMap ins.aDest).prevPr ≠ AXP_UNMAPPED_REG →
        (AXP_RenameRegisters isz fsz cpu ins).1.pfFreeList =
          setAt cpu.pfFreeList cpu.pfFlEnd (cpu.pfMap ins.aDest).prevPr ∧
        (AXP_RenameRegisters isz fsz cpu ins).1.pfFlEnd = (cpu.pfFlEnd + 1) % fsz) ∧
      ((cpu.pfMap ins.aDest).prevPr = AXP_UNMAPPED_REG →
        (AXP_RenameRegisters isz fsz cpu ins).1.pfFreeList = cpu.pfFreeList ∧
        (AXP_RenameRegisters isz fsz cpu ins).1.pfFlEnd = cpu.pfFlEnd)) ∧
    (ins.decodedReg_raw &&& 0x0800 ≠ 0x0800 →
      ((cpu.prMap ins.aDest).prevPr ≠ AXP_UNMAPPED_REG →
        (AXP_RenameRegisters isz fsz cpu ins).1.prFreeList =
          setAt cpu.prFreeList cpu.prFlEnd (cpu.prMap ins.aDest).prevPr ∧
        (AXP_RenameRegisters isz fsz cpu ins).1.prFlEnd = (cpu.prFlEnd + 1) % isz) ∧
      ((cpu.prMap ins.aDest).prevPr = AXP_UNMAPPED_REG →
        (AXP_RenameRegisters isz fsz cpu ins).1.prFreeList = cpu.prFreeList ∧
        (AXP_RenameRegisters isz fsz cpu ins).1.prFlEnd = cpu.prFlEnd)) :=
  ⟨fun hf => rename_fp_tail isz fsz cpu ins hd (by simpa using hf),
   fun hf => rename_int_tail isz fsz cpu ins hd (by simpa using hf)⟩

/-- Witness for C11: after `ADDT F1, F2, F3` the entry of F3 is (pr 32, prevPr
3); renaming `ADDT F1, F2, F3` again writes 3 at the tail slot 39 of the
floating-point free-list and moves pfFlEnd to (39 + 1) mod 40. -/
theorem rename_recycles_previous_witness :
    ADDT_F1_F2_F3.aDest ≠ AXP_UNMAPPED_REG ∧
    ADDT_F1_F2_F3.decodedReg_raw &&& 0x0800 = 0x0800 ∧
    (cpuAfterADDT.pfMap ADDT_F1_F2_F3.aDest).prevPr ≠ AXP_UNMAPPED_REG ∧
    ((AXP_RenameRegisters 40 40 cpuAfterADDT ADDT_F1_F2_F3).1.pfFreeList =
        setAt cpuAfterADDT.pfFreeList cpuAfterADDT.pfFlEnd
          (cpuAfterADDT.pfMap ADDT_F1_F2_F3.aDest).prevPr ∧
     (AXP_RenameRegisters 40 40 cpuAfterADDT ADDT_F1_F2_F3).1.pfFlEnd =
        (cpuAfterADDT.pfFlEnd + 1) % 40) :=
  ⟨by decide, by decide, by decide,
   ((rename_recycles_previous 40 40 cpuAfterADDT ADDT_F1_F2_F3 (by decide)).1
      (by decide)).1 (by decide)⟩

/-- C12, evaluated: renaming `ADDT F1, F2, F3` in the cleared state allocates
physical register 32, whose state stays `Valid`; the entry that becomes
`Pending` is pfState[3], indexed by the architectural number aDest. -/
theorem rename_marks_architectural_index :
    (AXP_RenameRegisters 40 40 cpuCleared ADDT_F1_F2_F3).2.dest = 32 ∧
    (AXP_RenameRegisters 40 40 cpuCleared ADDT_F1_F2_F3).1.pfState 32 =
      AXP_REG_STATE.Valid ∧
    cpuCleared.pfState 3 = AXP_REG_STATE.Valid ∧
    (AXP_RenameRegisters 40 40 cpuCleared ADDT_F1_F2_F3).1.pfState 3 =
      AXP_REG_STATE.Pending := by
  decide

/-- C13, evaluated: in the cleared state (39 free integer registers, no
previous mappings, no current mapping 31) the sum free-list entries + entries
with prevPr != 31 is 39 for both files; renaming `ADDQ R1, R2, R3` leaves 38
for the integer file, renaming `ADDT F1, F2, F3` leaves 39 for the
floating-point file. -/
theorem rename_integer_loses_register :
    freeListEntries cpuCleared.prFlStart cpuCleared.prFlEnd 40 +
      prevMappedCount cpuCleared.prMap 40 = 39 ∧
    freeListEntries (AXP_RenameRegisters 40 40 cpuCleared ADDQ_R1_R2_R3).1.prFlStart
        (AXP_RenameRegisters 40 40 cpuCleared ADDQ_R1_R2_R3).1.prFlEnd 40 +
      prevMappedCount (AXP_RenameRegisters 40 40 cpuCleared ADDQ_R1_R2_R3).1.prMap 40 = 38 ∧
    freeListEntries cpuCleared.pfFlStart cpuCleared.pfFlEnd 40 +
      prevMappedCount cpuCleared.pfMap 32 = 39 ∧
    freeListEntries (AXP_RenameRegisters 40 40 cpuCleared ADDT_F1_F2_F3).1.pfFlStart
        (AXP_RenameRegisters 40 40 cpuCleared ADDT_F1_F2_F3).1.pfFlEnd 40 +
      prevMappedCount (AXP_RenameRegisters 40 40 cpuCleared ADDT_F1_F2_F3).1.pfMap 32 = 39 := by
  decide

/-- C14: when the decoded instruction has aDest = 31, `AXP_RenameRegisters`
returns the CPU it was given: free-lists, cursors, register maps, register
states, register files and everything else are unchanged. -/
theorem rename_unmapped_dest_frame (isz fsz : Nat) (cpu : AXP_21264_CPU)
    (ins : AXP_INSTRUCTION) (hd : ins.aDest = AXP_UNMAPPED_REG) :
    (AXP_RenameRegisters isz fsz cpu ins).1 = cpu := by
  have hd1 : ¬ (ins.aDest != AXP_UNMAPPED_REG) = true := by simp [hd]
  unfold AXP_RenameRegisters
  dsimp only
  rw [if_neg hd1]

/-- Witness for C14: `ADDQ R1, R2, R31` renamed in the cleared state. -/
theorem rename_unmapped_dest_frame_witness :
    ADDQ_R1_R2_R31.aDest = AXP_UNMAPPED_REG ∧
    (AXP_RenameRegisters 40 40 cpuCleared ADDQ_R1_R2_R31).1 = cpuCleared :=
  ⟨rfl, rename_unmapped_dest_frame 40 40 cpuCleared ADDQ_R1_R2_R31 rfl⟩

/-- C15 fails as stated: `ADDT F1, F2, F3` dispatched into the empty ROB of the
cleared state, marked `WaitingRetirement` and retired leaves pfFlStart at 1,
not at its value 0 from before the rename. -/
theorem rename_retire_not_round_trip :
    ¬ ((AXP_21264_Ibox_Retire 8 0x19 (fun _ _ => 0) sampleMtprCodes
          (dispatchRenamed 8 40 40 cpuCleared ADDT_F1_F2_F3
            AXP_INS_STATE.WaitingRetirement)).pfFlStart = cpuCleared.pfFlStart ∧
       (AXP_21264_Ibox_Retire 8 0x19 (fun _ _ => 0) sampleMtprCodes
          (dispatchRenamed 8 40 40 cpuCleared ADDT_F1_F2_F3
            AXP_INS_STATE.WaitingRetirement)).pfFlEnd = cpuCleared.pfFlEnd) := by
  decide

/-- C15 as amended: for every CPU state and every decoded instruction,
dispatching it into the ROB, marking the entry `WaitingRetirement` and running
`AXP_21264_Ibox_Retire` leaves both free-lists and their four cursors exactly
as `AXP_RenameRegisters` left them: retirement writes no free-list slot and no
cursor. -/
theorem rename_retire_keeps_renamed_freelists (imax isz fsz mfprOp : Nat)
    (mfpr : AXP_21264_CPU → AXP_INSTRUCTION → Nat) (W : AXP_MTPR_CODES) (cpu : AXP_21264_CPU)
    (ins : AXP_INSTRUCTION) :
    (AXP_21264_Ibox_Retire imax mfprOp mfpr W
        (dispatchRenamed imax isz fsz cpu ins AXP_INS_STATE.WaitingRetirement)).prFreeList =
      (AXP_RenameRegisters isz fsz cpu ins).1.prFreeList ∧
    (AXP_21264_Ibox_Retire imax mfprOp mfpr W
        (dispatchRenamed imax isz fsz cpu ins AXP_INS_STATE.WaitingRetirement)).pfFreeList =
      (AXP_RenameRegisters isz fsz cpu ins).1.pfFreeList ∧
    (AXP_21264_Ibox_Retire imax mfprOp mfpr W
        (dispatchRenamed imax isz fsz cpu ins AXP_INS_STATE.WaitingRetirement)).prFlStart =
      (AXP_RenameRegisters isz fsz cpu ins).1.prFlStart ∧
    (AXP_21264_Ibox_Retire imax mfprOp mfpr W
        (dispatchRenamed imax isz fsz cpu ins AXP_INS_STATE.WaitingRetirement)).prFlEnd =
      (AXP_RenameRegisters isz fsz cpu ins).1.prFlEnd ∧
    (AXP_21264_Ibox_Retire imax mfprOp mfpr W
        (dispatchRenamed imax isz fsz cpu ins AXP_INS_STATE.WaitingRetirement)).pfFlStart =
      (AXP_RenameRegisters isz fsz cpu ins).1.pfFlStart ∧
    (AXP_21264_Ibox_Retire imax mfprOp mfpr W
        (dispatchRenamed imax isz fsz cpu ins AXP_INS_STATE.WaitingRetirement)).pfFlEnd =
      (AXP_RenameRegisters isz fsz cpu ins).1.pfFlEnd := by
  obtain ⟨f1, f2, f3, f4, f5, f6, -⟩ := retireFrame_fields
    (retire_frame imax mfprOp mfpr W
      (dispatchRenamed imax isz fsz cpu ins AXP_INS_STATE.WaitingRetirement))
  rw [f1, f2, f3, f4, f5, f6]
  unfold dispatchRenamed
  dsimp only
  apply rename_freelists_congr <;> split <;> rfl

/-- C16 fails as stated: with the floating-point free-list empty (pfFlStart =
pfFlEnd = 0), renaming `ADDT F1, F2, F3` assigns dest, changes the map entry of
F3 and moves the start cursor. -/
theorem rename_empty_freelist_not_fatal :
    cpuEmptyFreeLists.pfFlStart = cpuEmptyFreeLists.pfFlEnd ∧
    ¬ ((AXP_RenameRegisters 40 40 cpuEmptyFreeLists ADDT_F1_F2_F3).2.dest =
          ADDT_F1_F2_F3.dest ∧
       (AXP_RenameRegisters 40 40 cpuEmptyFreeLists ADDT_F1_F2_F3).1.pfMap 3 =
          cpuEmptyFreeLists.pfMap 3 ∧
       (AXP_RenameRegisters 40 40 cpuEmptyFreeLists ADDT_F1_F2_F3).1.pfFlStart =
          cpuEmptyFreeLists.pfFlStart) := by
  decide

/-- C16 as amended: `AXP_RenameRegisters` has no underflow check.  Renaming a
destination aDest != 31 while the corresponding free-list is empty (start
cursor equal to end cursor) does not fail: dest is assigned the register number
stored in the head slot FreeList[FlStart] and the map entry of aDest gets
pr = dest; for a floating-point destination pfFlStart advances by one modulo
the free-list size. -/
theorem rename_empty_freelist_hands_out (isz fsz : Nat) (cpu : AXP_21264_CPU)
    (ins : AXP_INSTRUCTION) (hd : ins.aDest ≠ AXP_UNMAPPED_REG) :
    (ins.decodedReg_raw &&& 0x0800 = 0x0800 → cpu.pfFlStart = cpu.pfFlEnd →
      (AXP_RenameRegisters isz fsz cpu ins).2.dest = cpu.pfFreeList cpu.pfFlStart ∧
      ((AXP_RenameRegisters isz fsz cpu ins).1.pfMap ins.aDest).pr =
        (AXP_RenameRegisters isz fsz cpu ins).2.dest ∧
      (AXP_RenameRegisters isz fsz cpu ins).1.pfFlStart = (cpu.pfFlStart + 1) % fsz) ∧
    (ins.decodedReg_raw &&& 0x0800 ≠ 0x0800 → cpu.prFlStart = cpu.prFlEnd →
      (AXP_RenameRegisters isz fsz cpu ins).2.dest = cpu.prFreeList cpu.prFlStart ∧
      ((AXP_RenameRegisters isz fsz cpu ins).1.prMap ins.aDest).pr =
        (AXP_RenameRegisters isz fsz cpu ins).2.dest) := by
  constructor
  · intro hf _
    have hf1 : ((ins.decodedReg_raw &&& 0x0800) == 0x0800) = true := by simpa using hf
    obtain ⟨a1, a2, -⟩ := rename_fp_dest isz fsz cpu ins hd hf1
    obtain ⟨b1, -⟩ := rename_fp_map isz fsz cpu ins hd hf1
    exact ⟨a1, by rw [b1], a2⟩
  · intro hf _
    have hf1 : ((ins.decodedReg_raw &&& 0x0800) == 0x0800) = false := by simpa using hf
    obtain ⟨a1, -⟩ := rename_int_dest isz fsz cpu ins hd hf1
    obtain ⟨b1, -⟩ := rename_int_map isz fsz cpu ins hd hf1
    exact ⟨a1, by rw [b1]⟩

/-- Witness for C16: `ADDT F1, F2, F3` renamed with both free-lists empty. -/
theorem rename_empty_freelist_hands_out_witness :
    ADDT_F1_F2_F3.aDest ≠ AXP_UNMAPPED_REG ∧
    ADDT_F1_F2_F3.decodedReg_raw &&& 0x0800 = 0x0800 ∧
    cpuEmptyFreeLists.pfFlStart = cpuEmptyFreeLists.pfFlEnd ∧
    ((AXP_RenameRegisters 40 40 cpuEmptyFreeLists ADDT_F1_F2_F3).2.dest =
        cpuEmptyFreeLists.pfFreeList cpuEmptyFreeLists.pfFlStart ∧
     ((AXP_RenameRegisters 40 40 cpuEmptyFreeLists ADDT_F1_F2_F3).1.pfMap
        ADDT_F1_F2_F3.aDest).pr =
        (AXP_RenameRegisters 40 40 cpuEmptyFreeLists ADDT_F1_F2_F3).2.dest ∧
     (AXP_RenameRegisters 40 40 cpuEmptyFreeLists ADDT_F1_F2_F3).1.pfFlStart =
        (cpuEmptyFreeLists.pfFlStart + 1) % 40) :=
  ⟨by decide, by decide, by decide,
   (rename_empty_freelist_hands_out 40 40 cpuEmptyFreeLists ADDT_F1_F2_F3 (by decide)).1
     (by decide) (by decide)⟩

/-! ## The retirement sweep -/

/-- C17: in-order retirement of a non-wrapped ROB.  For robStart <= robEnd
(cursors within the AXP_INFLIGHT_MAX slots) with no slot outside the live range
[robStart, robEnd) in state WaitingRetirement, let k be the length of the
longest run of consecutive WaitingRetirement entries beginning at robStart.
The run lies within the live range and the entry after it is not
WaitingRetirement; `AXP_21264_Ibox_Retire` sets exactly the entries of the run
to Retired, advances robStart by k, leaves robEnd and every slot outside the
run unchanged (so also a later entry that is already WaitingRetirement), and
its loop ends by its own test. -/
theorem retire_in_order (imax mfprOp : Nat)
    (mfpr : AXP_21264_CPU → AXP_INSTRUCTION → Nat) (W : AXP_MTPR_CODES) (cpu : AXP_21264_CPU)
    (h1 : cpu.robStart ≤ cpu.robEnd) (h2 : cpu.robEnd < imax)
    (h3 : ∀ j, j < imax → (j < cpu.robStart ∨ cpu.robEnd ≤ j) →
      (cpu.rob j).state ≠ AXP_INS_STATE.WaitingRetirement) :
    cpu.robStart + waitingRun cpu.rob cpu.robStart (imax - cpu.robStart) ≤ cpu.robEnd ∧
    (∀ j, cpu.robStart ≤ j →
      j < cpu.robStart + waitingRun cpu.rob cpu.robStart (imax - cpu.robStart) →
      (cpu.rob j).state = AXP_INS_STATE.WaitingRetirement ∧
      ((AXP_21264_Ibox_Retire imax mfprOp mfpr W cpu).rob j).state = AXP_INS_STATE.Retired) ∧
    (cpu.rob (cpu.robStart + waitingRun cpu.rob cpu.robStart (imax - cpu.robStart))).state ≠
      AXP_INS_STATE.WaitingRetirement ∧
    (AXP_21264_Ibox_Retire imax mfprOp mfpr W cpu).robStart =
      cpu.robStart + waitingRun cpu.rob cpu.robStart (imax - cpu.robStart) ∧
    (∀ j, (j < cpu.robStart ∨
        cpu.robStart + waitingRun cpu.rob cpu.robStart (imax - cpu.robStart) ≤ j) →
      (AXP_21264_Ibox_Retire imax mfprOp mfpr W cpu).rob j = cpu.rob j) ∧
    (AXP_21264_Ibox_Retire imax mfprOp mfpr W cpu).robEnd = cpu.robEnd ∧
    ¬ ((retireExit imax mfprOp mfpr W cpu).ii < (retireExit imax mfprOp mfpr W cpu).end_ ∧
       (retireExit imax mfprOp mfpr W cpu).done = false) := by
  obtain ⟨e, hx⟩ := retire_nosplit imax mfprOp mfpr W cpu h1 (by omega)
  obtain ⟨r1, r2, r3, r4⟩ := retireSlots_spec imax mfprOp mfpr W
    (waitingRun cpu.rob cpu.robStart (imax - cpu.robStart)) cpu.robStart cpu
  have hall := waitingRun_all cpu.rob (imax - cpu.robStart) cpu.robStart
  have hk : cpu.robStart + waitingRun cpu.rob cpu.robStart (imax - cpu.robStart) ≤
      cpu.robEnd := by
    by_contra hc
    exact h3 cpu.robEnd h2 (Or.inr (Nat.le_refl _)) (hall cpu.robEnd h1 (by omega))
  rw [e]
  refine ⟨hk, fun j a b => ⟨hall j a b, r1 j a b⟩, ?_, ?_, r2, ?_, hx⟩
  · exact waitingRun_stop cpu.rob (imax - cpu.robStart) cpu.robStart (by omega)
  · rw [r3]
    split
    · rename_i h0; rw [h0]; rfl
    · exact Nat.mod_eq_of_lt (by omega)
  · exact (retireFrame_fields r4).2.2.2.2.2.2.2.2.1

/-- Witness for C17: the ROB of 8 slots with live range [0, 3) holding a
completed `ADDQ`, a queued `ADDQ` and a completed `ADDT`. -/
theorem retire_in_order_witness :
    cpuRobMixed.robStart ≤ cpuRobMixed.robEnd ∧ cpuRobMixed.robEnd < 8 ∧
    (∀ j, j < 8 → (j < cpuRobMixed.robStart ∨ cpuRobMixed.robEnd ≤ j) →
      (cpuRobMixed.rob j).state ≠ AXP_INS_STATE.WaitingRetirement) ∧
    (AXP_21264_Ibox_Retire 8 0x19 (fun _ _ => 0) sampleMtprCodes cpuRobMixed).robStart =
      cpuRobMixed.robStart +
        waitingRun cpuRobMixed.rob cpuRobMixed.robStart (8 - cpuRobMixed.robStart) :=
  ⟨by decide, by decide, by decide,
   (retire_in_order 8 0x19 (fun _ _ => 0) sampleMtprCodes cpuRobMixed (by decide) (by decide)
      (by decide)).2.2.2.1⟩

/-- C18, evaluated: in the wrapped ROB of 8 slots with robStart = 6, robEnd = 2
and the live entries 6, 7, 0, 1 all WaitingRetirement without exception,
`AXP_21264_Ibox_Retire` retires nothing: the four entries are still
WaitingRetirement and robStart is still 6, not robEnd. -/
theorem retire_wrapped_retires_nothing :
    cpuRobWrapped.robEnd < cpuRobWrapped.robStart ∧
    (∀ j, j < 8 → (6 ≤ j ∨ j < 2) →
      (cpuRobWrapped.rob j).state = AXP_INS_STATE.WaitingRetirement ∧
      (cpuRobWrapped.rob j).excRegMask = AXP_EXCEPTIONS.NoException) ∧
    (∀ j, j < 8 → (6 ≤ j ∨ j < 2) →
      ((AXP_21264_Ibox_Retire 8 0x19 (fun _ _ => 0) sampleMtprCodes cpuRobWrapped).rob j).state =
        AXP_INS_STATE.WaitingRetirement) ∧
    (AXP_21264_Ibox_Retire 8 0x19 (fun _ _ => 0) sampleMtprCodes cpuRobWrapped).robStart = 6 ∧
    (AXP_21264_Ibox_Retire 8 0x19 (fun _ _ => 0) sampleMtprCodes cpuRobWrapped).robStart ≠
      (AXP_21264_Ibox_Retire 8 0x19 (fun _ _ => 0) sampleMtprCodes cpuRobWrapped).robEnd := by
  decide

/-- C19, evaluated: with slot 0 WaitingRetirement and excRegMask != NoException
and the younger slot 1 WaitingRetirement without exception,
`AXP_21264_Ibox_Retire` marks both Retired, commits the result 7 of slot 1 to
pr[41], ends with robStart = 2 and leaves excPend false. -/
theorem retire_sweeps_past_exception :
    (cpuRobFaulting.rob 0).state = AXP_INS_STATE.WaitingRetirement ∧
    (cpuRobFaulting.rob 0).excRegMask ≠ AXP_EXCEPTIONS.NoException ∧
    cpuRobFaulting.excPend = false ∧ cpuRobFaulting.pr 41 = 0 ∧
    ((AXP_21264_Ibox_Retire 8 0x19 (fun _ _ => 0) sampleMtprCodes cpuRobFaulting).rob 0).state =
      AXP_INS_STATE.Retired ∧
    ((AXP_21264_Ibox_Retire 8 0x19 (fun _ _ => 0) sampleMtprCodes cpuRobFaulting).rob 1).state =
      AXP_INS_STATE.Retired ∧
    (AXP_21264_Ibox_Retire 8 0x19 (fun _ _ => 0) sampleMtprCodes cpuRobFaulting).pr 41 = 7 ∧
    (AXP_21264_Ibox_Retire 8 0x19 (fun _ _ => 0) sampleMtprCodes cpuRobFaulting).robStart = 2 ∧
    (AXP_21264_Ibox_Retire 8 0x19 (fun _ _ => 0) sampleMtprCodes cpuRobFaulting).excPend = false := by
  decide

/-- The fields of an `AXP_PC` after an assignment to its `pc` field. -/
theorem AXP_PC_set_pc_fields (vpc v : Nat) :
    AXP_PC_pc (AXP_PC_set_pc vpc v) = v % 2 ^ 62 ∧
    AXP_PC_pal (AXP_PC_set_pc vpc v) = AXP_PC_pal vpc ∧
    AXP_PC_res (AXP_PC_set_pc vpc v) = AXP_PC_res vpc := by
  unfold AXP_PC_pc AXP_PC_pal AXP_PC_res AXP_PC_set_pc
  refine ⟨?_, ?_, ?_⟩ <;> omega

/-- The word of a 21264 PAL PC as a bitwise OR of its shifted fields. -/
theorem palPC_or_21264 (f50 f7 hi : Nat) (h50 : f50 < 2 ^ 6) (h7 : f7 < 2) :
    1 + f50 * 2 ^ 6 + f7 * 2 ^ 12 + 2 ^ 13 + hi * 2 ^ 15 =
      (hi <<< 15) ||| (1 <<< 13) ||| (f7 <<< 12) ||| (f50 <<< 6) ||| 1 := by
  have e1 := Nat.mul_add_lt_is_or (show 1 < 2 ^ 6 by decide) f50
  have e2 := Nat.mul_add_lt_is_or (show 2 ^ 6 * f50 + 1 < 2 ^ 12 by omega) f7
  have e3 := Nat.mul_add_lt_is_or (show 2 ^ 12 * f7 + (2 ^ 6 * f50 + 1) < 2 ^ 13 by omega) 1
  have e4 := Nat.mul_add_lt_is_or
    (show 2 ^ 13 * 1 + (2 ^ 12 * f7 + (2 ^ 6 * f50 + 1)) < 2 ^ 15 by omega) hi
  simp only [Nat.shiftLeft_eq, Nat.or_assoc]
  rw [Nat.mul_comm hi, Nat.mul_comm f7, Nat.mul_comm f50, Nat.mul_comm 1 (2 ^ 13),
    ← e1, ← e2, ← e3, ← e4]
  omega

/-- The word of a 21164 PAL PC as a bitwise OR of its shifted fields. -/
theorem palPC_or_21164 (f50 f7 hi : Nat) (h50 : f50 < 2 ^ 6) (h7 : f7 < 2) :
    1 + f50 * 2 ^ 6 + f7 * 2 ^ 12 + 2 ^ 13 + hi * 2 ^ 14 =
      (hi <<< 14) ||| (1 <<< 13) ||| (f7 <<< 12) ||| (f50 <<< 6) ||| 1 := by
  have e1 := Nat.mul_add_lt_is_or (show 1 < 2 ^ 6 by decide) f50
  have e2 := Nat.mul_add_lt_is_or (show 2 ^ 6 * f50 + 1 < 2 ^ 12 by omega) f7
  have e3 := Nat.mul_add_lt_is_or (show 2 ^ 12 * f7 + (2 ^ 6 * f50 + 1) < 2 ^ 13 by omega) 1
  have e4 := Nat.mul_add_lt_is_or
    (show 2 ^ 13 * 1 + (2 ^ 12 * f7 + (2 ^ 6 * f50 + 1)) < 2 ^ 14 by omega) hi
  simp only [Nat.shiftLeft_eq, Nat.or_assoc]
  rw [Nat.mul_comm hi, Nat.mul_comm f7, Nat.mul_comm f50, Nat.mul_comm 1 (2 ^ 13),
    ← e1, ← e2, ← e3, ← e4]
  omega

/-- The word returned by `AXP_21264_GetPALFuncVPC` as a sum of its fields. -/
theorem GetPALFuncVPC_word (EV6 : Nat) (cpu : AXP_21264_CPU) (F : Nat) :
    AXP_21264_GetPALFuncVPC EV6 cpu F =
      if EV6 ≤ cpu.majorType then
        1 + (F % 2 ^ 6) * 2 ^ 6 + ((F / 2 ^ 7) % 2) * 2 ^ 12 + 2 ^ 13 +
          ((cpu.palBase_pal_base_pc / 2 ^ 15) % 2 ^ 49) * 2 ^ 15
      else
        1 + (F % 2 ^ 6) * 2 ^ 6 + ((F / 2 ^ 7) % 2) * 2 ^ 12 + 2 ^ 13 +
          ((cpu.palBase_pal_base_pc / 2 ^ 14) % 2 ^ 50) * 2 ^ 14 := by
  have h1 : F % 2 ^ 32 % 2 ^ 6 % 2 ^ 6 = F % 2 ^ 6 := by omega
  have h2 : F % 2 ^ 32 / 2 ^ 7 % 2 % 2 = F / 2 ^ 7 % 2 := by omega
  have h3 : cpu.palBase_pal_base_pc % 2 ^ 64 / 2 ^ 15 % 2 ^ 49 % 2 ^ 49 =
      cpu.palBase_pal_base_pc / 2 ^ 15 % 2 ^ 49 := by omega
  have h4 : cpu.palBase_pal_base_pc % 2 ^ 64 / 2 ^ 14 % 2 ^ 50 % 2 ^ 50 =
      cpu.palBase_pal_base_pc / 2 ^ 14 % 2 ^ 50 := by omega
  unfold AXP_21264_GetPALFuncVPC palPCBits21264 palPCBits21164 palBaseBits21264_highPC
    palBaseBits21164_highPC palFuncBits_func_5_0 palFuncBits_func_7 AXP_PAL_MODE
  dsimp only
  rw [h1, h2, h3, h4]
  split_ifs <;> omega

/-- The fields of the word returned by `AXP_21264_GetPALFuncVPC`. -/
theorem GetPALFuncVPC_fields (EV6 : Nat) (cpu : AXP_21264_CPU) (F : Nat) :
    (EV6 ≤ cpu.majorType →
      palPCBits21264_highPC (AXP_21264_GetPALFuncVPC EV6 cpu F) =
        palBaseBits21264_highPC cpu.palBase_pal_base_pc) ∧
    (cpu.majorType < EV6 →
      palPCBits21164_highPC (AXP_21264_GetPALFuncVPC EV6 cpu F) =
        palBaseBits21164_highPC cpu.palBase_pal_base_pc) ∧
    palPCBits_func_7 (AXP_21264_GetPALFuncVPC EV6 cpu F) = palFuncBits_func_7 F ∧
    palPCBits_func_5_0 (AXP_21264_GetPALFuncVPC EV6 cpu F) = palFuncBits_func_5_0 F := by
  rw [GetPALFuncVPC_word]
  unfold palBaseBits21264_highPC
    palBaseBits21164_highPC palFuncBits_func_5_0 palFuncBits_func_7
    palPCBits21264_highPC palPCBits21164_highPC palPCBits_func_7 palPCBits_func_5_0
  have hb15 : cpu.palBase_pal_base_pc / 2 ^ 15 % 2 ^ 49 < 2 ^ 49 :=
    Nat.mod_lt _ (by decide)
  have hb14 : cpu.palBase_pal_base_pc / 2 ^ 14 % 2 ^ 50 < 2 ^ 50 :=
    Nat.mod_lt _ (by decide)
  generalize cpu.palBase_pal_base_pc / 2 ^ 15 % 2 ^ 49 = hi15 at hb15 ⊢
  generalize cpu.palBase_pal_base_pc / 2 ^ 14 % 2 ^ 50 = hi14 at hb14 ⊢
  refine ⟨?_, ?_, ?_, ?_⟩
  · intro h
    rw [if_pos h]
    omega
  · intro h
    rw [if_neg (by omega)]
    omega
  · split_ifs <;> omega
  · split_ifs <;> omega

/-- The `switch` of the event intake does not touch `PAL_BASE`, the CPU type,
`EXC_ADDR` or the bit `set_iov`. -/
theorem Ibox_Event_switch_frame (K : AXP_FAULT_CODES) (cpu : AXP_21264_CPU)
    (fault va op reg : Nat) (write : Bool) :
    (Ibox_Event_switch K cpu fault va op reg write).palBase_pal_base_pc =
      cpu.palBase_pal_base_pc ∧
    (Ibox_Event_switch K cpu fault va op reg write).majorType = cpu.majorType ∧
    (Ibox_Event_switch K cpu fault va op reg write).excAddr_exc_pc = cpu.excAddr_exc_pc ∧
    (Ibox_Event_switch K cpu fault va op reg write).excSum.set_iov = cpu.excSum.set_iov := by
  unfold Ibox_Event_switch
  split_ifs <;> exact ⟨rfl, rfl, rfl, rfl⟩

/-- The PAL entry point depends on the CPU through `PAL_BASE` and the CPU type
only. -/
theorem GetPALFuncVPC_congr (EV6 : Nat) (a b : AXP_21264_CPU) (F : Nat)
    (h1 : a.palBase_pal_base_pc = b.palBase_pal_base_pc) (h2 : a.majorType = b.majorType) :
    AXP_21264_GetPALFuncVPC EV6 a F = AXP_21264_GetPALFuncVPC EV6 b F := by
  unfold AXP_21264_GetPALFuncVPC
  rw [h1, h2]

/-- With no exception pending, the event intake records as `excPC` the value
of `AXP_21264_GetPALFuncVPC` at the fault code. -/
theorem event_excPC (K : AXP_FAULT_CODES) (EV6 : Nat) (cpu : AXP_21264_CPU)
    (fault pc va opcode reg : Nat) (write self : Bool) (h : cpu.excPend = false) :
    (AXP_21264_Ibox_Event K EV6 cpu fault pc va opcode reg write self).excPC =
      AXP_21264_GetPALFuncVPC EV6 cpu fault := by
  unfold AXP_21264_Ibox_Event
  dsimp only
  rw [if_pos (by simp [h])]
  apply GetPALFuncVPC_congr
  · rw [apply_ite AXP_21264_CPU.palBase_pal_base_pc]
    dsimp only
    rw [ite_self]
    exact (Ibox_Event_switch_frame K _ fault va _ reg write).1
  · rw [apply_ite AXP_21264_CPU.majorType]
    dsimp only
    rw [ite_self]
    exact (Ibox_Event_switch_frame K _ fault va _ reg write).2.1

/-- The `switch` of the event intake at a translation-buffer miss. -/
theorem Ibox_Event_switch_tb_miss (K : AXP_FAULT_CODES) (cpu : AXP_21264_CPU)
    (fault va op reg : Nat) (write : Bool)
    (hfault : fault = K.AXP_ITB_MISS ∨ fault = K.AXP_DTBM_SINGLE ∨
      fault = K.AXP_DTBM_DOUBLE_3 ∨ fault = K.AXP_DTBM_DOUBLE_4) :
    Ibox_Event_switch K cpu fault va op reg write =
      { cpu with
          mmStat := { cpu.mmStat with opcodes := op, wr := if write then 1 else 0 }
          va := va
          excSum := { cpu.excSum with reg := reg } } := by
  unfold Ibox_Event_switch
  rw [if_pos]
  simp only [Bool.or_eq_true, beq_iff_eq]
  tauto

/-! ## Retirement of a write to register 31, ROB allocation, events, PAL entry, VPC list -/

/-- C21, evaluated: `ADDQ R1, R2, R31` is renamed with architectural
destination 31 into slot 0, its `dest` is the physical register that backs R31
(`prMap[31].pr` = 31) and its `destv` holds 7; the entry is WaitingRetirement
without exception.  `AXP_21264_Ibox_Retire` retires it and writes pr[31] = 7:
the integer physical register file is altered, pr[31] was 0. -/
theorem retire_r31_write_alters_file :
    (cpuR31Dispatched.rob 0).aDest = 31 ∧
    (cpuR31Dispatched.rob 0).dest = (cpuCleared.prMap 31).pr ∧
    (cpuR31Dispatched.rob 0).state = AXP_INS_STATE.WaitingRetirement ∧
    (cpuR31Dispatched.rob 0).excRegMask = AXP_EXCEPTIONS.NoException ∧
    cpuR31Dispatched.robStart = 0 ∧ cpuR31Dispatched.robEnd = 1 ∧
    cpuR31Dispatched.pr 31 = 0 ∧
    ((AXP_21264_Ibox_Retire 8 0x19 (fun _ _ => 0) sampleMtprCodes cpuR31Dispatched).rob 0).state =
      AXP_INS_STATE.Retired ∧
    (AXP_21264_Ibox_Retire 8 0x19 (fun _ _ => 0) sampleMtprCodes cpuR31Dispatched).pr 31 = 7 := by
  decide

/-- C22, counterexample: in a ROB of 8 slots with robStart = 0, robEnd = 7 and
the entry of slot 0 still Queued, the allocation hands out slot 7, wraps robEnd
to 0 and moves robStart to 1: robStart is changed, and the un-retired entry of
slot 0 is no longer in the live range. -/
theorem rob_allocation_evicts_oldest :
    cpuRobSevenQueued.robStart = 0 ∧ cpuRobSevenQueued.robEnd = 7 ∧
    (cpuRobSevenQueued.rob 0).state = AXP_INS_STATE.Queued ∧
    (robAllocate 8 cpuRobSevenQueued).1 = 7 ∧
    (robAllocate 8 cpuRobSevenQueued).2.robEnd = 0 ∧
    (robAllocate 8 cpuRobSevenQueued).2.robStart = 1 ∧
    (robAllocate 8 cpuRobSevenQueued).2.robStart ≠ cpuRobSevenQueued.robStart ∧
    ((robAllocate 8 cpuRobSevenQueued).2.rob 0).state = AXP_INS_STATE.Queued := by
  decide

/-- C22, amended: ROB allocation in the driver hands out the slot rob[robEnd]
and advances robEnd by one modulo AXP_INFLIGHT_MAX; robStart is unchanged
unless the advanced robEnd equals robStart, and then robStart advances by one
modulo AXP_INFLIGHT_MAX too, whatever the state of the entry it leaves.  The
allocation itself writes no ROB entry. -/
theorem rob_allocation_cursors (imax : Nat) (cpu : AXP_21264_CPU) :
    (robAllocate imax cpu).1 = cpu.robEnd ∧
    (robAllocate imax cpu).2.robEnd = (cpu.robEnd + 1) % imax ∧
    (robAllocate imax cpu).2.robStart =
      (if (cpu.robEnd + 1) % imax = cpu.robStart then (cpu.robStart + 1) % imax
       else cpu.robStart) ∧
    (robAllocate imax cpu).2.rob = cpu.rob := by
  unfold robAllocate
  dsimp only
  split_ifs <;> simp_all

/-- C23, evaluated: from the initialised ROB of 8 slots (robStart = robEnd = 0,
all Retired), 8 dispatches whose entries are all WaitingRetirement without
exception leave robEnd = 0 and robStart = 1; `AXP_21264_Ibox_Retire` then
retires nothing (the 8 entries are still WaitingRetirement) and ends with
robStart = 1 and robEnd = 0, which are not equal. -/
theorem rob_full_cycle_not_drained :
    cpuCleared.robStart = 0 ∧ cpuCleared.robEnd = 0 ∧
    (dispatchNoops 8 8 cpuCleared).robEnd = 0 ∧
    (dispatchNoops 8 8 cpuCleared).robStart = 1 ∧
    (∀ j, j < 8 →
      ((dispatchNoops 8 8 cpuCleared).rob j).state = AXP_INS_STATE.WaitingRetirement ∧
      ((dispatchNoops 8 8 cpuCleared).rob j).excRegMask = AXP_EXCEPTIONS.NoException) ∧
    (∀ j, j < 8 →
      ((AXP_21264_Ibox_Retire 8 0x19 (fun _ _ => 0) sampleMtprCodes (dispatchNoops 8 8 cpuCleared)).rob j).state =
        AXP_INS_STATE.WaitingRetirement) ∧
    (AXP_21264_Ibox_Retire 8 0x19 (fun _ _ => 0) sampleMtprCodes (dispatchNoops 8 8 cpuCleared)).robStart = 1 ∧
    (AXP_21264_Ibox_Retire 8 0x19 (fun _ _ => 0) sampleMtprCodes (dispatchNoops 8 8 cpuCleared)).robEnd = 0 := by
  decide

/-- C24: exception swallow.  A call of `AXP_21264_Ibox_Event` made while excPend
is already true returns the CPU state it was given: EXC_ADDR, EXC_SUM, MM_STAT,
VA, ISUM, irqH, excPC, excPend and every other field keep their values,
whatever the fault and the other arguments. -/
theorem event_swallowed (K : AXP_FAULT_CODES) (EV6 : Nat) (cpu : AXP_21264_CPU)
    (fault pc va opcode reg : Nat) (write self : Bool) (h : cpu.excPend = true) :
    AXP_21264_Ibox_Event K EV6 cpu fault pc va opcode reg write self = cpu := by
  unfold AXP_21264_Ibox_Event
  simp [h]

/-- Witness for C24: a DTBM_SINGLE event raised while an exception is pending. -/
theorem event_swallowed_witness :
    cpuExcPending.excPend = true ∧
    AXP_21264_Ibox_Event sampleFaultCodes 6 cpuExcPending sampleFaultCodes.AXP_DTBM_SINGLE
      0x2000 0x4000 0x29 5 false false = cpuExcPending :=
  ⟨rfl, event_swallowed sampleFaultCodes 6 cpuExcPending sampleFaultCodes.AXP_DTBM_SINGLE
      0x2000 0x4000 0x29 5 false false rfl⟩

/-- C25, evaluated: with PAL_BASE = 0x10000 on a 21264 and no exception
pending, the event intake for fault code 0x580 records excPC = 0x13001, the
entry point of a PAL function (`AXP_21264_GetPALFuncVPC`), while
`AXP_21264_GetPALBaseVPC` at the same code is 0x10581; and for every fault code
below 0x2000, whatever the codes of the taxonomy and the other arguments, the
recorded excPC differs from `AXP_21264_GetPALBaseVPC` at that code. -/
theorem event_excPC_is_function_entry :
    cpuPalBase.excPend = false ∧
    (AXP_21264_Ibox_Event sampleFaultCodes 6 cpuPalBase 0x580 0x2000 0x2000 0
      AXP_UNMAPPED_REG false true).excPC = 0x13001 ∧
    AXP_21264_GetPALFuncVPC 6 cpuPalBase 0x580 = 0x13001 ∧
    AXP_21264_GetPALBaseVPC cpuPalBase 0x580 = 0x10581 ∧
    (∀ (K : AXP_FAULT_CODES) (f pc va opcode reg : Nat) (write self : Bool), f < 0x2000 →
      (AXP_21264_Ibox_Event K 6 cpuPalBase f pc va opcode reg write self).excPC ≠
        AXP_21264_GetPALBaseVPC cpuPalBase f) := by
  refine ⟨rfl, by decide, by decide, by decide, ?_⟩
  intro K f pc va opcode reg write self hf
  rw [event_excPC K 6 cpuPalBase f pc va opcode reg write self rfl, GetPALFuncVPC_word]
  have h1 : cpuPalBase.palBase_pal_base_pc = 0x10000 := rfl
  have h2 : cpuPalBase.majorType = 6 := rfl
  unfold AXP_21264_GetPALBaseVPC AXP_21264_GetVPC AXP_PC_set_pal AXP_PC_set_res AXP_PAL_MODE
  rw [h1, h2]
  simp only [le_refl, if_true]
  have hand : (1 &&& 1 : Nat) = 1 := by decide
  have hm : (0x10000 + f) % 2 ^ 64 = 0x10000 + f := Nat.mod_eq_of_lt (by omega)
  rw [hand, hm, hm]
  omega

/-- C26: translation-buffer miss intake.  With no exception pending, a call of
`AXP_21264_Ibox_Event` with fault ITB_MISS, DTBM_SINGLE, DTBM_DOUBLE_3 or
DTBM_DOUBLE_4 leaves excPend = true, EXC_ADDR.pc = pc, VA = va, EXC_SUM.reg =
reg with every other field of EXC_SUM zero, MM_STAT.wr = 1 for a write and 0
otherwise, MM_STAT.opcodes = opcode - 0x18 when the opcode is HW_LD or HW_ST
and the opcode otherwise, and every other field of MM_STAT zero. -/
theorem event_tb_miss_intake (K : AXP_FAULT_CODES) (EV6 : Nat) (cpu : AXP_21264_CPU)
    (fault pc va opcode reg : Nat) (write self : Bool)
    (hpend : cpu.excPend = false)
    (hfault : fault = K.AXP_ITB_MISS ∨ fault = K.AXP_DTBM_SINGLE ∨
      fault = K.AXP_DTBM_DOUBLE_3 ∨ fault = K.AXP_DTBM_DOUBLE_4) :
    (AXP_21264_Ibox_Event K EV6 cpu fault pc va opcode reg write self).excPend = true ∧
    (AXP_21264_Ibox_Event K EV6 cpu fault pc va opcode reg write self).excAddr_exc_pc = pc ∧
    (AXP_21264_Ibox_Event K EV6 cpu fault pc va opcode reg write self).va = va ∧
    (AXP_21264_Ibox_Event K EV6 cpu fault pc va opcode reg write self).excSum =
      { excSumCleared with reg := reg } ∧
    (AXP_21264_Ibox_Event K EV6 cpu fault pc va opcode reg write self).mmStat =
      { mmStatCleared with
          wr := if write then 1 else 0
          opcodes := if opcode = HW_LD ∨ opcode = HW_ST then opcode - 0x18 else opcode } := by
  have hop : (if (opcode == HW_LD || opcode == HW_ST) = true then (opcode + 256 - 0x18) % 256
      else opcode) = if opcode = HW_LD ∨ opcode = HW_ST then opcode - 0x18 else opcode := by
    unfold HW_LD HW_ST
    by_cases h1 : opcode = 0x1b
    · subst h1
      decide
    · by_cases h2 : opcode = 0x1f
      · subst h2
        decide
      · simp [h1, h2]
  have hsw := Ibox_Event_switch_tb_miss K
    { cpu with
        excAddr_exc_pc := pc
        va := 0
        excSum := excSumCleared
        mmStat := mmStatCleared } fault va
    (if (opcode == HW_LD || opcode == HW_ST) = true then (opcode + 256 - 0x18) % 256
      else opcode) reg write hfault
  have hev : AXP_21264_Ibox_Event K EV6 cpu fault pc va opcode reg write self =
      (fun c2 : AXP_21264_CPU =>
        let c3 : AXP_21264_CPU :=
          if c2.excSum.set_iov == 1 then
            { c2 with excSum := { c2.excSum with sext_set_iov := 0xffff } }
          else c2
        { c3 with excPC := AXP_21264_GetPALFuncVPC EV6 c3 fault, excPend := true })
      (Ibox_Event_switch K
        { cpu with
            excAddr_exc_pc := pc
            va := 0
            excSum := excSumCleared
            mmStat := mmStatCleared } fault va
        (if (opcode == HW_LD || opcode == HW_ST) = true then (opcode + 256 - 0x18) % 256
          else opcode) reg write) := by
    unfold AXP_21264_Ibox_Event
    dsimp only
    rw [if_pos (by simp [hpend])]
  rw [hev, hsw, hop]
  dsimp only
  rw [if_neg (by decide)]
  exact ⟨rfl, rfl, rfl, rfl, rfl⟩

/-- Witness for C26: the ITB_MISS that the driver raises for pc = 0x2000, with
opcode PAL00 (0), register 31, no write. -/
theorem event_tb_miss_intake_witness :
    cpuCleared.excPend = false ∧
    (sampleFaultCodes.AXP_ITB_MISS = sampleFaultCodes.AXP_ITB_MISS ∨
      sampleFaultCodes.AXP_ITB_MISS = sampleFaultCodes.AXP_DTBM_SINGLE ∨
      sampleFaultCodes.AXP_ITB_MISS = sampleFaultCodes.AXP_DTBM_DOUBLE_3 ∨
      sampleFaultCodes.AXP_ITB_MISS = sampleFaultCodes.AXP_DTBM_DOUBLE_4) ∧
    (AXP_21264_Ibox_Event sampleFaultCodes 6 cpuCleared sampleFaultCodes.AXP_ITB_MISS
        0x2000 0x2000 0 AXP_UNMAPPED_REG false true).excPend = true ∧
    (AXP_21264_Ibox_Event sampleFaultCodes 6 cpuCleared sampleFaultCodes.AXP_ITB_MISS
        0x2000 0x2000 0 AXP_UNMAPPED_REG false true).excAddr_exc_pc = 0x2000 ∧
    (AXP_21264_Ibox_Event sampleFaultCodes 6 cpuCleared sampleFaultCodes.AXP_ITB_MISS
        0x2000 0x2000 0 AXP_UNMAPPED_REG false true).va = 0x2000 ∧
    (AXP_21264_Ibox_Event sampleFaultCodes 6 cpuCleared sampleFaultCodes.AXP_ITB_MISS
        0x2000 0x2000 0 AXP_UNMAPPED_REG false true).excSum =
      { excSumCleared with reg := AXP_UNMAPPED_REG } ∧
    (AXP_21264_Ibox_Event sampleFaultCodes 6 cpuCleared sampleFaultCodes.AXP_ITB_MISS
        0x2000 0x2000 0 AXP_UNMAPPED_REG false true).mmStat =
      { mmStatCleared with
          wr := if false then 1 else 0
          opcodes := if 0 = HW_LD ∨ 0 = HW_ST then 0 - 0x18 else 0 } :=
  ⟨rfl, Or.inl rfl,
   event_tb_miss_intake sampleFaultCodes 6 cpuCleared sampleFaultCodes.AXP_ITB_MISS
      0x2000 0x2000 0 AXP_UNMAPPED_REG false true rfl (Or.inl rfl)⟩

/-- C27: PAL entry PC, bit-exact.  For a 64-bit PAL_BASE value B and a function
code F, `AXP_21264_GetPALFuncVPC` returns (B with bits 14..0 cleared) | 1<<13 |
F[7]<<12 | F[5:0]<<6 | 1 when majorType >= EV6, and (B with bits 13..0
cleared) | 1<<13 | F[7]<<12 | F[5:0]<<6 | 1 for the older types; in both, bits
5..1 of the result are zero and bit 0 (palMode) is 1. -/
theorem pal_func_vpc_bits (EV6 : Nat) (cpu : AXP_21264_CPU) (F : Nat)
    (hB : cpu.palBase_pal_base_pc < 2 ^ 64) :
    (EV6 ≤ cpu.majorType →
      AXP_21264_GetPALFuncVPC EV6 cpu F =
        ((cpu.palBase_pal_base_pc >>> 15) <<< 15) ||| (1 <<< 13) |||
          (((F >>> 7) &&& 1) <<< 12) ||| ((F &&& 0x3f) <<< 6) ||| 1) ∧
    (cpu.majorType < EV6 →
      AXP_21264_GetPALFuncVPC EV6 cpu F =
        ((cpu.palBase_pal_base_pc >>> 14) <<< 14) ||| (1 <<< 13) |||
          (((F >>> 7) &&& 1) <<< 12) ||| ((F &&& 0x3f) <<< 6) ||| 1) ∧
    (AXP_21264_GetPALFuncVPC EV6 cpu F >>> 1) &&& 0x1f = 0 ∧
    AXP_21264_GetPALFuncVPC EV6 cpu F &&& 1 = 1 := by
  have hf7 : (F >>> 7) &&& 1 = (F / 2 ^ 7) % 2 := by
    rw [Nat.shiftRight_eq_div_pow]
    exact Nat.and_one_is_mod _
  have hf50 : F &&& 0x3f = F % 2 ^ 6 := Nat.and_pow_two_sub_one_eq_mod F 6
  have hlow5 : ∀ x : Nat, (x >>> 1) &&& 0x1f = (x / 2) % 2 ^ 5 := by
    intro x
    rw [Nat.shiftRight_eq_div_pow]
    exact Nat.and_pow_two_sub_one_eq_mod (x / 2 ^ 1) 5
  have hlow1 : ∀ x : Nat, x &&& 1 = x % 2 := Nat.and_one_is_mod
  have hhi15 : cpu.palBase_pal_base_pc / 2 ^ 15 % 2 ^ 49 =
      cpu.palBase_pal_base_pc / 2 ^ 15 := by omega
  have hhi14 : cpu.palBase_pal_base_pc / 2 ^ 14 % 2 ^ 50 =
      cpu.palBase_pal_base_pc / 2 ^ 14 := by omega
  have h64 := GetPALFuncVPC_word EV6 cpu F
  refine ⟨?_, ?_, ?_, ?_⟩
  · intro h
    rw [h64, if_pos h, hf7, hf50, Nat.shiftRight_eq_div_pow, hhi15]
    exact palPC_or_21264 _ _ _ (Nat.mod_lt _ (by decide)) (Nat.mod_lt _ (by decide))
  · intro h
    rw [h64, if_neg (by omega), hf7, hf50, Nat.shiftRight_eq_div_pow, hhi14]
    exact palPC_or_21164 _ _ _ (Nat.mod_lt _ (by decide)) (Nat.mod_lt _ (by decide))
  · rw [hlow5, h64]
    split_ifs <;> omega
  · rw [hlow1, h64]
    split_ifs <;> omega

/-- Witness for C27: PAL_BASE = 0x10000 on a 21264 and function code 0x83 give
the entry point 0x130C1. -/
theorem pal_func_vpc_bits_witness :
    cpuPalBase.palBase_pal_base_pc < 2 ^ 64 ∧ 6 ≤ cpuPalBase.majorType ∧
    AXP_21264_GetPALFuncVPC 6 cpuPalBase 0x83 =
      ((cpuPalBase.palBase_pal_base_pc >>> 15) <<< 15) ||| (1 <<< 13) |||
        (((0x83 >>> 7) &&& 1) <<< 12) ||| ((0x83 &&& 0x3f) <<< 6) ||| 1 ∧
    AXP_21264_GetPALFuncVPC 6 cpuPalBase 0x83 = 0x130C1 :=
  ⟨by decide, by decide, (pal_func_vpc_bits 6 cpuPalBase 0x83 (by decide)).1 (by decide),
   by decide⟩

/-- C28, counterexample: the function codes 0x40 and 0 give the same VPC, so
the function code read back from the VPC of 0x40 is 0; the bases 0x10001 and
0x10000 give the same VPC, so the base read back from the VPC of 0x10001 is
0x10000. -/
theorem pal_func_vpc_loses_bits :
    AXP_21264_GetPALFuncVPC 6 cpuPalBase 0x40 = AXP_21264_GetPALFuncVPC 6 cpuPalBase 0 ∧
    palPCBits_func_7 (AXP_21264_GetPALFuncVPC 6 cpuPalBase 0x40) * 2 ^ 7 +
      palPCBits_func_5_0 (AXP_21264_GetPALFuncVPC 6 cpuPalBase 0x40) = 0 ∧
    AXP_21264_GetPALFuncVPC 6 { cpuPalBase with palBase_pal_base_pc := 0x10001 } 0 =
      AXP_21264_GetPALFuncVPC 6 cpuPalBase 0 ∧
    palPCBits21264_highPC
      (AXP_21264_GetPALFuncVPC 6 { cpuPalBase with palBase_pal_base_pc := 0x10001 } 0) *
        2 ^ 15 = 0x10000 := by
  decide

/-- C28, amended: PAL PC read-back.  For every PAL_BASE value and every
function code, the fields read back from the VPC returned by
`AXP_21264_GetPALFuncVPC` are the ones that were composed: highPC is the highPC
of PAL_BASE (bits 63..15 when majorType >= EV6, bits 63..14 otherwise), func_7
and func_5_0 are bit 7 and bits 5..0 of the function code.  The base is read
back whole exactly when it is a 64-bit value whose bits below highPC are zero,
and the function code exactly when it is below 256 with bit 6 zero. -/
theorem pal_func_vpc_round_trip (EV6 : Nat) (cpu : AXP_21264_CPU) (F : Nat) :
    (EV6 ≤ cpu.majorType →
      palPCBits21264_highPC (AXP_21264_GetPALFuncVPC EV6 cpu F) =
        palBaseBits21264_highPC cpu.palBase_pal_base_pc) ∧
    (cpu.majorType < EV6 →
      palPCBits21164_highPC (AXP_21264_GetPALFuncVPC EV6 cpu F) =
        palBaseBits21164_highPC cpu.palBase_pal_base_pc) ∧
    palPCBits_func_7 (AXP_21264_GetPALFuncVPC EV6 cpu F) = palFuncBits_func_7 F ∧
    palPCBits_func_5_0 (AXP_21264_GetPALFuncVPC EV6 cpu F) = palFuncBits_func_5_0 F ∧
    (EV6 ≤ cpu.majorType →
      (palPCBits21264_highPC (AXP_21264_GetPALFuncVPC EV6 cpu F) * 2 ^ 15 =
        cpu.palBase_pal_base_pc ↔
       cpu.palBase_pal_base_pc < 2 ^ 64 ∧ cpu.palBase_pal_base_pc % 2 ^ 15 = 0)) ∧
    (cpu.majorType < EV6 →
      (palPCBits21164_highPC (AXP_21264_GetPALFuncVPC EV6 cpu F) * 2 ^ 14 =
        cpu.palBase_pal_base_pc ↔
       cpu.palBase_pal_base_pc < 2 ^ 64 ∧ cpu.palBase_pal_base_pc % 2 ^ 14 = 0)) ∧
    (palPCBits_func_7 (AXP_21264_GetPALFuncVPC EV6 cpu F) * 2 ^ 7 +
        palPCBits_func_5_0 (AXP_21264_GetPALFuncVPC EV6 cpu F) = F ↔
      F < 2 ^ 8 ∧ (F / 2 ^ 6) % 2 = 0) := by
  obtain ⟨h1, h2, h3, h4⟩ := GetPALFuncVPC_fields EV6 cpu F
  refine ⟨h1, h2, h3, h4, ?_, ?_, ?_⟩
  · intro h
    rw [h1 h]
    unfold palBaseBits21264_highPC
    omega
  · intro h
    rw [h2 h]
    unfold palBaseBits21164_highPC
    omega
  · rw [h3, h4]
    unfold palFuncBits_func_7 palFuncBits_func_5_0
    omega

/-- C29: VPC ring append.  With vpcEnd < AXP_INFLIGHT_MAX, `AXP_21264_AddVPC`
stores v in the slot of the old vpcEnd, sets vpcEnd to (old vpcEnd + 1) mod
AXP_INFLIGHT_MAX, advances vpcStart by one modulo AXP_INFLIGHT_MAX exactly when
the new vpcEnd equals the old vpcStart, changes no other slot, and a following
`AXP_21264_GetNextVPC` returns v. -/
theorem add_vpc_ring (imax : Nat) (cpu : AXP_21264_CPU) (v : Nat)
    (he : cpu.vpcEnd < imax) :
    (AXP_21264_AddVPC imax cpu v).vpc cpu.vpcEnd = v ∧
    (AXP_21264_AddVPC imax cpu v).vpcEnd = (cpu.vpcEnd + 1) % imax ∧
    (AXP_21264_AddVPC imax cpu v).vpcStart =
      (if (cpu.vpcEnd + 1) % imax = cpu.vpcStart then (cpu.vpcStart + 1) % imax
       else cpu.vpcStart) ∧
    (∀ j, j ≠ cpu.vpcEnd → (AXP_21264_AddVPC imax cpu v).vpc j = cpu.vpc j) ∧
    AXP_21264_GetNextVPC imax (AXP_21264_AddVPC imax cpu v) = v := by
  have hfields : (AXP_21264_AddVPC imax cpu v).vpc = setAt cpu.vpc cpu.vpcEnd v ∧
      (AXP_21264_AddVPC imax cpu v).vpcEnd = (cpu.vpcEnd + 1) % imax ∧
      (AXP_21264_AddVPC imax cpu v).vpcStart =
        (if (cpu.vpcEnd + 1) % imax = cpu.vpcStart then (cpu.vpcStart + 1) % imax
         else cpu.vpcStart) := by
    unfold AXP_21264_AddVPC
    dsimp only
    split_ifs <;> simp_all
  obtain ⟨h1, h2, h3⟩ := hfields
  refine ⟨by rw [h1]; simp, h2, h3, fun j hj => by rw [h1]; simp [hj], ?_⟩
  unfold AXP_21264_GetNextVPC
  dsimp only
  rw [h1, h2]
  have hidx : (if ((cpu.vpcEnd + 1) % imax != 0) = true then (cpu.vpcEnd + 1) % imax
      else imax) - 1 = cpu.vpcEnd := by
    by_cases hw : cpu.vpcEnd + 1 < imax
    · rw [Nat.mod_eq_of_lt hw]
      simp
    · have : cpu.vpcEnd + 1 = imax := by omega
      rw [this, Nat.mod_self]
      simp
      omega
  rw [hidx]
  simp

/-- Witness for C29: a list of 8 slots with vpcStart = 0 and vpcEnd = 7; the
append wraps vpcEnd to 0, which is the old vpcStart, so vpcStart becomes 1. -/
theorem add_vpc_ring_witness :
    cpuVpcLast.vpcEnd < 8 ∧
    ((AXP_21264_AddVPC 8 cpuVpcLast 0x2001).vpc cpuVpcLast.vpcEnd = 0x2001 ∧
     (AXP_21264_AddVPC 8 cpuVpcLast 0x2001).vpcEnd = (cpuVpcLast.vpcEnd + 1) % 8 ∧
     (AXP_21264_AddVPC 8 cpuVpcLast 0x2001).vpcStart =
       (if (cpuVpcLast.vpcEnd + 1) % 8 = cpuVpcLast.vpcStart then
          (cpuVpcLast.vpcStart + 1) % 8
        else cpuVpcLast.vpcStart) ∧
     (∀ j, j ≠ cpuVpcLast.vpcEnd →
       (AXP_21264_AddVPC 8 cpuVpcLast 0x2001).vpc j = cpuVpcLast.vpc j) ∧
     AXP_21264_GetNextVPC 8 (AXP_21264_AddVPC 8 cpuVpcLast 0x2001) = 0x2001) ∧
    (AXP_21264_AddVPC 8 cpuVpcLast 0x2001).vpcStart = 1 :=
  ⟨by decide, add_vpc_ring 8 cpuVpcLast 0x2001 (by decide), by decide⟩

/-- C30: VPC arithmetic touches only the PC field.  For every displacement d,
`AXP_21264_DisplaceVPC` returns the current VPC (the one
`AXP_21264_GetNextVPC` returns) with its PC field, bits 63..2, replaced by
(pc + 1 + d) mod 2^62 and its pal and reserved bits unchanged, also when the
addition wraps; the result is a 64-bit word; and `AXP_21264_IncrementVPC`
returns the same value as `AXP_21264_DisplaceVPC` with displacement 0. -/
theorem displace_vpc_pc_field (imax : Nat) (cpu : AXP_21264_CPU) (d : Int) :
    AXP_PC_pc (AXP_21264_DisplaceVPC imax cpu d) =
      ((((AXP_PC_pc (AXP_21264_GetNextVPC imax cpu) : Nat) : Int) + 1 + d) % 2 ^ 62).toNat ∧
    AXP_PC_pal (AXP_21264_DisplaceVPC imax cpu d) =
      AXP_PC_pal (AXP_21264_GetNextVPC imax cpu) ∧
    AXP_PC_res (AXP_21264_DisplaceVPC imax cpu d) =
      AXP_PC_res (AXP_21264_GetNextVPC imax cpu) ∧
    AXP_21264_DisplaceVPC imax cpu d < 2 ^ 64 ∧
    AXP_21264_IncrementVPC imax cpu = AXP_21264_DisplaceVPC imax cpu 0 := by
  unfold AXP_21264_DisplaceVPC AXP_21264_IncrementVPC
  dsimp only
  generalize AXP_21264_GetNextVPC imax cpu = v
  obtain ⟨h1, h2, h3⟩ := AXP_PC_set_pc_fields v
    ((((AXP_PC_pc v : Nat) : Int) + 1 + d) % 2 ^ 64).toNat
  refine ⟨?_, h2, h3, ?_, ?_⟩
  · rw [h1]
    omega
  · unfold AXP_PC_set_pc
    omega
  · unfold AXP_PC_set_pc
    have : AXP_PC_pc v < 2 ^ 62 := by unfold AXP_PC_pc; omega
    omega

/-! ## Facts about the decoder and the initialisation -/

/-- The renamer writes `src1`, `src2` and `dest` of the instruction and nothing else of it. -/
theorem rename_keeps_decoded (isz fsz : Nat) (cpu : AXP_21264_CPU) (ins : AXP_INSTRUCTION) :
    (AXP_RenameRegisters isz fsz cpu ins).2 =
      { ins with
          src1 := (AXP_RenameRegisters isz fsz cpu ins).2.src1
          src2 := (AXP_RenameRegisters isz fsz cpu ins).2.src2
          dest := (AXP_RenameRegisters isz fsz cpu ins).2.dest } := by
  unfold AXP_RenameRegisters
  dsimp only
  split
  · split <;> rfl
  · rfl

/-- The opcode, the format and the flag `callingPAL` after the format `switch` of the decoder. -/
theorem decodeFormat_opcode (T : AXP_DECODE_TABLES) (instr : AXP_INS_FMT)
    (instrType : AXP_INS_TYPE) (slot : AXP_INSTRUCTION) :
    (decodeFormat T instr instrType slot).1.opcode = instr.pal_opcode ∧
    (decodeFormat T instr instrType slot).1.format = instrType ∧
    (decodeFormat T instr instrType slot).2 = decide (instrType = AXP_INS_TYPE.Pcd) := by
  unfold decodeFormat
  cases instrType <;> dsimp only <;> (try split_ifs) <;> exact ⟨rfl, rfl, rfl⟩

/-- The operation-type step of the decoder writes `type` only. -/
theorem decodeType_fields (T : AXP_DECODE_TABLES) (F : AXP_FUNC_CODES) (d : AXP_INSTRUCTION) :
    decodeType T F d = { d with type := (decodeType T F d).type } := by
  unfold decodeType
  dsimp only
  split <;> rfl

/-- The result of `AXP_Decode_Rename` when the register-decoding mask is `raw`. -/
theorem decode_entry (T : AXP_DECODE_TABLES) (F : AXP_FUNC_CODES) (shadow : Nat → Nat)
    (isz fsz : Nat) (cpu : AXP_21264_CPU) (instr : AXP_INS_FMT) (instrType : AXP_INS_TYPE)
    (instrPC : Nat) (slot : AXP_INSTRUCTION) (raw : Nat)
    (hmask : registerMask T instr instr.pal_opcode = some raw) :
    AXP_Decode_Rename T F shadow isz fsz cpu instr instrType instrPC slot =
      some (AXP_RenameRegisters isz fsz cpu
        (decodeRegisters T shadow cpu instr instrPC (decide (instrType = AXP_INS_TYPE.Pcd))
          (decodePipeline T
            { decodeType T F (decodeFormat T instr instrType slot).1 with
                decodedReg_raw := raw }))) := by
  have hop : (decodeType T F (decodeFormat T instr instrType slot).1).opcode =
      instr.pal_opcode := by
    rw [decodeType_fields]
    exact (decodeFormat_opcode T instr instrType slot).1
  unfold AXP_Decode_Rename
  dsimp only
  rw [hop, hmask, (decodeFormat_opcode T instr instrType slot).2.2]

/-- The three cases of the register substitution `AXP_REG`. -/
theorem AXP_REG_cases (shadow : Nat → Nat) :
    (∀ v, AXP_REG shadow v false = v) ∧
    (∀ v, (8 ≤ v ∧ v ≤ 14 ∨ v = 25) → AXP_REG shadow v true = shadow v) ∧
    (∀ v, ¬ (8 ≤ v ∧ v ≤ 14 ∨ v = 25) → AXP_REG shadow v true = v) := by
  unfold AXP_REG
  refine ⟨?_, ?_, ?_⟩
  · intro v
    simp
  · intro v h
    rw [if_pos]
    simpa using h
  · intro v h
    rw [if_neg]
    simpa using h

/-- The source `switch` of the decoder at each of the six selectors, which are distinct `case` labels. -/
theorem decodeSrc_cases (T : AXP_DECODE_TABLES) (instr : AXP_INS_FMT) (sel : Nat)
    (hsel : [T.AXP_REG_RA, T.AXP_REG_RB, T.AXP_REG_RC, T.AXP_REG_FA, T.AXP_REG_FB,
      T.AXP_REG_FC].Nodup) :
    (sel = T.AXP_REG_RA → decodeSrc T instr sel = (instr.oper1_ra, false)) ∧
    (sel = T.AXP_REG_RB → decodeSrc T instr sel = (instr.oper1_rb, false)) ∧
    (sel = T.AXP_REG_RC → decodeSrc T instr sel = (instr.oper1_rc, false)) ∧
    (sel = T.AXP_REG_FA → decodeSrc T instr sel = (instr.fp_fa, true)) ∧
    (sel = T.AXP_REG_FB → decodeSrc T instr sel = (instr.fp_fb, true)) ∧
    (sel = T.AXP_REG_FC → decodeSrc T instr sel = (instr.fp_fc, true)) := by
  simp only [List.nodup_cons, List.mem_cons, List.mem_singleton, not_or, List.not_mem_nil,
    not_false_eq_true, List.nodup_nil, and_true] at hsel
  obtain ⟨⟨a1, a2, a3, a4, a5⟩, ⟨b1, b2, b3, b4⟩, ⟨c1, c2, c3⟩, ⟨d1, d2⟩, e1⟩ := hsel
  unfold decodeSrc
  have ne : ∀ a b : Nat, ¬ a = b → ¬ (b == a) = true :=
    fun a b h hb => h (beq_iff_eq.1 hb).symm
  have pos : ∀ a : Nat, (a == a) = true := fun a => beq_self_eq_true a
  refine ⟨?_, ?_, ?_, ?_, ?_, ?_⟩ <;> intro h <;> subst h
  · rw [if_pos (pos _)]
  · rw [if_neg (ne _ _ a1), if_pos (pos _)]
  · rw [if_neg (ne _ _ a2), if_neg (ne _ _ b1), if_pos (pos _)]
  · rw [if_neg (ne _ _ a3), if_neg (ne _ _ b2), if_neg (ne _ _ c1), if_pos (pos _)]
  · rw [if_neg (ne _ _ a4), if_neg (ne _ _ b3), if_neg (ne _ _ c2), if_neg (ne _ _ d1),
      if_pos (pos _)]
  · rw [if_neg (ne _ _ a5), if_neg (ne _ _ b4), if_neg (ne _ _ c3), if_neg (ne _ _ d2),
      if_neg (ne _ _ e1), if_pos (pos _)]

/-- The destination `switch` of the decoder at each of the six selectors. -/
theorem decodeDest_cases (T : AXP_DECODE_TABLES) (cpu : AXP_21264_CPU) (instr : AXP_INS_FMT)
    (d : AXP_INSTRUCTION)
    (hsel : [T.AXP_REG_RA, T.AXP_REG_RB, T.AXP_REG_RC, T.AXP_REG_FA, T.AXP_REG_FB,
      T.AXP_REG_FC].Nodup) :
    (decodedReg_bits_dest d.decodedReg_raw = T.AXP_REG_RA →
      decodeDest T cpu instr d = (instr.oper1_ra, false)) ∧
    (decodedReg_bits_dest d.decodedReg_raw = T.AXP_REG_RB →
      decodeDest T cpu instr d = (instr.oper1_rb, false)) ∧
    (decodedReg_bits_dest d.decodedReg_raw = T.AXP_REG_RC →
      decodeDest T cpu instr d = (instr.oper1_rc, false)) ∧
    (decodedReg_bits_dest d.decodedReg_raw = T.AXP_REG_FA →
      decodeDest T cpu instr d = (instr.fp_fa, true)) ∧
    (decodedReg_bits_dest d.decodedReg_raw = T.AXP_REG_FB →
      decodeDest T cpu instr d = (instr.fp_fb, true)) ∧
    (decodedReg_bits_dest d.decodedReg_raw = T.AXP_REG_FC →
      decodeDest T cpu instr d = (instr.fp_fc, true)) := by
  simp only [List.nodup_cons, List.mem_cons, List.mem_singleton, not_or, List.not_mem_nil,
    not_false_eq_true, List.nodup_nil, and_true] at hsel
  obtain ⟨⟨a1, a2, a3, a4, a5⟩, ⟨b1, b2, b3, b4⟩, ⟨c1, c2, c3⟩, ⟨d1, d2⟩, e1⟩ := hsel
  unfold decodeDest
  dsimp only
  generalize decodedReg_bits_dest d.decodedReg_raw = sel
  have ne : ∀ a b : Nat, ¬ a = b → ¬ (b == a) = true :=
    fun a b h hb => h (beq_iff_eq.1 hb).symm
  have pos : ∀ a : Nat, (a == a) = true := fun a => beq_self_eq_true a
  refine ⟨?_, ?_, ?_, ?_, ?_, ?_⟩ <;> intro h <;> subst h
  · rw [if_pos (pos _)]
  · rw [if_neg (ne _ _ a1), if_pos (pos _)]
  · rw [if_neg (ne _ _ a2), if_neg (ne _ _ b1), if_pos (pos _)]
  · rw [if_neg (ne _ _ a3), if_neg (ne _ _ b2), if_neg (ne _ _ c1), if_pos (pos _)]
  · rw [if_neg (ne _ _ a4), if_neg (ne _ _ b3), if_neg (ne _ _ c2), if_neg (ne _ _ d1),
      if_pos (pos _)]
  · rw [if_neg (ne _ _ a5), if_neg (ne _ _ b4), if_neg (ne _ _ c3), if_neg (ne _ _ d2),
      if_neg (ne _ _ e1), if_pos (pos _)]

/-- The `default` case of the destination `switch` of the decoder. -/
theorem decodeDest_default (T : AXP_DECODE_TABLES) (cpu : AXP_21264_CPU) (instr : AXP_INS_FMT)
    (d : AXP_INSTRUCTION)
    (h : decodedReg_bits_dest d.decodedReg_raw ≠ T.AXP_REG_RA ∧
      decodedReg_bits_dest d.decodedReg_raw ≠ T.AXP_REG_RB ∧
      decodedReg_bits_dest d.decodedReg_raw ≠ T.AXP_REG_RC ∧
      decodedReg_bits_dest d.decodedReg_raw ≠ T.AXP_REG_FA ∧
      decodedReg_bits_dest d.decodedReg_raw ≠ T.AXP_REG_FB ∧
      decodedReg_bits_dest d.decodedReg_raw ≠ T.AXP_REG_FC) :
    decodeDest T cpu instr d =
      (if d.opcode = T.PAL00 then (if cpu.iCtl_call_pal_r23 = 1 then 23 else 27)
       else AXP_UNMAPPED_REG, false) := by
  obtain ⟨h1, h2, h3, h4, h5, h6⟩ := h
  unfold decodeDest
  dsimp only
  rw [if_neg (by simpa using h1), if_neg (by simpa using h2), if_neg (by simpa using h3),
    if_neg (by simpa using h4), if_neg (by simpa using h5), if_neg (by simpa using h6)]
  by_cases hp : d.opcode = T.PAL00
  · by_cases hr : cpu.iCtl_call_pal_r23 = 1 <;> simp [hp, hr]
  · simp [hp]

/-- The architectural registers after the register part of the decoder; the other fields but `pc` are as before. -/
theorem decodeRegisters_fields (T : AXP_DECODE_TABLES) (shadow : Nat → Nat)
    (cpu : AXP_21264_CPU) (instr : AXP_INS_FMT) (instrPC : Nat) (cp0 : Bool)
    (d : AXP_INSTRUCTION) :
    (decodeRegisters T shadow cpu instr instrPC cp0 d).aSrc1 =
      (if (decodeSrc T instr (decodedReg_bits_src1 d.decodedReg_raw)).2 = false then
         AXP_REG shadow (decodeSrc T instr (decodedReg_bits_src1 d.decodedReg_raw)).1
           (cp0 || (AXP_PC_pal instrPC == AXP_PAL_MODE))
       else (decodeSrc T instr (decodedReg_bits_src1 d.decodedReg_raw)).1) ∧
    (decodeRegisters T shadow cpu instr instrPC cp0 d).aSrc2 =
      (if (decodeSrc T instr (decodedReg_bits_src2 d.decodedReg_raw)).2 = false then
         AXP_REG shadow (decodeSrc T instr (decodedReg_bits_src2 d.decodedReg_raw)).1
           (cp0 || (AXP_PC_pal instrPC == AXP_PAL_MODE))
       else (decodeSrc T instr (decodedReg_bits_src2 d.decodedReg_raw)).1) ∧
    (decodeRegisters T shadow cpu instr instrPC cp0 d).aDest =
      (if (decodeDest T cpu instr d).2 = false then
         AXP_REG shadow (decodeDest T cpu instr d).1
           (cp0 || (AXP_PC_pal instrPC == AXP_PAL_MODE))
       else (decodeDest T cpu instr d).1) ∧
    decodeRegisters T shadow cpu instr instrPC cp0 d =
      { d with
          aSrc1 := (decodeRegisters T shadow cpu instr instrPC cp0 d).aSrc1
          aSrc2 := (decodeRegisters T shadow cpu instr instrPC cp0 d).aSrc2
          aDest := (decodeRegisters T shadow cpu instr instrPC cp0 d).aDest
          pc := instrPC } := by
  unfold decodeRegisters
  dsimp only
  generalize decodeSrc T instr (decodedReg_bits_src1 d.decodedReg_raw) = s1
  generalize decodeSrc T instr (decodedReg_bits_src2 d.decodedReg_raw) = s2
  generalize decodeDest T cpu instr d = dd
  obtain ⟨v1, f1⟩ := s1
  obtain ⟨v2, f2⟩ := s2
  obtain ⟨vd, fd⟩ := dd
  cases f1 <;> cases f2 <;> cases fd <;> exact ⟨rfl, rfl, rfl, rfl⟩

/-- The architectural registers of the entry that `AXP_Decode_Rename` returns are those of the register part of the decoder, run on an entry with the mask `raw` and the opcode of the instruction. -/
theorem decode_registers_of_entry (T : AXP_DECODE_TABLES) (F : AXP_FUNC_CODES)
    (shadow : Nat → Nat) (isz fsz : Nat) (cpu : AXP_21264_CPU) (instr : AXP_INS_FMT)
    (instrType : AXP_INS_TYPE) (instrPC : Nat) (slot : AXP_INSTRUCTION) (raw : Nat)
    (hmask : registerMask T instr instr.pal_opcode = some raw) :
    ∃ r d, AXP_Decode_Rename T F shadow isz fsz cpu instr instrType instrPC slot = some r ∧
      d.decodedReg_raw = raw ∧ d.opcode = instr.pal_opcode ∧
      r.2.aSrc1 = (decodeRegisters T shadow cpu instr instrPC
        (decide (instrType = AXP_INS_TYPE.Pcd)) d).aSrc1 ∧
      r.2.aSrc2 = (decodeRegisters T shadow cpu instr instrPC
        (decide (instrType = AXP_INS_TYPE.Pcd)) d).aSrc2 ∧
      r.2.aDest = (decodeRegisters T shadow cpu instr instrPC
        (decide (instrType = AXP_INS_TYPE.Pcd)) d).aDest := by
  refine ⟨_, decodePipeline T
    { decodeType T F (decodeFormat T instr instrType slot).1 with decodedReg_raw := raw },
    decode_entry T F shadow isz fsz cpu instr instrType instrPC slot raw hmask, rfl, ?_, ?_⟩
  · show (decodeType T F (decodeFormat T instr instrType slot).1).opcode = instr.pal_opcode
    rw [decodeType_fields]
    exact (decodeFormat_opcode T instr instrType slot).1
  · rw [rename_keeps_decoded]
    exact ⟨rfl, rfl, rfl⟩

/-- The tables after `n` passes of the first loop of the initialisation. -/
theorem initLoopOneK_tables (n : Nat) (cpu : AXP_21264_CPU) :
    (∀ i, (initLoopOneK n cpu).lcl_history i = if i < n then 0 else cpu.lcl_history i) ∧
    (∀ i, (initLoopOneK n cpu).lcl_pred i = if i < n then 0 else cpu.lcl_pred i) ∧
    (∀ i, (initLoopOneK n cpu).choice_pred i = if i < n then 0 else cpu.choice_pred i) ∧
    (initLoopOneK n cpu).gbl_pred = cpu.gbl_pred := by
  induction n with
  | zero => exact ⟨fun _ => rfl, fun _ => rfl, fun _ => rfl, rfl⟩
  | succ k ih =>
    obtain ⟨h1, h2, h3, h4⟩ := ih
    refine ⟨?_, ?_, ?_, h4⟩
    · intro i
      show setAt (initLoopOneK k cpu).lcl_history k 0 i = _
      by_cases hi : i = k
      · subst hi
        simp
      · rw [setAt_other _ _ _ _ hi, h1]
        by_cases hlt : i < k
        · simp [hlt, Nat.lt_succ_of_lt hlt]
        · have : ¬ i < k + 1 := by omega
          simp [hlt, this]
    · intro i
      show setAt (initLoopOneK k cpu).lcl_pred k 0 i = _
      by_cases hi : i = k
      · subst hi
        simp
      · rw [setAt_other _ _ _ _ hi, h2]
        by_cases hlt : i < k
        · simp [hlt, Nat.lt_succ_of_lt hlt]
        · have : ¬ i < k + 1 := by omega
          simp [hlt, this]
    · intro i
      show setAt (initLoopOneK k cpu).choice_pred k 0 i = _
      by_cases hi : i = k
      · subst hi
        simp
      · rw [setAt_other _ _ _ _ hi, h3]
        by_cases hlt : i < k
        · simp [hlt, Nat.lt_succ_of_lt hlt]
        · have : ¬ i < k + 1 := by omega
          simp [hlt, this]

/-- The tables after `n` passes of the second loop of the initialisation. -/
theorem initLoopFourK_tables (n : Nat) (cpu : AXP_21264_CPU) :
    (∀ i, (initLoopFourK n cpu).gbl_pred i = if i < n then 0 else cpu.gbl_pred i) ∧
    (initLoopFourK n cpu).lcl_history = cpu.lcl_history ∧
    (initLoopFourK n cpu).lcl_pred = cpu.lcl_pred ∧
    (initLoopFourK n cpu).choice_pred = cpu.choice_pred := by
  induction n with
  | zero => exact ⟨fun _ => rfl, rfl, rfl, rfl⟩
  | succ k ih =>
    obtain ⟨h1, h2, h3, h4⟩ := ih
    refine ⟨?_, h2, h3, h4⟩
    intro i
    show setAt (initLoopFourK k cpu).gbl_pred k 0 i = _
    by_cases hi : i = k
    · subst hi
      simp
    · rw [setAt_other _ _ _ _ hi, h1]
      by_cases hlt : i < k
      · simp [hlt, Nat.lt_succ_of_lt hlt]
      · have : ¬ i < k + 1 := by omega
        simp [hlt, this]

/-- The tables after both loops of the initialisation. -/
theorem init_loops_tables (n m : Nat) (cpu : AXP_21264_CPU) :
    (∀ i, (initLoopFourK m (initLoopOneK n cpu)).lcl_history i =
      if i < n then 0 else cpu.lcl_history i) ∧
    (∀ i, (initLoopFourK m (initLoopOneK n cpu)).lcl_pred i =
      if i < n then 0 else cpu.lcl_pred i) ∧
    (∀ i, (initLoopFourK m (initLoopOneK n cpu)).gbl_pred i =
      if i < m then 0 else cpu.gbl_pred i) ∧
    (∀ i, (initLoopFourK m (initLoopOneK n cpu)).choice_pred i =
      if i < n then 0 else cpu.choice_pred i) := by
  obtain ⟨a1, a2, a3, a4⟩ := initLoopOneK_tables n cpu
  obtain ⟨b1, b2, b3, b4⟩ := initLoopFourK_tables m (initLoopOneK n cpu)
  refine ⟨?_, ?_, ?_, ?_⟩
  · intro i
    rw [b2, a1]
  · intro i
    rw [b3, a2]
  · intro i
    rw [b1, a4]
  · intro i
    rw [b4, a3]

/-- The predictor after the start of `AXP_21264_Ibox_Init`. -/
theorem init_predictor_tables (cpu : AXP_21264_CPU) :
    (Ibox_Init_predictor cpu).globalPathHistory = 0 ∧
    (∀ i, (Ibox_Init_predictor cpu).lcl_history i =
      if i < ONE_K then 0 else cpu.lcl_history i) ∧
    (∀ i, (Ibox_Init_predictor cpu).lcl_pred i = if i < ONE_K then 0 else cpu.lcl_pred i) ∧
    (∀ i, (Ibox_Init_predictor cpu).gbl_pred i = if i < FOUR_K then 0 else cpu.gbl_pred i) ∧
    (∀ i, (Ibox_Init_predictor cpu).choice_pred i =
      if i < ONE_K then 0 else cpu.choice_pred i) := by
  generalize hn : ONE_K = n
  generalize hm : FOUR_K = m
  have e : Ibox_Init_predictor cpu =
      { initLoopFourK m (initLoopOneK n { cpu with excPend := false }) with
          globalPathHistory := 0 } := by
    unfold Ibox_Init_predictor
    rw [hn, hm]
  obtain ⟨t1, t2, t3, t4⟩ := init_loops_tables n m { cpu with excPend := false }
  rw [e]
  exact ⟨rfl, t1, t2, t3, t4⟩

/-- The function code, the hint and the displacement of the entry that
`AXP_Decode_Rename` returns are those the format `switch` left. -/
theorem decode_function_kept (T : AXP_DECODE_TABLES) (F : AXP_FUNC_CODES)
    (shadow : Nat → Nat) (isz fsz : Nat) (cpu : AXP_21264_CPU) (instr : AXP_INS_FMT)
    (instrType : AXP_INS_TYPE) (instrPC : Nat) (slot : AXP_INSTRUCTION)
    (r : AXP_21264_CPU × AXP_INSTRUCTION)
    (hr : AXP_Decode_Rename T F shadow isz fsz cpu instr instrType instrPC slot = some r) :
    r.2.function = (decodeFormat T instr instrType slot).1.function ∧
    r.2.type_hint_index = (decodeFormat T instr instrType slot).1.type_hint_index ∧
    r.2.displacement = (decodeFormat T instr instrType slot).1.displacement := by
  cases hmask : registerMask T instr instr.pal_opcode with
  | none =>
    have hop : (decodeType T F (decodeFormat T instr instrType slot).1).opcode =
        instr.pal_opcode := by
      rw [decodeType_fields]
      exact (decodeFormat_opcode T instr instrType slot).1
    unfold AXP_Decode_Rename at hr
    dsimp only at hr
    rw [hop, hmask] at hr
    exact absurd hr (by simp)
  | some raw =>
    rw [decode_entry T F shadow isz fsz cpu instr instrType instrPC slot raw hmask] at hr
    have hr2 := (Option.some.inj hr).symm
    rw [hr2, rename_keeps_decoded, (decodeRegisters_fields _ _ _ _ _ _ _).2.2.2]
    unfold decodePipeline
    dsimp only
    rw [decodeType_fields]
    exact ⟨rfl, rfl, rfl⟩

/-- For the format `Bra` the format `switch` writes neither the function code
nor the hint of the slot. -/
theorem decodeFormat_branch (T : AXP_DECODE_TABLES) (instr : AXP_INS_FMT)
    (slot : AXP_INSTRUCTION) :
    (decodeFormat T instr AXP_INS_TYPE.Bra slot).1.function = slot.function ∧
    (decodeFormat T instr AXP_INS_TYPE.Bra slot).1.type_hint_index = slot.type_hint_index :=
  ⟨rfl, rfl⟩


/-! ## Decoding, queue selection, VPC advance, initialisation and queue entries -/

/-- C31: PAL-shadow substitution.  When the register-decoding mask of the
instruction is raw, `AXP_Decode_Rename` returns an entry in which, with pal =
(the format is Pcd, a CALL_PAL) or (the pal bit of the VPC is set), a source or
destination that the mask selects as Ra, Rb or Rc is AXP_REG of the field
value and pal, and one that it selects as Fa, Fb or Fc is the field value
itself, whatever pal is.  AXP_REG with pal set replaces a register of
{8..14, 25} by its shadow and keeps every other number; with pal clear it keeps
every number.  The six selectors are distinct case labels. -/
theorem decode_pal_shadow (T : AXP_DECODE_TABLES) (F : AXP_FUNC_CODES)
    (shadow : Nat → Nat) (isz fsz : Nat) (cpu : AXP_21264_CPU) (instr : AXP_INS_FMT)
    (instrType : AXP_INS_TYPE) (instrPC : Nat) (slot : AXP_INSTRUCTION) (raw : Nat)
    (hmask : registerMask T instr instr.pal_opcode = some raw)
    (hsel : [T.AXP_REG_RA, T.AXP_REG_RB, T.AXP_REG_RC, T.AXP_REG_FA, T.AXP_REG_FB,
      T.AXP_REG_FC].Nodup) :
    ∃ r, AXP_Decode_Rename T F shadow isz fsz cpu instr instrType instrPC slot = some r ∧
      ∀ pal : Bool,
        pal = (decide (instrType = AXP_INS_TYPE.Pcd) || decide (AXP_PC_pal instrPC = 1)) →
        ((raw &&& 0xF = T.AXP_REG_RA → r.2.aSrc1 = AXP_REG shadow instr.oper1_ra pal) ∧
         (raw &&& 0xF = T.AXP_REG_RB → r.2.aSrc1 = AXP_REG shadow instr.oper1_rb pal) ∧
         (raw &&& 0xF = T.AXP_REG_RC → r.2.aSrc1 = AXP_REG shadow instr.oper1_rc pal) ∧
         (raw &&& 0xF = T.AXP_REG_FA → r.2.aSrc1 = instr.fp_fa) ∧
         (raw &&& 0xF = T.AXP_REG_FB → r.2.aSrc1 = instr.fp_fb) ∧
         (raw &&& 0xF = T.AXP_REG_FC → r.2.aSrc1 = instr.fp_fc)) ∧
        (((raw >>> 4) &&& 0xF = T.AXP_REG_RA →
            r.2.aSrc2 = AXP_REG shadow instr.oper1_ra pal) ∧
         ((raw >>> 4) &&& 0xF = T.AXP_REG_RB →
            r.2.aSrc2 = AXP_REG shadow instr.oper1_rb pal) ∧
         ((raw >>> 4) &&& 0xF = T.AXP_REG_RC →
            r.2.aSrc2 = AXP_REG shadow instr.oper1_rc pal) ∧
         ((raw >>> 4) &&& 0xF = T.AXP_REG_FA → r.2.aSrc2 = instr.fp_fa) ∧
         ((raw >>> 4) &&& 0xF = T.AXP_REG_FB → r.2.aSrc2 = instr.fp_fb) ∧
         ((raw >>> 4) &&& 0xF = T.AXP_REG_FC → r.2.aSrc2 = instr.fp_fc)) ∧
        (((raw >>> 8) &&& 0xF = T.AXP_REG_RA →
            r.2.aDest = AXP_REG shadow instr.oper1_ra pal) ∧
         ((raw >>> 8) &&& 0xF = T.AXP_REG_RB →
            r.2.aDest = AXP_REG shadow instr.oper1_rb pal) ∧
         ((raw >>> 8) &&& 0xF = T.AXP_REG_RC →
            r.2.aDest = AXP_REG shadow instr.oper1_rc pal) ∧
         ((raw >>> 8) &&& 0xF = T.AXP_REG_FA → r.2.aDest = instr.fp_fa) ∧
         ((raw >>> 8) &&& 0xF = T.AXP_REG_FB → r.2.aDest = instr.fp_fb) ∧
         ((raw >>> 8) &&& 0xF = T.AXP_REG_FC → r.2.aDest = instr.fp_fc)) ∧
        (∀ v, (8 ≤ v ∧ v ≤ 14 ∨ v = 25) → AXP_REG shadow v true = shadow v) ∧
        (∀ v, ¬ (8 ≤ v ∧ v ≤ 14 ∨ v = 25) → AXP_REG shadow v true = v) ∧
        (∀ v, AXP_REG shadow v false = v) := by
  obtain ⟨r, d, hr, hraw, _, e1, e2, e3⟩ :=
    decode_registers_of_entry T F shadow isz fsz cpu instr instrType instrPC slot raw hmask
  refine ⟨r, hr, ?_⟩
  intro pal hpal
  have hpal2 : (decide (instrType = AXP_INS_TYPE.Pcd) ||
      (AXP_PC_pal instrPC == AXP_PAL_MODE)) = pal := by
    rw [hpal]
    unfold AXP_PAL_MODE
    by_cases h : AXP_PC_pal instrPC = 1 <;> simp [h]
  obtain ⟨f1, f2, f3, _⟩ := decodeRegisters_fields T shadow cpu instr instrPC
    (decide (instrType = AXP_INS_TYPE.Pcd)) d
  rw [hpal2, hraw] at f1 f2
  rw [hpal2] at f3
  rw [← e1] at f1
  rw [← e2] at f2
  rw [← e3] at f3
  obtain ⟨s1, s2, s3, s4, s5, s6⟩ := decodeSrc_cases T instr (decodedReg_bits_src1 raw) hsel
  obtain ⟨t1, t2, t3, t4, t5, t6⟩ := decodeSrc_cases T instr (decodedReg_bits_src2 raw) hsel
  obtain ⟨u1, u2, u3, u4, u5, u6⟩ := decodeDest_cases T cpu instr d hsel
  rw [hraw] at u1 u2 u3 u4 u5 u6
  obtain ⟨g1, g2, g3⟩ := AXP_REG_cases shadow
  refine ⟨⟨?_, ?_, ?_, ?_, ?_, ?_⟩, ⟨?_, ?_, ?_, ?_, ?_, ?_⟩, ⟨?_, ?_, ?_, ?_, ?_, ?_⟩,
    g2, g3, g1⟩
  · intro h
    rw [f1, s1 h]
    rfl
  · intro h
    rw [f1, s2 h]
    rfl
  · intro h
    rw [f1, s3 h]
    rfl
  · intro h
    rw [f1, s4 h]
    rfl
  · intro h
    rw [f1, s5 h]
    rfl
  · intro h
    rw [f1, s6 h]
    rfl
  · intro h
    rw [f2, t1 h]
    rfl
  · intro h
    rw [f2, t2 h]
    rfl
  · intro h
    rw [f2, t3 h]
    rfl
  · intro h
    rw [f2, t4 h]
    rfl
  · intro h
    rw [f2, t5 h]
    rfl
  · intro h
    rw [f2, t6 h]
    rfl
  · intro h
    rw [f3, u1 h]
    rfl
  · intro h
    rw [f3, u2 h]
    rfl
  · intro h
    rw [f3, u3 h]
    rfl
  · intro h
    rw [f3, u4 h]
    rfl
  · intro h
    rw [f3, u5 h]
    rfl
  · intro h
    rw [f3, u6 h]
    rfl

/-- Witness for C31: in PAL mode `ADDQ R8, R9, R10` gets the shadow registers 32,
33 and 34; `ADDT F8, F9, F10` keeps 8, 9 and 10, and so does the `ADDQ` outside
PAL mode. -/
theorem decode_pal_shadow_witness :
    registerMask sampleDecodeTables insADDQ_R8_R9_R10 insADDQ_R8_R9_R10.pal_opcode =
      some 0x0321 ∧
    [sampleDecodeTables.AXP_REG_RA, sampleDecodeTables.AXP_REG_RB,
      sampleDecodeTables.AXP_REG_RC, sampleDecodeTables.AXP_REG_FA,
      sampleDecodeTables.AXP_REG_FB, sampleDecodeTables.AXP_REG_FC].Nodup ∧
    (∃ r, AXP_Decode_Rename sampleDecodeTables sampleFuncCodes samplePALshadow 40 40
        cpuCleared insADDQ_R8_R9_R10 AXP_INS_TYPE.Opr 0x2001 robSlotRetired = some r ∧
      r.2.aSrc1 = 32 ∧ r.2.aSrc2 = 33 ∧ r.2.aDest = 34) ∧
    (AXP_Decode_Rename sampleDecodeTables sampleFuncCodes samplePALshadow 40 40
        cpuCleared insADDT_F8_F9_F10 AXP_INS_TYPE.FP 0x2001 robSlotRetired).map
      (fun r : AXP_21264_CPU × AXP_INSTRUCTION => (r.2.aSrc1, r.2.aSrc2, r.2.aDest)) = some (8, 9, 10) ∧
    (AXP_Decode_Rename sampleDecodeTables sampleFuncCodes samplePALshadow 40 40
        cpuCleared insADDQ_R8_R9_R10 AXP_INS_TYPE.Opr 0x2000 robSlotRetired).map
      (fun r : AXP_21264_CPU × AXP_INSTRUCTION => (r.2.aSrc1, r.2.aSrc2, r.2.aDest)) = some (8, 9, 10) := by
  refine ⟨by decide, by decide, ?_, by decide, by decide⟩
  obtain ⟨r, hr, h⟩ := decode_pal_shadow sampleDecodeTables sampleFuncCodes samplePALshadow
    40 40 cpuCleared insADDQ_R8_R9_R10 AXP_INS_TYPE.Opr 0x2001 robSlotRetired 0x0321
    (by decide) (by decide)
  obtain ⟨h1, h2, h3, _⟩ := h true (by decide)
  refine ⟨r, hr, ?_, ?_, ?_⟩
  · rw [h1.1 (by decide)]
    decide
  · rw [h2.2.1 (by decide)]
    decide
  · rw [h3.2.2.1 (by decide)]
    decide

/-- C32: CALL_PAL linkage register.  When the destination field of the
register-decoding mask is none of the six register selectors,
`AXP_Decode_Rename` returns an entry whose architectural destination is 23 for
opcode PAL00 with I_CTL.call_pal_r23 = 1, 27 for opcode PAL00 otherwise, and 31
for every other opcode. -/
theorem decode_call_pal_linkage (T : AXP_DECODE_TABLES) (F : AXP_FUNC_CODES)
    (shadow : Nat → Nat) (isz fsz : Nat) (cpu : AXP_21264_CPU) (instr : AXP_INS_FMT)
    (instrType : AXP_INS_TYPE) (instrPC : Nat) (slot : AXP_INSTRUCTION) (raw : Nat)
    (hmask : registerMask T instr instr.pal_opcode = some raw)
    (hnodest : (raw >>> 8) &&& 0xF ≠ T.AXP_REG_RA ∧ (raw >>> 8) &&& 0xF ≠ T.AXP_REG_RB ∧
      (raw >>> 8) &&& 0xF ≠ T.AXP_REG_RC ∧ (raw >>> 8) &&& 0xF ≠ T.AXP_REG_FA ∧
      (raw >>> 8) &&& 0xF ≠ T.AXP_REG_FB ∧ (raw >>> 8) &&& 0xF ≠ T.AXP_REG_FC) :
    ∃ r, AXP_Decode_Rename T F shadow isz fsz cpu instr instrType instrPC slot = some r ∧
      (instr.pal_opcode = T.PAL00 → cpu.iCtl_call_pal_r23 = 1 → r.2.aDest = 23) ∧
      (instr.pal_opcode = T.PAL00 → cpu.iCtl_call_pal_r23 ≠ 1 → r.2.aDest = 27) ∧
      (instr.pal_opcode ≠ T.PAL00 → r.2.aDest = 31) := by
  obtain ⟨r, d, hr, hraw, hop, _, _, e3⟩ :=
    decode_registers_of_entry T F shadow isz fsz cpu instr instrType instrPC slot raw hmask
  refine ⟨r, hr, ?_⟩
  obtain ⟨_, _, f3, _⟩ := decodeRegisters_fields T shadow cpu instr instrPC
    (decide (instrType = AXP_INS_TYPE.Pcd)) d
  have hd := decodeDest_default T cpu instr d (by rw [hraw]; exact hnodest)
  rw [hd, hop] at f3
  rw [← e3] at f3
  rw [f3]
  have hreg : ∀ (v : Nat) (b : Bool), ¬ (8 ≤ v ∧ v ≤ 14 ∨ v = 25) → AXP_REG shadow v b = v := by
    intro v b hv
    cases b
    · exact (AXP_REG_cases shadow).1 v
    · exact (AXP_REG_cases shadow).2.2 v hv
  refine ⟨?_, ?_, ?_⟩
  · intro h1 h2
    simp only [h1, h2, if_true]
    exact hreg 23 _ (by decide)
  · intro h1 h2
    simp only [h1, h2, if_true, if_false]
    exact hreg 27 _ (by decide)
  · intro h1
    simp only [h1, if_false]
    exact hreg 31 _ (by decide)

/-- Witness for C32: a CALL_PAL gets destination 23 with I_CTL.call_pal_r23 = 1
and 27 with I_CTL.call_pal_r23 = 0. -/
theorem decode_call_pal_linkage_witness :
    registerMask sampleDecodeTables insCALL_PAL insCALL_PAL.pal_opcode = some 0 ∧
    (∃ r, AXP_Decode_Rename sampleDecodeTables sampleFuncCodes samplePALshadow 40 40
        cpuCallPalR23 insCALL_PAL AXP_INS_TYPE.Pcd 0x2000 robSlotRetired = some r ∧
      r.2.aDest = 23) ∧
    (AXP_Decode_Rename sampleDecodeTables sampleFuncCodes samplePALshadow 40 40
        cpuCleared insCALL_PAL AXP_INS_TYPE.Pcd 0x2000 robSlotRetired).map
      (fun r : AXP_21264_CPU × AXP_INSTRUCTION => r.2.aDest) = some 27 := by
  refine ⟨by decide, ?_, by decide⟩
  obtain ⟨r, hr, h, _⟩ := decode_call_pal_linkage sampleDecodeTables sampleFuncCodes
    samplePALshadow 40 40 cpuCallPalR23 insCALL_PAL AXP_INS_TYPE.Pcd 0x2000 robSlotRetired 0
    (by decide) (by decide)
  exact ⟨r, hr, h (by decide) (by decide)⟩

/-- C33: operation-type refinement.  `AXP_DecodeOperType` returns one of Load,
Store, Arith, Logic, Oper, so not Other, for every function code when the
opcode is 0x10, 0x11, 0x15, 0x16, 0x17 or 0x18, and Other for every other
opcode whatever the function code. -/
theorem decodeOperType_refines (F : AXP_FUNC_CODES) (opCode funcCode : Nat) :
    ((opCode = 0x10 ∨ opCode = 0x11 ∨ opCode = 0x15 ∨ opCode = 0x16 ∨ opCode = 0x17 ∨
        opCode = 0x18) →
      AXP_DecodeOperType F opCode funcCode ≠ AXP_OPER_TYPE.Other ∧
      (AXP_DecodeOperType F opCode funcCode = AXP_OPER_TYPE.Load ∨
       AXP_DecodeOperType F opCode funcCode = AXP_OPER_TYPE.Store ∨
       AXP_DecodeOperType F opCode funcCode = AXP_OPER_TYPE.Arith ∨
       AXP_DecodeOperType F opCode funcCode = AXP_OPER_TYPE.Logic ∨
       AXP_DecodeOperType F opCode funcCode = AXP_OPER_TYPE.Oper)) ∧
    (¬ (opCode = 0x10 ∨ opCode = 0x11 ∨ opCode = 0x15 ∨ opCode = 0x16 ∨ opCode = 0x17 ∨
        opCode = 0x18) →
      AXP_DecodeOperType F opCode funcCode = AXP_OPER_TYPE.Other) := by
  constructor
  · intro h
    rcases h with h | h | h | h | h | h <;> subst h
    · have e : AXP_DecodeOperType F 0x10 funcCode =
          if funcCode == F.AXP_FUNC_CMPBGE then AXP_OPER_TYPE.Logic
          else AXP_OPER_TYPE.Arith := rfl
      rw [e]
      split <;> decide
    · have e : AXP_DecodeOperType F 0x11 funcCode =
          if funcCode == F.AXP_FUNC_AMASK || funcCode == F.AXP_FUNC_IMPLVER then
            AXP_OPER_TYPE.Oper
          else AXP_OPER_TYPE.Logic := rfl
      rw [e]
      split <;> decide
    · have e : AXP_DecodeOperType F 0x15 funcCode =
          if funcCode == F.AXP_FUNC_CMPGEQ || funcCode == F.AXP_FUNC_CMPGLT ||
              funcCode == F.AXP_FUNC_CMPGLE || funcCode == F.AXP_FUNC_CMPGEQ_S ||
              funcCode == F.AXP_FUNC_CMPGLT_S || funcCode == F.AXP_FUNC_CMPGLE_S then
            AXP_OPER_TYPE.Logic
          else AXP_OPER_TYPE.Arith := rfl
      rw [e]
      split <;> decide
    · have e : AXP_DecodeOperType F 0x16 funcCode =
          if funcCode == F.AXP_FUNC_CMPTUN || funcCode == F.AXP_FUNC_CMPTEQ ||
              funcCode == F.AXP_FUNC_CMPTLT || funcCode == F.AXP_FUNC_CMPTLE ||
              funcCode == F.AXP_FUNC_CMPTUN_SU || funcCode == F.AXP_FUNC_CMPTEQ_SU ||
              funcCode == F.AXP_FUNC_CMPTLT_SU || funcCode == F.AXP_FUNC_CMPTLE_SU then
            AXP_OPER_TYPE.Logic
          else AXP_OPER_TYPE.Arith := rfl
      rw [e]
      split <;> decide
    · have e : AXP_DecodeOperType F 0x17 funcCode =
          if funcCode == F.AXP_FUNC_MT_FPCR then AXP_OPER_TYPE.Load
          else if funcCode == F.AXP_FUNC_MF_FPCR then AXP_OPER_TYPE.Store
          else AXP_OPER_TYPE.Arith := rfl
      rw [e]
      split
      · decide
      · split <;> decide
    · have e : AXP_DecodeOperType F 0x18 funcCode =
          if funcCode == F.AXP_FUNC_RPCC || funcCode == F.AXP_FUNC_RC ||
              funcCode == F.AXP_FUNC_RS then AXP_OPER_TYPE.Load
          else AXP_OPER_TYPE.Store := rfl
      rw [e]
      split <;> decide
  · intro h
    simp only [not_or] at h
    obtain ⟨h1, h2, h3, h4, h5, h6⟩ := h
    unfold AXP_DecodeOperType INTA INTL FLTV FLTI FLTL MISC
    rw [if_neg (by simpa using h1), if_neg (by simpa using h2), if_neg (by simpa using h3),
      if_neg (by simpa using h4), if_neg (by simpa using h5), if_neg (by simpa using h6)]

/-- C34: queue split for the conditional opcodes.  For an opcode that
`AXP_InstructionQueue` classes as conditional: if it is ITFP the instruction
goes to the IQ exactly when its function code is ITOFS, ITOFF or ITOFT and to
the FQ for every other function code; otherwise (FPTI) it goes to the FQ
exactly when its function code is FTOIT or FTOIS and to the IQ for every other
function code. -/
theorem queue_split_conditional (Q : AXP_QUEUE_CODES) (opcode function : Nat)
    (hcond : Q.AXP_InstructionQueue opcode = AXP_QUEUE_SEL.AXP_COND) :
    (opcode = Q.ITFP →
      (whichQueue Q opcode function = AXP_QUEUE_SEL.AXP_IQ ↔
        (function = Q.AXP_FUNC_ITOFS ∨ function = Q.AXP_FUNC_ITOFF ∨
          function = Q.AXP_FUNC_ITOFT)) ∧
      (whichQueue Q opcode function = AXP_QUEUE_SEL.AXP_FQ ↔
        ¬ (function = Q.AXP_FUNC_ITOFS ∨ function = Q.AXP_FUNC_ITOFF ∨
          function = Q.AXP_FUNC_ITOFT))) ∧
    (opcode ≠ Q.ITFP →
      (whichQueue Q opcode function = AXP_QUEUE_SEL.AXP_FQ ↔
        (function = Q.AXP_FUNC_FTOIT ∨ function = Q.AXP_FUNC_FTOIS)) ∧
      (whichQueue Q opcode function = AXP_QUEUE_SEL.AXP_IQ ↔
        ¬ (function = Q.AXP_FUNC_FTOIT ∨ function = Q.AXP_FUNC_FTOIS))) := by
  unfold whichQueue
  dsimp only
  rw [hcond]
  constructor
  · intro h
    by_cases hf : function = Q.AXP_FUNC_ITOFS ∨ function = Q.AXP_FUNC_ITOFF ∨
        function = Q.AXP_FUNC_ITOFT
    · have hb : (function == Q.AXP_FUNC_ITOFS || function == Q.AXP_FUNC_ITOFF ||
          function == Q.AXP_FUNC_ITOFT) = true := by
        simp only [Bool.or_eq_true, beq_iff_eq]
        tauto
      simp [h, hb, hf]
    · have hb : ¬ (function == Q.AXP_FUNC_ITOFS || function == Q.AXP_FUNC_ITOFF ||
          function == Q.AXP_FUNC_ITOFT) = true := by
        simp only [Bool.or_eq_true, beq_iff_eq]
        tauto
      simp [h, hb, hf]
  · intro h
    by_cases hf : function = Q.AXP_FUNC_FTOIT ∨ function = Q.AXP_FUNC_FTOIS
    · have hb : (function == Q.AXP_FUNC_FTOIT || function == Q.AXP_FUNC_FTOIS) = true := by
        simp only [Bool.or_eq_true, beq_iff_eq]
        tauto
      simp [h, hb, hf]
    · have hb : ¬ (function == Q.AXP_FUNC_FTOIT || function == Q.AXP_FUNC_FTOIS) = true := by
        simp only [Bool.or_eq_true, beq_iff_eq]
        tauto
      simp [h, hb, hf]

/-- Witness for C34: with the sample table ITFP (0x14) is conditional; function
ITOFT goes to the IQ and function 0x0ab to the FQ. -/
theorem queue_split_conditional_witness :
    sampleQueueCodes.AXP_InstructionQueue 0x14 = AXP_QUEUE_SEL.AXP_COND ∧
    whichQueue sampleQueueCodes 0x14 0x024 = AXP_QUEUE_SEL.AXP_IQ ∧
    whichQueue sampleQueueCodes 0x14 0x0ab = AXP_QUEUE_SEL.AXP_FQ :=
  ⟨by decide,
   ((queue_split_conditional sampleQueueCodes 0x14 0x024 (by decide)).1 (by decide)).1.2
     (by decide),
   ((queue_split_conditional sampleQueueCodes 0x14 0x0ab (by decide)).1 (by decide)).2.2
     (by decide)⟩

/-- C35: renaming preserves read-after-write dependencies.  If an instruction
with integer destination r != 31 is renamed and next an instruction is renamed
that has r as integer source 1 (source 2), the renamed source 1 (source 2) of
the second is the renamed dest of the first, which is the register at the head
of the integer free-list. -/
theorem rename_preserves_raw (isz fsz : Nat) (cpu : AXP_21264_CPU)
    (first second : AXP_INSTRUCTION)
    (hd : first.aDest ≠ AXP_UNMAPPED_REG)
    (hf : first.decodedReg_raw &&& 0x0800 ≠ 0x0800) :
    (second.aSrc1 = first.aDest → second.decodedReg_raw &&& 0x0008 ≠ 0x0008 →
      (AXP_RenameRegisters isz fsz (AXP_RenameRegisters isz fsz cpu first).1 second).2.src1 =
        (AXP_RenameRegisters isz fsz cpu first).2.dest) ∧
    (second.aSrc2 = first.aDest → second.decodedReg_raw &&& 0x0080 ≠ 0x0080 →
      (AXP_RenameRegisters isz fsz (AXP_RenameRegisters isz fsz cpu first).1 second).2.src2 =
        (AXP_RenameRegisters isz fsz cpu first).2.dest) ∧
    (AXP_RenameRegisters isz fsz cpu first).2.dest = cpu.prFreeList cpu.prFlStart := by
  have hf1 : ((first.decodedReg_raw &&& 0x0800) == 0x0800) = false := by simpa using hf
  obtain ⟨m1, _, _⟩ := rename_int_map isz fsz cpu first hd hf1
  obtain ⟨s1, s2⟩ := rename_src_fields isz fsz (AXP_RenameRegisters isz fsz cpu first).1 second
  refine ⟨?_, ?_, (rename_int_dest isz fsz cpu first hd hf1).1⟩
  · intro ha hs
    have hs1 : ¬ ((second.decodedReg_raw &&& 0x0008) == 0x0008) = true := by simpa using hs
    rw [s1, if_neg hs1, ha, m1]
  · intro ha hs
    have hs1 : ¬ ((second.decodedReg_raw &&& 0x0080) == 0x0080) = true := by simpa using hs
    rw [s2, if_neg hs1, ha, m1]

/-- Witness for C35: `ADDQ R1,R2,R3; ADDQ R3,R4,R5; ADDQ R5,R6,R7` from the
cleared state; R3 is renamed to 40, which is source 1 of the second
instruction, and source 1 of the third is the dest of the second. -/
theorem rename_preserves_raw_witness :
    ADDQ_R1_R2_R3.aDest ≠ AXP_UNMAPPED_REG ∧
    ADDQ_R1_R2_R3.decodedReg_raw &&& 0x0800 ≠ 0x0800 ∧
    ADDQ_R3_R4_R5.aSrc1 = ADDQ_R1_R2_R3.aDest ∧
    ADDQ_R3_R4_R5.decodedReg_raw &&& 0x0008 ≠ 0x0008 ∧
    (AXP_RenameRegisters 40 40 (AXP_RenameRegisters 40 40 cpuCleared ADDQ_R1_R2_R3).1
        ADDQ_R3_R4_R5).2.src1 =
      (AXP_RenameRegisters 40 40 cpuCleared ADDQ_R1_R2_R3).2.dest ∧
    (AXP_RenameRegisters 40 40 cpuCleared ADDQ_R1_R2_R3).2.dest = 40 ∧
    (AXP_RenameRegisters 40 40
        (AXP_RenameRegisters 40 40 (AXP_RenameRegisters 40 40 cpuCleared ADDQ_R1_R2_R3).1
          ADDQ_R3_R4_R5).1 ADDQ_R5_R6_R7).2.src1 =
      (AXP_RenameRegisters 40 40 (AXP_RenameRegisters 40 40 cpuCleared ADDQ_R1_R2_R3).1
        ADDQ_R3_R4_R5).2.dest :=
  ⟨by decide, by decide, by decide, by decide,
   (rename_preserves_raw 40 40 cpuCleared ADDQ_R1_R2_R3 ADDQ_R3_R4_R5 (by decide)
      (by decide)).1 (by decide) (by decide),
   by decide, by decide⟩

/-- C36, evaluated: with the VPC 0x2001 on the list, the driver's call of
`AXP_21264_IncrementVPC` returns 0x2005, a following `AXP_21264_GetNextVPC`
still returns 0x2001, and a second call returns 0x2005 again: the incremented
VPC is not stored on the list.  For every state the call leaves the CPU as it
was. -/
theorem incrementVPC_not_stored :
    AXP_21264_GetNextVPC 8 cpuVpcOne = 0x2001 ∧
    (driverNextPC 8 cpuVpcOne).1 = 0x2005 ∧
    AXP_21264_GetNextVPC 8 (driverNextPC 8 cpuVpcOne).2 = 0x2001 ∧
    (driverNextPC 8 (driverNextPC 8 cpuVpcOne).2).1 = 0x2005 ∧
    (∀ (imax : Nat) (cpu : AXP_21264_CPU), (driverNextPC imax cpu).2 = cpu) := by
  refine ⟨by decide, by decide, by decide, by decide, fun _ _ => rfl⟩

/-- C37, evaluated: the start of `AXP_21264_Ibox_Init` leaves entry 2000 of the
choice predictor at 3 when it was 3; for every prior state it leaves every
entry of the choice predictor from 1024 up as it was.  It clears entries 0
to 1023 of the choice predictor, the global path history, the 1024 entries of
the local history table and of the local predictor and the 4096 entries of the
global predictor. -/
theorem init_leaves_choice_entries :
    cpuChoiceThree.choice_pred 2000 = 3 ∧
    (Ibox_Init_predictor cpuChoiceThree).choice_pred 2000 = 3 ∧
    (∀ (cpu : AXP_21264_CPU) (i : Nat), ONE_K ≤ i →
      (Ibox_Init_predictor cpu).choice_pred i = cpu.choice_pred i) ∧
    (∀ (cpu : AXP_21264_CPU) (i : Nat), i < ONE_K →
      (Ibox_Init_predictor cpu).choice_pred i = 0) ∧
    (∀ (cpu : AXP_21264_CPU),
      (Ibox_Init_predictor cpu).globalPathHistory = 0 ∧
      (∀ i, i < ONE_K → (Ibox_Init_predictor cpu).lcl_history i = 0) ∧
      (∀ i, i < ONE_K → (Ibox_Init_predictor cpu).lcl_pred i = 0) ∧
      (∀ i, i < FOUR_K → (Ibox_Init_predictor cpu).gbl_pred i = 0)) := by
  have key : ∀ (cpu : AXP_21264_CPU) (i : Nat), ONE_K ≤ i →
      (Ibox_Init_predictor cpu).choice_pred i = cpu.choice_pred i := by
    intro cpu i hi
    rw [(init_predictor_tables cpu).2.2.2.2 i, if_neg (by omega)]
  refine ⟨rfl, ?_, key, ?_, ?_⟩
  · rw [key cpuChoiceThree 2000 (by decide)]
    rfl
  · intro cpu i hi
    rw [(init_predictor_tables cpu).2.2.2.2 i, if_pos hi]
  · intro cpu
    obtain ⟨t0, t1, t2, t3, _⟩ := init_predictor_tables cpu
    refine ⟨t0, ?_, ?_, ?_⟩
    · intro i hi
      rw [t1 i, if_pos hi]
    · intro i hi
      rw [t2 i, if_pos hi]
    · intro i hi
      rw [t3 i, if_pos hi]

/-- C38, evaluated: with a pool of 4 IQ entries, four calls of
`AXP_GetNextIQEntry` hand out entries 0, 1, 2, 3; after entry 2 is returned the
head of the free-list holds index 2, and the next call hands out entry 0, which
has not been returned.  The same holds for the FQ.  For every state the entry
handed out is the one of index iqEFlStart (fqEFlStart), whatever the free-list
holds. -/
theorem queue_entry_handed_out_twice :
    (AXP_GetNextIQEntry 4 cpuCleared).1 = 0 ∧
    (AXP_GetNextIQEntry 4 (AXP_GetNextIQEntry 4 cpuCleared).2).1 = 1 ∧
    (AXP_GetNextIQEntry 4 (AXP_GetNextIQEntry 4 (AXP_GetNextIQEntry 4 cpuCleared).2).2).1 = 2 ∧
    (AXP_GetNextIQEntry 4 (AXP_GetNextIQEntry 4 (AXP_GetNextIQEntry 4
      (AXP_GetNextIQEntry 4 cpuCleared).2).2).2).1 = 3 ∧
    cpuQueuesOneBack.iqEFlStart = 0 ∧
    cpuQueuesOneBack.iqEFreelist cpuQueuesOneBack.iqEFlStart = 2 ∧
    (AXP_GetNextIQEntry 4 cpuQueuesOneBack).1 = 0 ∧
    cpuQueuesOneBack.fqEFlStart = 0 ∧
    cpuQueuesOneBack.fqEFreelist cpuQueuesOneBack.fqEFlStart = 2 ∧
    (AXP_GetNextFQEntry 4 cpuQueuesOneBack).1 = 0 ∧
    (∀ (len : Nat) (cpu : AXP_21264_CPU),
      (AXP_GetNextIQEntry len cpu).1 = cpu.iqEFlStart ∧
      (AXP_GetNextIQEntry len cpu).2.iqEFlStart = (cpu.iqEFlStart + 1) % len ∧
      (AXP_GetNextFQEntry len cpu).1 = cpu.fqEFlStart ∧
      (AXP_GetNextFQEntry len cpu).2.fqEFlStart = (cpu.fqEFlStart + 1) % len) := by
  refine ⟨by decide, by decide, by decide, by decide, by decide, by decide, by decide,
    by decide, by decide, by decide, fun _ _ => ⟨rfl, rfl, rfl, rfl⟩⟩

/-- C39, evaluated: in a ROB of 8 slots with robStart = 0, robEnd = 1 and slot 1
(outside the live range) WaitingRetirement, `AXP_21264_Ibox_Retire` ends with
robStart = 2, which is above robEnd, and slot 1 has been changed to Retired and
its result committed to pr[41]. -/
theorem retire_runs_past_robEnd :
    cpuRobStale.robStart = 0 ∧ cpuRobStale.robEnd = 1 ∧
    (cpuRobStale.rob 1).state = AXP_INS_STATE.WaitingRetirement ∧
    cpuRobStale.pr 41 = 0 ∧
    (AXP_21264_Ibox_Retire 8 0x19 (fun _ _ => 0) sampleMtprCodes cpuRobStale).robStart = 2 ∧
    (AXP_21264_Ibox_Retire 8 0x19 (fun _ _ => 0) sampleMtprCodes cpuRobStale).robEnd = 1 ∧
    ((AXP_21264_Ibox_Retire 8 0x19 (fun _ _ => 0) sampleMtprCodes cpuRobStale).rob 1).state =
      AXP_INS_STATE.Retired ∧
    (AXP_21264_Ibox_Retire 8 0x19 (fun _ _ => 0) sampleMtprCodes cpuRobStale).pr 41 = 9 := by
  decide

/-- C40, evaluated: the same branch decoded into a cleared slot and into a slot
that still holds function code 5 and hint 3 gives entries with function 0 and
5 and hint 0 and 3; the same `HW_MTPR` decoded into the two slots gives
function 0 and 5 and, with the sample pipeline table, pipeline class 1 and 2.
For every instruction of format Bra the entry keeps the function code and the
hint that the slot held. -/
theorem decode_keeps_stale_function :
    (AXP_Decode_Rename sampleDecodeTables sampleFuncCodes samplePALshadow 40 40
        cpuCleared insBR AXP_INS_TYPE.Bra 0x2000 robSlotRetired).map
      (fun r : AXP_21264_CPU × AXP_INSTRUCTION =>
        (r.2.function, r.2.type_hint_index, r.2.displacement)) = some (0, 0, 0x10) ∧
    (AXP_Decode_Rename sampleDecodeTables sampleFuncCodes samplePALshadow 40 40
        cpuCleared insBR AXP_INS_TYPE.Bra 0x2000 robSlotStale).map
      (fun r : AXP_21264_CPU × AXP_INSTRUCTION =>
        (r.2.function, r.2.type_hint_index, r.2.displacement)) = some (5, 3, 0x10) ∧
    (AXP_Decode_Rename sampleDecodeTables sampleFuncCodes samplePALshadow 40 40
        cpuCleared insHW_MTPR AXP_INS_TYPE.PAL 0x2001 robSlotRetired).map
      (fun r : AXP_21264_CPU × AXP_INSTRUCTION =>
        (r.2.function, r.2.type_hint_index, r.2.pipeline)) = some (0, 0x10, 1) ∧
    (AXP_Decode_Rename sampleDecodeTables sampleFuncCodes samplePALshadow 40 40
        cpuCleared insHW_MTPR AXP_INS_TYPE.PAL 0x2001 robSlotStale).map
      (fun r : AXP_21264_CPU × AXP_INSTRUCTION =>
        (r.2.function, r.2.type_hint_index, r.2.pipeline)) = some (5, 0x10, 2) ∧
    (∀ (T : AXP_DECODE_TABLES) (F : AXP_FUNC_CODES) (shadow : Nat → Nat) (isz fsz : Nat)
      (cpu : AXP_21264_CPU) (instr : AXP_INS_FMT) (instrPC : Nat) (slot : AXP_INSTRUCTION)
      (r : AXP_21264_CPU × AXP_INSTRUCTION),
      AXP_Decode_Rename T F shadow isz fsz cpu instr AXP_INS_TYPE.Bra instrPC slot = some r →
      r.2.function = slot.function ∧ r.2.type_hint_index = slot.type_hint_index) := by
  refine ⟨by decide, by decide, by decide, by decide, ?_⟩
  intro T F shadow isz fsz cpu instr instrPC slot r hr
  obtain ⟨h1, h2, _⟩ := decode_function_kept T F shadow isz fsz cpu instr AXP_INS_TYPE.Bra
    instrPC slot r hr
  exact ⟨h1.trans (decodeFormat_branch T instr slot).1,
    h2.trans (decodeFormat_branch T instr slot).2⟩

end DECaxp
